import Mathlib

/-!
# Order model of `core/order.go`

A shallow embedding of the order value model (`core/order.go`): the order record, its two
side-specific constructors, the two cascading volume updates, the derivation of the four
in/out fields and the two counter-order operations.

## Numbers

The source computes on Go `float64`.  Two arithmetics are used.

* Exact arithmetic (`F64` with `+`, `-`, `*`, `/`): a finite `float64` is a rational and an
  operation returns the exact result, with no rounding and no overflow.  The values a
  division by zero produces (`+Inf`, `-Inf`, `NaN`) are kept as values of their own and follow
  the IEEE-754 rules Go applies to them.
* Float64 arithmetic (`float64.mul`, `float64.sub`, `float64.div`): the exact result is
  rounded to the nearest binary64 value, ties to even, with subnormals and overflow to an
  infinity (`round64`).  Every operation is rounded on its own, as the Go compiler does on
  amd64 (no fused multiply-add).  The order code is embedded a second time on it, in the
  namespace `float64`.

Statements that rounding does not disturb (stored values, signs, monotonicity, the side
logic) are proved on exact arithmetic.  Statements that hold in exact arithmetic only are
refuted on float64 at concrete inputs, and the bound that does hold is proved there.  The
sign of a zero is not modelled in either (every zero is `+0`).
-/

namespace core

/-- A Go `float64`: a finite value (an exact rational here), an infinity or a NaN. -/
inductive F64 where
  | fin (q : ℚ)
  | posInf
  | negInf
  | nan
deriving DecidableEq

namespace F64

/-- Unary minus. -/
def neg : F64 → F64
  | fin q => fin (-q)
  | posInf => negInf
  | negInf => posInf
  | nan => nan

/-- The infinity with the sign of `q`, and NaN when `q = 0` (the value of `q * Inf`). -/
def infOfSign (q : ℚ) : F64 :=
  if q = 0 then nan else if 0 < q then posInf else negInf

/-- Go `x + y`. -/
def add : F64 → F64 → F64
  | fin a, fin b => fin (a + b)
  | nan, _ => nan
  | _, nan => nan
  | posInf, negInf => nan
  | negInf, posInf => nan
  | posInf, _ => posInf
  | negInf, _ => negInf
  | fin _, posInf => posInf
  | fin _, negInf => negInf

/-- Go `x - y`. -/
def sub (x y : F64) : F64 := add x (neg y)

/-- Go `x * y`. -/
def mul : F64 → F64 → F64
  | fin a, fin b => fin (a * b)
  | nan, _ => nan
  | _, nan => nan
  | fin a, posInf => infOfSign a
  | fin a, negInf => infOfSign (-a)
  | posInf, fin b => infOfSign b
  | negInf, fin b => infOfSign (-b)
  | posInf, posInf => posInf
  | negInf, negInf => posInf
  | posInf, negInf => negInf
  | negInf, posInf => negInf

/-- Go `x / y`: never fails; a zero divisor gives an infinity, or NaN for `0 / 0`. -/
def div : F64 → F64 → F64
  | fin a, fin b => if b = 0 then infOfSign a else fin (a / b)
  | nan, _ => nan
  | _, nan => nan
  | fin _, posInf => fin 0
  | fin _, negInf => fin 0
  | posInf, fin b => if 0 ≤ b then posInf else negInf
  | negInf, fin b => if 0 ≤ b then negInf else posInf
  | posInf, posInf => nan
  | posInf, negInf => nan
  | negInf, posInf => nan
  | negInf, negInf => nan

instance : Add F64 := ⟨add⟩
instance : Sub F64 := ⟨sub⟩
instance : Mul F64 := ⟨mul⟩
instance : Div F64 := ⟨div⟩

end F64

/-- Rounding of a rational toward zero at the 8th fractional digit. -/
def truncToward0 (x : ℚ) : ℚ :=
  if 0 ≤ x then ((⌊x * 10 ^ 8⌋ : ℤ) : ℚ) / 10 ^ 8 else ((⌈x * 10 ^ 8⌉ : ℤ) : ℚ) / 10 ^ 8

/-- Modelled from the spec: the precision utility `Trunc8`, which `updateVolumesInOut` calls
and whose body is not in `core/order.go`.  The spec: "rounding toward zero at the 8th
fractional digit".  The spec says nothing of an infinity or a NaN; they are passed through. -/
def Trunc8 : F64 → F64
  | F64.fin q => F64.fin (truncToward0 q)
  | x => x

/-- The type `OrderTransactionType` is a Go `uint`; only equality is used on it. -/
abbrev OrderTransactionType := Nat

/-- Bid - we are buying the base of a currency pair, or selling the quote. -/
def Bid : OrderTransactionType := 0

/-- Ask - we are selling the base of a currency pair, or buying the quote. -/
def Ask : OrderTransactionType := 1

/-- The field `Hit` is a pointer to a `Hit`, a type declared outside `core/order.go`; an order
only stores and copies the pointer, so it is modelled as an optional handle (`none` is
`nil`). -/
abbrev HitRef := Option Nat

/-- Order represents an order. -/
structure Order where
  Hit : HitRef
  Price : F64
  PriceOfQuoteToBase : F64
  BaseVolume : F64
  QuoteVolume : F64
  TransactionType : OrderTransactionType
  Fee : F64
  TakerFee : F64
  BaseVolumeIn : F64
  BaseVolumeOut : F64
  QuoteVolumeIn : F64
  QuoteVolumeOut : F64
  Progress : F64
deriving DecidableEq

/-- The Go zero value `Order{}`. -/
def Order.zero : Order :=
  { Hit := none, Price := F64.fin 0, PriceOfQuoteToBase := F64.fin 0, BaseVolume := F64.fin 0,
    QuoteVolume := F64.fin 0, TransactionType := 0, Fee := F64.fin 0, TakerFee := F64.fin 0,
    BaseVolumeIn := F64.fin 0, BaseVolumeOut := F64.fin 0, QuoteVolumeIn := F64.fin 0,
    QuoteVolumeOut := F64.fin 0, Progress := F64.fin 0 }

/-- The method `updateVolumesInOut`: derives the four in/out fields from the side. -/
def Order.updateVolumesInOut (o : Order) : Order :=
  if o.TransactionType = Bid then
    let o := { o with BaseVolumeIn := F64.fin 0 }
    let o := { o with QuoteVolumeIn := Trunc8 o.QuoteVolume }
    let o := { o with BaseVolumeOut := Trunc8 (o.BaseVolume - o.BaseVolume * o.TakerFee) }
    { o with QuoteVolumeOut := F64.fin 0 }
  else if o.TransactionType = Ask then
    let o := { o with BaseVolumeIn := Trunc8 o.BaseVolume }
    let o := { o with QuoteVolumeIn := F64.fin 0 }
    let o := { o with BaseVolumeOut := F64.fin 0 }
    { o with QuoteVolumeOut := Trunc8 (o.QuoteVolume - o.QuoteVolume * o.TakerFee) }
  else o

/-- UpdateBaseVolume cascade update on BaseVolume and QuoteVolume. -/
def Order.UpdateBaseVolume (o : Order) (baseVolume : F64) : Order :=
  let o := { o with BaseVolume := baseVolume }
  let o := { o with QuoteVolume := o.Price * o.BaseVolume }
  let o := { o with Fee := o.BaseVolume * o.TakerFee }
  o.updateVolumesInOut

/-- UpdateQuoteVolume cascade update on BaseVolume and QuoteVolume. -/
def Order.UpdateQuoteVolume (o : Order) (quoteVolume : F64) : Order :=
  let o := { o with QuoteVolume := quoteVolume }
  let o := { o with BaseVolume := o.QuoteVolume / o.Price }
  let o := { o with Fee := o.BaseVolume * o.TakerFee }
  o.updateVolumesInOut

/-- Init initialize an Order. -/
def Order.Init (o : Order) (price baseVolume : F64) : Order :=
  let o := { o with Price := price }
  let o := { o with PriceOfQuoteToBase := F64.fin 1 / price }
  let o := { o with TakerFee := F64.fin (0.10 / 100) }
  o.UpdateBaseVolume baseVolume

/-- InitAsk initialize an Order, setting the transactionType to Ask. -/
def Order.InitAsk (o : Order) (price baseVolume : F64) : Order :=
  let o := { o with TransactionType := Ask }
  o.Init price baseVolume

/-- InitBid initialize an Order, setting the transactionType to Bid. -/
def Order.InitBid (o : Order) (price baseVolume : F64) : Order :=
  let o := { o with TransactionType := Bid }
  o.Init price baseVolume

/-- NewAsk initialize an Order, setting the transactionType to Ask. -/
def NewAsk (price baseVolume : F64) : Order :=
  Order.zero.InitAsk price baseVolume

/-- NewBid returns an Order, setting the transactionType to Bid. -/
def NewBid (price baseVolume : F64) : Order :=
  Order.zero.InitBid price baseVolume

/-- CreateMatchingAsk returns an Ask order matching the current Bid (crossing the spread);
the Go result `(nil, err)` is `Except.error` and `(&m, nil)` is `Except.ok m`. -/
def Order.CreateMatchingAsk (o : Order) : Except String Order :=
  if o.TransactionType ≠ Bid then
    Except.error "order: not a bid"
  else
    let m := o
    let m := { m with TransactionType := Ask }
    Except.ok m

/-- CreateMatchingBid returns a Bid order matching the current Ask (crossing the spread). -/
def Order.CreateMatchingBid (o : Order) : Except String Order :=
  if o.TransactionType ≠ Ask then
    Except.error "order: not a ask"
  else
    let m := o
    let m := { m with TransactionType := Bid }
    Except.ok m

/-- A call of one of the two volume updates, with a finite volume. -/
inductive VolumeUpdate where
  | base (v : ℚ)
  | quote (v : ℚ)

/-- The volume a call passes. -/
def VolumeUpdate.volume : VolumeUpdate → ℚ
  | VolumeUpdate.base v => v
  | VolumeUpdate.quote v => v

/-- The order after one call: `o.UpdateBaseVolume(v)` or `o.UpdateQuoteVolume(v)`. -/
def Order.applyUpdate (o : Order) : VolumeUpdate → Order
  | VolumeUpdate.base v => o.UpdateBaseVolume (F64.fin v)
  | VolumeUpdate.quote v => o.UpdateQuoteVolume (F64.fin v)

/-- The order after a sequence of calls, made in the order of the list. -/
def Order.applyUpdates (o : Order) (us : List VolumeUpdate) : Order :=
  us.foldl Order.applyUpdate o

/-- The Bid row of the derivation table, as the spec writes it. -/
def BidRow (o : Order) : Prop :=
  o.BaseVolumeIn = F64.fin 0 ∧ o.QuoteVolumeOut = F64.fin 0 ∧
    o.QuoteVolumeIn = Trunc8 o.QuoteVolume ∧
    o.BaseVolumeOut = Trunc8 (o.BaseVolume * (F64.fin 1 - o.TakerFee))

/-- The Ask row of the derivation table, as the spec writes it. -/
def AskRow (o : Order) : Prop :=
  o.BaseVolumeOut = F64.fin 0 ∧ o.QuoteVolumeIn = F64.fin 0 ∧
    o.BaseVolumeIn = Trunc8 o.BaseVolume ∧
    o.QuoteVolumeOut = Trunc8 (o.QuoteVolume - o.QuoteVolume * o.TakerFee)

/-- The fee fields as the spec derives them: the taker fee is 0.001 and the fee is the base
volume times the taker fee. -/
def FeeDerived (o : Order) : Prop :=
  o.TakerFee = F64.fin 0.001 ∧ o.Fee = o.BaseVolume * o.TakerFee

/-- What a caller of `o.UpdateQuoteVolume(v)` gets.  The Go method has no result, so no
error value comes back, and no statement of its body can panic (a float64 division by zero
yields an infinity or a NaN): every call completes and leaves the updated order. -/
def Order.callUpdateQuoteVolume (o : Order) (quoteVolume : F64) : Except String Order :=
  Except.ok (o.UpdateQuoteVolume quoteVolume)

/-- What a caller of `NewBid(price, baseVolume)` gets.  The Go function returns an `Order`
and nothing else, and no statement on its path can panic: every call returns an order. -/
def callNewBid (price baseVolume : F64) : Except String Order :=
  Except.ok (NewBid price baseVolume)

/-- What a caller of `NewAsk(price, baseVolume)` gets: as for `NewBid`, always an order. -/
def callNewAsk (price baseVolume : F64) : Except String Order :=
  Except.ok (NewAsk price baseVolume)

/-- Go `x < y` on float64: false as soon as one side is NaN. -/
def F64.blt : F64 → F64 → Bool
  | F64.fin a, F64.fin b => decide (a < b)
  | F64.nan, _ => false
  | _, F64.nan => false
  | _, F64.negInf => false
  | F64.negInf, _ => true
  | F64.posInf, _ => false
  | F64.fin _, F64.posInf => true

/-- Go `x <= y` on float64: false as soon as one side is NaN. -/
def F64.ble : F64 → F64 → Bool
  | F64.fin a, F64.fin b => decide (a ≤ b)
  | F64.nan, _ => false
  | _, F64.nan => false
  | F64.negInf, _ => true
  | _, F64.posInf => true
  | F64.posInf, _ => false
  | F64.fin _, F64.negInf => false

instance : LT F64 := ⟨fun x y => F64.blt x y = true⟩
instance : LE F64 := ⟨fun x y => F64.ble x y = true⟩
instance (x y : F64) : Decidable (x < y) := inferInstanceAs (Decidable (F64.blt x y = true))
instance (x y : F64) : Decidable (x ≤ y) := inferInstanceAs (Decidable (F64.ble x y = true))

/-- Every volume of the order is at least 0. -/
def NonNegVolumes (o : Order) : Prop :=
  F64.fin 0 ≤ o.BaseVolume ∧ F64.fin 0 ≤ o.QuoteVolume ∧ F64.fin 0 ≤ o.Fee ∧
    F64.fin 0 ≤ o.BaseVolumeIn ∧ F64.fin 0 ≤ o.BaseVolumeOut ∧
    F64.fin 0 ≤ o.QuoteVolumeIn ∧ F64.fin 0 ≤ o.QuoteVolumeOut

/-- Each of the four in/out fields is a fixed point of `Trunc8`. -/
def InOutFixed (o : Order) : Prop :=
  Trunc8 o.BaseVolumeIn = o.BaseVolumeIn ∧ Trunc8 o.BaseVolumeOut = o.BaseVolumeOut ∧
    Trunc8 o.QuoteVolumeIn = o.QuoteVolumeIn ∧ Trunc8 o.QuoteVolumeOut = o.QuoteVolumeOut

/-- The fields no volume update writes are the same in both orders. -/
def SameFrame (o1 o : Order) : Prop :=
  o1.Price = o.Price ∧ o1.PriceOfQuoteToBase = o.PriceOfQuoteToBase ∧
    o1.TakerFee = o.TakerFee ∧ o1.TransactionType = o.TransactionType ∧
    o1.Hit = o.Hit ∧ o1.Progress = o.Progress

/-- The four in/out fields are the same in both orders. -/
def SameInOut (o1 o : Order) : Prop :=
  o1.BaseVolumeIn = o.BaseVolumeIn ∧ o1.BaseVolumeOut = o.BaseVolumeOut ∧
    o1.QuoteVolumeIn = o.QuoteVolumeIn ∧ o1.QuoteVolumeOut = o.QuoteVolumeOut

/-! ## The order code on float64 arithmetic

The definitions above compute on exact rationals.  The ones below run the same code with
every arithmetic result rounded to the nearest float64, as Go does. -/

/-- Rounding of a rational to the nearest integer, a tie going to the even one. -/
def roundHalfEven (x : ℚ) : ℤ :=
  if x - ⌊x⌋ < 1 / 2 then ⌊x⌋
  else if 1 / 2 < x - ⌊x⌋ then ⌊x⌋ + 1
  else if ⌊x⌋ % 2 = 0 then ⌊x⌋
  else ⌊x⌋ + 1

/-- The binary exponent at which a float64 holds `q`: that of the leading bit of `q`, and
-1022 for a subnormal. -/
def exponent64 (q : ℚ) : ℤ := max (Int.log 2 |q|) (-1022)

/-- The float64 nearest to `q` (IEEE-754 binary64, round to nearest, ties to even): 53
significant bits at the exponent of `q`, and an infinity from 2^1024 on. -/
def round64 (q : ℚ) : F64 :=
  if 2 ^ 1024
      ≤ |(roundHalfEven (q / 2 ^ (exponent64 q - 52)) : ℚ) * 2 ^ (exponent64 q - 52)| then
    (if 0 < q then F64.posInf else F64.negInf)
  else F64.fin (roundHalfEven (q / 2 ^ (exponent64 q - 52)) * 2 ^ (exponent64 q - 52))

/-- The float64 result of an operation whose exact result is `x`. -/
def F64.round : F64 → F64
  | F64.fin q => round64 q
  | x => x

namespace float64

/-- Go `x * y` on float64: the exact product, rounded. -/
def mul (x y : F64) : F64 := (x * y).round

/-- Go `x - y` on float64: the exact difference, rounded. -/
def sub (x y : F64) : F64 := (x - y).round

/-- Go `x / y` on float64: the exact quotient, rounded. -/
def div (x y : F64) : F64 := (x / y).round

/-- Modelled from the spec: the precision utility `Trunc8` on float64, whose body is not in
`core/order.go`.  The spec: "rounding toward zero at the 8th fractional digit"; in float64
arithmetic the value is scaled by 10^8, cut to an integer toward zero and scaled back.  On
exact arithmetic this is `truncToward0`, and on float64 it gives the values of the spec's
two examples.  An infinity or a NaN is passed through. -/
def Trunc8 (x : F64) : F64 :=
  match mul x (F64.fin (10 ^ 8)) with
  | F64.fin y => div (F64.fin ((if 0 ≤ y then ⌊y⌋ else ⌈y⌉ : ℤ) : ℚ)) (F64.fin (10 ^ 8))
  | z => z

/-- The method `updateVolumesInOut` on float64. -/
def updateVolumesInOut (o : Order) : Order :=
  if o.TransactionType = Bid then
    let o := { o with BaseVolumeIn := F64.fin 0 }
    let o := { o with QuoteVolumeIn := Trunc8 o.QuoteVolume }
    let o := { o with BaseVolumeOut := Trunc8 (sub o.BaseVolume (mul o.BaseVolume o.TakerFee)) }
    { o with QuoteVolumeOut := F64.fin 0 }
  else if o.TransactionType = Ask then
    let o := { o with BaseVolumeIn := Trunc8 o.BaseVolume }
    let o := { o with QuoteVolumeIn := F64.fin 0 }
    let o := { o with BaseVolumeOut := F64.fin 0 }
    { o with QuoteVolumeOut := Trunc8 (sub o.QuoteVolume (mul o.QuoteVolume o.TakerFee)) }
  else o

/-- The method `UpdateBaseVolume` on float64. -/
def UpdateBaseVolume (o : Order) (baseVolume : F64) : Order :=
  let o := { o with BaseVolume := baseVolume }
  let o := { o with QuoteVolume := mul o.Price o.BaseVolume }
  let o := { o with Fee := mul o.BaseVolume o.TakerFee }
  updateVolumesInOut o

/-- The method `UpdateQuoteVolume` on float64. -/
def UpdateQuoteVolume (o : Order) (quoteVolume : F64) : Order :=
  let o := { o with QuoteVolume := quoteVolume }
  let o := { o with BaseVolume := div o.QuoteVolume o.Price }
  let o := { o with Fee := mul o.BaseVolume o.TakerFee }
  updateVolumesInOut o

/-- The method `Init` on float64; the constant `0.10 / 100` is the float64 nearest to
0.001. -/
def Init (o : Order) (price baseVolume : F64) : Order :=
  let o := { o with Price := price }
  let o := { o with PriceOfQuoteToBase := div (F64.fin 1) price }
  let o := { o with TakerFee := round64 (0.10 / 100) }
  UpdateBaseVolume o baseVolume

/-- The method `InitAsk` on float64. -/
def InitAsk (o : Order) (price baseVolume : F64) : Order :=
  let o := { o with TransactionType := Ask }
  Init o price baseVolume

/-- The method `InitBid` on float64. -/
def InitBid (o : Order) (price baseVolume : F64) : Order :=
  let o := { o with TransactionType := Bid }
  Init o price baseVolume

/-- The function `NewAsk` on float64. -/
def NewAsk (price baseVolume : F64) : Order :=
  InitAsk Order.zero price baseVolume

/-- The function `NewBid` on float64. -/
def NewBid (price baseVolume : F64) : Order :=
  InitBid Order.zero price baseVolume

/-- The order after one call, the volume being the float64 that the decimal `v` denotes. -/
def applyUpdate (o : Order) : VolumeUpdate → Order
  | VolumeUpdate.base v => UpdateBaseVolume o (round64 v)
  | VolumeUpdate.quote v => UpdateQuoteVolume o (round64 v)

/-- The order after a sequence of calls, made in the order of the list. -/
def applyUpdates (o : Order) (us : List VolumeUpdate) : Order :=
  us.foldl applyUpdate o

/-- The order after `o.UpdateBaseVolume(v)` followed by `UpdateQuoteVolume` with the quote
volume the first call stored. -/
def roundTrip (o : Order) (v : F64) : Order :=
  UpdateQuoteVolume (UpdateBaseVolume o v) (UpdateBaseVolume o v).QuoteVolume

/-- The Bid row of the derivation table, with the net base volume as the table and the
code write it: `baseVolume − baseVolume×takerFee`. -/
def BidRow (o : Order) : Prop :=
  o.BaseVolumeIn = F64.fin 0 ∧ o.QuoteVolumeOut = F64.fin 0 ∧
    o.QuoteVolumeIn = Trunc8 o.QuoteVolume ∧
    o.BaseVolumeOut = Trunc8 (sub o.BaseVolume (mul o.BaseVolume o.TakerFee))

end float64

/-! ## The exchange abstraction (package `core`, declared outside the files at hand) -/

/-- Modelled from the spec: the type `core.ExchangeSettings`, whose declaration is missing.
The factory writes its fields `APIKey` and `APISecret`; the "venue-wide parameters (fee
schedule, precision, pair metadata)" a settings provider returns are kept as one handle. -/
structure ExchangeSettings where
  APIKey : String
  APISecret : String
  Params : Nat

/-- Modelled from the spec: the type `core.Portfolio`, whose declaration is missing; the
factory reads its field `Positions`, "current account positions", kept as handles. -/
structure Portfolio where
  Positions : List Nat

/-- The state `core.NewPortfolioStateFromPositions` builds, a type declared outside the
files at hand: kept as a handle. -/
abbrev PortfolioState := Nat

/-- The types `core.Hit`, `core.Orderbook` and `core.OrderDispatched` are declared outside
the files at hand and the factory only stores callables over them: kept as handles. -/
abbrev Handle := Nat

/-- Modelled from the spec: the type `core.Exchange`, whose declaration is missing: "identity
(`name`), set of enabled trading pairs, auth settings, and four bound operations".  A Go
func field that is `nil` is `none`. -/
structure Exchange where
  Name : String
  PairsEnabled : List String
  ExchangeSettings : core.ExchangeSettings
  FuncGetSettings : Option (Unit → Except String core.ExchangeSettings)
  FuncGetOrderbook : Option (Handle → Except String Handle)
  FuncGetPortfolio : Option (core.ExchangeSettings → Except String Portfolio)
  FuncPostOrder : Option (Order → core.ExchangeSettings → Except String Handle)

/-- The Go zero value `core.Exchange{}`. -/
def Exchange.zero : Exchange :=
  { Name := "", PairsEnabled := [],
    ExchangeSettings := { APIKey := "", APISecret := "", Params := 0 },
    FuncGetSettings := none, FuncGetOrderbook := none, FuncGetPortfolio := none,
    FuncPostOrder := none }

/-- Modelled from the spec: the method `Exchange.LoadPairsEnabled`, whose body is missing;
it stores the "delimiter-separated pair list" of the configuration as the enabled pairs.
The splitting is a parameter. -/
def Exchange.LoadPairsEnabled (e : Exchange) (split : String → List String) (pairs : String) :
    Exchange :=
  { e with PairsEnabled := split pairs }

/-- Modelled from the spec: the method `Exchange.LoadSettings`, whose body is missing: "Load
venue-wide settings via the bound settings-provider".  The spec states no effect for a
provider that is not bound or that fails; the settings are then left as they are. -/
def Exchange.LoadSettings (e : Exchange) : Exchange :=
  match e.FuncGetSettings with
  | some f =>
    match f () with
    | Except.ok settings => { e with ExchangeSettings := settings }
    | Except.error _ => e
  | none => e

/-- Modelled from the spec: the method `Exchange.GetPortfolio`, whose body is missing: "Fetch
current portfolio via the bound portfolio-provider", which "given resolved auth settings,
returns current account positions or fails"; with no provider bound the call fails "with a
not configured condition". -/
def Exchange.GetPortfolio (e : Exchange) : Except String Portfolio :=
  match e.FuncGetPortfolio with
  | some f => f e.ExchangeSettings
  | none => Except.error "not configured"

end core

/-! ## The exchange factory (`exchanges/factory.go`) -/

namespace exchanges

open core

/-- The interface `standardizedExchange` enforces standard functions for all supported
exchanges.  Each Go method takes no argument and returns the callable to bind; a field here
is that callable. -/
structure standardizedExchange where
  GetSettings : Unit → Except String ExchangeSettings
  GetOrderbook : Handle → Except String Handle
  GetPortfolio : ExchangeSettings → Except String Portfolio
  PostOrder : Order → ExchangeSettings → Except String Handle

/-- What the factory uses and `exchanges/factory.go` does not define: the configuration
lookup `viper.GetStringMapString` (a missing key of the map it returns reads as the empty
string), the two providers `binance.Binance{}` and `liqui.Liqui{}`, the splitting of the
pair list, and `core.NewPortfolioStateFromPositions`. -/
structure Env where
  GetStringMapString : String → String → String
  Binance : standardizedExchange
  Liqui : standardizedExchange
  splitPairs : String → List String
  NewPortfolioStateFromPositions : List Nat → PortfolioState

/-- What a run of the factory does to the outside, in the order it happens: the two
`fmt.Println` calls and the call `manager.UpdateWithNewState(state, incremental)` on the
shared portfolio manager. -/
inductive Effect where
  | printBuilding (name : String) (config : String → String)
  | printPortfolioError (err : String)
  | UpdateWithNewState (state : PortfolioState) (incremental : Bool)

/-- The calls of `UpdateWithNewState` among the effects, with their two arguments. -/
def managerCalls : List Effect → List (PortfolioState × Bool)
  | [] => []
  | Effect.UpdateWithNewState state incremental :: rest =>
    (state, incremental) :: managerCalls rest
  | _ :: rest => managerCalls rest

/-- The function `injectStandardizedMethods`: binds the four callables of the provider. -/
def injectStandardizedMethods (b : Exchange) (exch : standardizedExchange) : Exchange :=
  let b := { b with FuncGetSettings := some exch.GetSettings }
  let b := { b with FuncGetOrderbook := some exch.GetOrderbook }
  let b := { b with FuncGetPortfolio := some exch.GetPortfolio }
  { b with FuncPostOrder := some exch.PostOrder }

/-- The method `Factory.BuildExchange`: the exchange it returns and the effects of the run.
The Go function has the single result `core.Exchange`. -/
def BuildExchange (env : Env) (name : String) : Exchange × List Effect :=
  let key := String.intercalate "." ["exchanges", name]
  let config := env.GetStringMapString key
  let out := [Effect.printBuilding name config]
  let exchange := Exchange.zero
  let exchange := { exchange with Name := name }
  let exchange := exchange.LoadPairsEnabled env.splitPairs (config "pairs_enabled")
  let exchange :=
    if name = "Binance" then injectStandardizedMethods exchange env.Binance
    else if name = "Liqui" then injectStandardizedMethods exchange env.Liqui
    else exchange
  let exchange := exchange.LoadSettings
  let exchange :=
    { exchange with
      ExchangeSettings := { exchange.ExchangeSettings with APIKey := config "api_key" } }
  let exchange :=
    { exchange with
      ExchangeSettings := { exchange.ExchangeSettings with APISecret := config "api_secret" } }
  match exchange.GetPortfolio with
  | Except.ok portfolio =>
    let state := env.NewPortfolioStateFromPositions portfolio.Positions
    (exchange, out ++ [Effect.UpdateWithNewState state false])
  | Except.error err => (exchange, out ++ [Effect.printPortfolioError err])

/-- An example environment: the configuration holds a key and a secret for every venue, the
provider of Binance answers every request, the provider of Liqui fails every request. -/
def exampleEnv : Env :=
  { GetStringMapString := fun _ field =>
      if field = "api_key" then "key" else if field = "api_secret" then "secret" else "",
    Binance :=
      { GetSettings := fun _ => Except.ok { APIKey := "", APISecret := "", Params := 7 },
        GetOrderbook := fun _ => Except.ok 0,
        GetPortfolio := fun _ => Except.ok { Positions := [1, 2] },
        PostOrder := fun _ _ => Except.ok 0 },
    Liqui :=
      { GetSettings := fun _ => Except.error "connectivity",
        GetOrderbook := fun _ => Except.error "connectivity",
        GetPortfolio := fun _ => Except.error "connectivity",
        PostOrder := fun _ _ => Except.error "connectivity" },
    splitPairs := fun pairs => pairs.splitOn ",",
    NewPortfolioStateFromPositions := fun positions => positions.length }

/-- All four bound operations of the exchange are unset (`nil`). -/
def NoOperationBound (e : Exchange) : Prop :=
  e.FuncGetSettings = none ∧ e.FuncGetOrderbook = none ∧ e.FuncGetPortfolio = none ∧
    e.FuncPostOrder = none

/-- A run of `BuildExchange` as its caller sees it.  The Go function has no error result,
and with the methods of `core.Exchange` as the spec describes them no statement of its
body panics: every call returns an exchange. -/
def callBuildExchange (env : Env) (name : String) : Except String (Exchange × List Effect) :=
  Except.ok (BuildExchange env name)

end exchanges

namespace core

/-! ## Arithmetic on finite values -/

@[simp] theorem F64.fin_add_fin (a b : ℚ) : F64.fin a + F64.fin b = F64.fin (a + b) := rfl

@[simp] theorem F64.fin_sub_fin (a b : ℚ) : F64.fin a - F64.fin b = F64.fin (a - b) := by
  show F64.add (F64.fin a) (F64.neg (F64.fin b)) = _
  simp [F64.add, F64.neg, sub_eq_add_neg]

@[simp] theorem F64.fin_mul_fin (a b : ℚ) : F64.fin a * F64.fin b = F64.fin (a * b) := rfl

theorem F64.fin_div_fin (a b : ℚ) (hb : b ≠ 0) : F64.fin a / F64.fin b = F64.fin (a / b) := by
  show F64.div (F64.fin a) (F64.fin b) = _
  simp [F64.div, hb]

@[simp] theorem Trunc8_fin (q : ℚ) : Trunc8 (F64.fin q) = F64.fin (truncToward0 q) := rfl

/-- A value with at most 8 fractional digits is left as it is. -/
theorem truncToward0_of_int (n : ℤ) : truncToward0 ((n : ℚ) / 10 ^ 8) = (n : ℚ) / 10 ^ 8 := by
  have h : (n : ℚ) / 10 ^ 8 * 10 ^ 8 = (n : ℚ) := by field_simp
  unfold truncToward0
  rw [h, Int.floor_intCast, Int.ceil_intCast]
  simp

@[simp] theorem F64.fin_lt_fin (a b : ℚ) : F64.fin a < F64.fin b ↔ a < b := by
  show F64.blt (F64.fin a) (F64.fin b) = true ↔ a < b
  simp [F64.blt]

@[simp] theorem F64.fin_le_fin (a b : ℚ) : F64.fin a ≤ F64.fin b ↔ a ≤ b := by
  show F64.ble (F64.fin a) (F64.fin b) = true ↔ a ≤ b
  simp [F64.ble]

/-! ## Rounding toward zero -/

theorem truncToward0_of_nonneg {x : ℚ} (hx : 0 ≤ x) :
    truncToward0 x = ((⌊x * 10 ^ 8⌋ : ℤ) : ℚ) / 10 ^ 8 := by
  simp [truncToward0, hx]

theorem truncToward0_of_neg {x : ℚ} (hx : x < 0) :
    truncToward0 x = ((⌈x * 10 ^ 8⌉ : ℤ) : ℚ) / 10 ^ 8 := by
  simp [truncToward0, not_le.mpr hx]

/-- The result always has at most 8 fractional digits. -/
theorem truncToward0_is_int (x : ℚ) : ∃ n : ℤ, truncToward0 x = (n : ℚ) / 10 ^ 8 := by
  by_cases hx : 0 ≤ x
  · exact ⟨_, truncToward0_of_nonneg hx⟩
  · exact ⟨_, truncToward0_of_neg (not_le.mp hx)⟩

theorem truncToward0_idem (x : ℚ) : truncToward0 (truncToward0 x) = truncToward0 x := by
  obtain ⟨n, hn⟩ := truncToward0_is_int x
  rw [hn, truncToward0_of_int]

theorem truncToward0_nonneg {x : ℚ} (hx : 0 ≤ x) : 0 ≤ truncToward0 x := by
  rw [truncToward0_of_nonneg hx]
  have h : (0 : ℤ) ≤ ⌊x * 10 ^ 8⌋ := Int.floor_nonneg.mpr (by positivity)
  have h' : (0 : ℚ) ≤ ((⌊x * 10 ^ 8⌋ : ℤ) : ℚ) := by exact_mod_cast h
  positivity

/-- Rounding toward zero never raises a non-negative value. -/
theorem truncToward0_le {x : ℚ} (hx : 0 ≤ x) : truncToward0 x ≤ x := by
  rw [truncToward0_of_nonneg hx, div_le_iff₀ (by norm_num)]
  exact Int.floor_le _

/-- Rounding toward zero lowers a non-negative value by less than one unit of the 8th
fractional digit. -/
theorem truncToward0_gt {x : ℚ} (hx : 0 ≤ x) : x - 1 / 10 ^ 8 < truncToward0 x := by
  rw [truncToward0_of_nonneg hx, lt_div_iff₀ (by norm_num)]
  have h := Int.lt_floor_add_one (x * 10 ^ 8)
  have e : (x - 1 / 10 ^ 8) * 10 ^ 8 = x * 10 ^ 8 - 1 := by ring
  rw [e]
  linarith

theorem truncToward0_mono {x y : ℚ} (hx : 0 ≤ x) (hxy : x ≤ y) :
    truncToward0 x ≤ truncToward0 y := by
  rw [truncToward0_of_nonneg hx, truncToward0_of_nonneg (hx.trans hxy)]
  have h : ⌊x * 10 ^ 8⌋ ≤ ⌊y * 10 ^ 8⌋ :=
    Int.floor_le_floor (mul_le_mul_of_nonneg_right hxy (by norm_num))
  have h' : ((⌊x * 10 ^ 8⌋ : ℤ) : ℚ) ≤ ((⌊y * 10 ^ 8⌋ : ℤ) : ℚ) := by exact_mod_cast h
  exact div_le_div_of_nonneg_right h' (by norm_num)

/-- A non-negative value keeps a positive part exactly when it reaches one unit of the 8th
fractional digit. -/
theorem truncToward0_pos_iff {x : ℚ} (hx : 0 ≤ x) : 0 < truncToward0 x ↔ 1 / 10 ^ 8 ≤ x := by
  rw [truncToward0_of_nonneg hx]
  have h1 : (0 : ℚ) < ((⌊x * 10 ^ 8⌋ : ℤ) : ℚ) / 10 ^ 8 ↔ (0 : ℤ) < ⌊x * 10 ^ 8⌋ := by
    rw [div_pos_iff_of_pos_right (by norm_num)]
    exact_mod_cast Iff.rfl
  rw [h1, Int.floor_pos, div_le_iff₀ (by norm_num)]

/-! ## Rounding to float64 -/

theorem roundHalfEven_eq_of_close {x : ℚ} {m : ℤ} (h : |x - m| < 1 / 2) :
    roundHalfEven x = m := by
  rw [abs_lt] at h
  obtain ⟨h1, h2⟩ := h
  by_cases hm : (m : ℚ) ≤ x
  · have hf : ⌊x⌋ = m := by
      rw [Int.floor_eq_iff]; constructor <;> linarith
    simp only [roundHalfEven, hf]
    rw [if_pos (by linarith)]
  · have hm1 : x < m := not_le.mp hm
    have hf : ⌊x⌋ = m - 1 := by
      rw [Int.floor_eq_iff]; push_cast; constructor <;> linarith
    simp only [roundHalfEven, hf]
    push_cast
    rw [if_neg (by linarith), if_pos (by linarith)]
    ring

theorem exponent64_eq {q : ℚ} {e : ℤ} (he : -1022 ≤ e) (hlo : (2 : ℚ) ^ e ≤ |q|)
    (hhi : |q| < (2 : ℚ) ^ (e + 1)) : exponent64 q = e := by
  have hpos : 0 < |q| := lt_of_lt_of_le (by positivity) hlo
  have h1 : e ≤ Int.log 2 |q| :=
    (Int.zpow_le_iff_le_log (by norm_num) hpos).mp (by exact_mod_cast hlo)
  have h2 : Int.log 2 |q| < e + 1 :=
    (Int.lt_zpow_iff_log_lt (by norm_num) hpos).mp (by exact_mod_cast hhi)
  unfold exponent64
  rw [max_eq_left (by omega)]
  omega

/-- The float64 nearest to `q`, from the exponent `e` of `q` and the integer `m` nearest to
`q / 2^(e-52)`. -/
theorem round64_eval (q y : ℚ) (e m : ℤ) (he : -1022 ≤ e) (hlo : (2 : ℚ) ^ e ≤ |q|)
    (hhi : |q| < (2 : ℚ) ^ (e + 1)) (hm : |q / 2 ^ (e - 52) - m| < 1 / 2)
    (hy : y = m * 2 ^ (e - 52)) (hfin : |y| < 2 ^ 1024) : round64 q = F64.fin y := by
  unfold round64
  rw [exponent64_eq he hlo hhi, roundHalfEven_eq_of_close hm, ← hy, if_neg (not_le.mpr hfin)]

theorem roundHalfEven_tie {x : ℚ} {f : ℤ} (hx : x = f + 1 / 2) :
    roundHalfEven x = if f % 2 = 0 then f else f + 1 := by
  have hf : ⌊x⌋ = f := by
    rw [Int.floor_eq_iff, hx]; constructor <;> linarith
  simp only [roundHalfEven, hf]
  rw [if_neg (by rw [hx]; norm_num), if_neg (by rw [hx]; norm_num)]

/-- The float64 nearest to `q` when `q` lies halfway between two float64: the one with the
even significand `m`. -/
theorem round64_eval_tie (q y : ℚ) (e m f : ℤ) (he : -1022 ≤ e) (hlo : (2 : ℚ) ^ e ≤ |q|)
    (hhi : |q| < (2 : ℚ) ^ (e + 1)) (hx : q / 2 ^ (e - 52) = f + 1 / 2)
    (hm : (if f % 2 = 0 then f else f + 1) = m)
    (hy : y = m * 2 ^ (e - 52)) (hfin : |y| < 2 ^ 1024) : round64 q = F64.fin y := by
  unfold round64
  rw [exponent64_eq he hlo hhi, roundHalfEven_tie hx, hm, ← hy, if_neg (not_le.mpr hfin)]

theorem float64.mul_fin (a b y : ℚ) (h : round64 (a * b) = F64.fin y) :
    float64.mul (F64.fin a) (F64.fin b) = F64.fin y := h

theorem float64.sub_fin (a b y : ℚ) (h : round64 (a - b) = F64.fin y) :
    float64.sub (F64.fin a) (F64.fin b) = F64.fin y := by
  unfold float64.sub
  rw [F64.fin_sub_fin]
  exact h

theorem float64.div_fin (a b y : ℚ) (hb : b ≠ 0) (h : round64 (a / b) = F64.fin y) :
    float64.div (F64.fin a) (F64.fin b) = F64.fin y := by
  unfold float64.div
  rw [F64.fin_div_fin _ _ hb]
  exact h

/-- The value of `Trunc8` on float64 from its three steps. -/
theorem float64.Trunc8_eval (x y z : ℚ) (k : ℤ)
    (h1 : float64.mul (F64.fin x) (F64.fin (10 ^ 8)) = F64.fin y) (hy : 0 ≤ y)
    (hk : ⌊y⌋ = k)
    (h2 : float64.div (F64.fin (k : ℚ)) (F64.fin (10 ^ 8)) = F64.fin z) :
    float64.Trunc8 (F64.fin x) = F64.fin z := by
  unfold float64.Trunc8
  rw [h1]
  simp only [hy, if_true, hk]
  exact h2

theorem roundHalfEven_error (x : ℚ) : |(roundHalfEven x : ℚ) - x| ≤ 1 / 2 := by
  have h1 := Int.floor_le x
  have h2 := Int.lt_floor_add_one x
  unfold roundHalfEven
  rw [abs_le]
  split_ifs with a b c
  · constructor <;> linarith
  · push_cast; constructor <;> linarith
  · have hab : x - ⌊x⌋ = 1 / 2 := le_antisymm (not_lt.mp b) (not_lt.mp a)
    constructor <;> linarith
  · have hab : x - ⌊x⌋ = 1 / 2 := le_antisymm (not_lt.mp b) (not_lt.mp a)
    push_cast; constructor <;> linarith

/-- In the normal range a rounding to float64 moves a value by at most 2^-53 of itself. -/
theorem round64_rel_error (q : ℚ) (hlo : (2 : ℚ) ^ (-1022 : ℤ) ≤ |q|)
    (hhi : |q| ≤ (2 : ℚ) ^ (1023 : ℤ)) :
    ∃ y, round64 q = F64.fin y ∧ |y - q| ≤ |q| / 2 ^ 53 := by
  have hpos : 0 < |q| := lt_of_lt_of_le (by positivity) hlo
  have hb : (1 : ℕ) < 2 := by norm_num
  have h1 : (2 : ℚ) ^ Int.log 2 |q| ≤ |q| := by
    have := Int.zpow_log_le_self hb hpos
    exact_mod_cast this
  have h2 : |q| < (2 : ℚ) ^ (Int.log 2 |q| + 1) := by
    have := Int.lt_zpow_succ_log_self hb |q|
    exact_mod_cast this
  have he1 : -1022 ≤ Int.log 2 |q| :=
    (Int.zpow_le_iff_le_log hb hpos).mp (by exact_mod_cast hlo)
  have he2 : Int.log 2 |q| < 1024 :=
    (Int.lt_zpow_iff_log_lt hb hpos).mp
      (by
        have : |q| < (2 : ℚ) ^ (1024 : ℤ) := lt_of_le_of_lt hhi (by norm_num)
        exact_mod_cast this)
  have hexp : exponent64 q = Int.log 2 |q| := exponent64_eq he1 h1 h2
  set e := Int.log 2 |q| with he
  have hulp : (0 : ℚ) < 2 ^ (e - 52) := by positivity
  have herr := roundHalfEven_error (q / 2 ^ (e - 52))
  have hsplit : (2 : ℚ) ^ (e - 52) = 2 ^ e / 2 ^ 52 := by
    rw [zpow_sub₀ (by norm_num)]; norm_num
  have hy : |(roundHalfEven (q / 2 ^ (e - 52)) : ℚ) * 2 ^ (e - 52) - q| ≤ |q| / 2 ^ 53 := by
    have e1 : (roundHalfEven (q / 2 ^ (e - 52)) : ℚ) * 2 ^ (e - 52) - q
        = ((roundHalfEven (q / 2 ^ (e - 52)) : ℚ) - q / 2 ^ (e - 52)) * 2 ^ (e - 52) := by
      field_simp
    rw [e1, abs_mul, abs_of_pos hulp]
    calc |(roundHalfEven (q / 2 ^ (e - 52)) : ℚ) - q / 2 ^ (e - 52)| * 2 ^ (e - 52)
        ≤ 1 / 2 * 2 ^ (e - 52) := mul_le_mul_of_nonneg_right herr hulp.le
      _ = 2 ^ e / 2 ^ 53 := by rw [hsplit]; ring
      _ ≤ |q| / 2 ^ 53 := div_le_div_of_nonneg_right h1 (by positivity)
  refine ⟨(roundHalfEven (q / 2 ^ (e - 52)) : ℚ) * 2 ^ (e - 52), ?_, hy⟩
  unfold round64
  rw [hexp]
  rw [if_neg]
  rw [not_le]
  have h3 : |(roundHalfEven (q / 2 ^ (e - 52)) : ℚ) * 2 ^ (e - 52)| ≤ |q| + |q| / 2 ^ 53 := by
    have := abs_sub_abs_le_abs_sub ((roundHalfEven (q / 2 ^ (e - 52)) : ℚ) * 2 ^ (e - 52)) q
    linarith
  have h4 : |q| + |q| / 2 ^ 53 ≤ 2 ^ (1023 : ℤ) + 2 ^ (1023 : ℤ) / 2 ^ 53 := by
    have : |q| / 2 ^ 53 ≤ (2 : ℚ) ^ (1023 : ℤ) / 2 ^ 53 := div_le_div_of_nonneg_right hhi (by positivity)
    linarith
  have h5 : (2 : ℚ) ^ (1023 : ℤ) + 2 ^ (1023 : ℤ) / 2 ^ 53 < 2 ^ 1024 := by norm_num
  linarith


theorem round64_zero : round64 0 = F64.fin 0 := by
  have hr : roundHalfEven 0 = 0 := roundHalfEven_eq_of_close (by norm_num)
  unfold round64
  simp [hr]

/-- Below the normal range a non-negative value is rounded to a float64 between 0 and
2^-1022. -/
theorem round64_small (q : ℚ) (h0 : 0 ≤ q) (hq : q < (2 : ℚ) ^ (-1022 : ℤ)) :
    ∃ y, round64 q = F64.fin y ∧ 0 ≤ y ∧ y ≤ (2 : ℚ) ^ (-1022 : ℤ) := by
  rcases h0.eq_or_lt with h | hpos
  · subst h
    exact ⟨0, round64_zero, le_refl 0, by positivity⟩
  · have hb : (1 : ℕ) < 2 := by norm_num
    have habs : |q| = q := abs_of_pos hpos
    have hlog : Int.log 2 |q| < -1022 := by
      rw [habs]
      exact (Int.lt_zpow_iff_log_lt hb hpos).mp (by exact_mod_cast hq)
    have hexp : exponent64 q = -1022 := by
      unfold exponent64
      exact max_eq_right hlog.le
    have hulp : (0 : ℚ) < 2 ^ ((-1022 : ℤ) - 52) := by positivity
    have herr := roundHalfEven_error (q / 2 ^ ((-1022 : ℤ) - 52))
    rw [abs_le] at herr
    have hx0 : 0 < q / 2 ^ ((-1022 : ℤ) - 52) := div_pos hpos hulp
    have hx1 : q / 2 ^ ((-1022 : ℤ) - 52) < 2 ^ 52 := by
      rw [div_lt_iff₀ hulp]
      calc q < (2 : ℚ) ^ (-1022 : ℤ) := hq
        _ = 2 ^ 52 * 2 ^ ((-1022 : ℤ) - 52) := by
          rw [zpow_sub₀ (by norm_num)]; norm_num
    have hm0 : (0 : ℤ) ≤ roundHalfEven (q / 2 ^ ((-1022 : ℤ) - 52)) := by
      have : (-1 : ℚ) < (roundHalfEven (q / 2 ^ ((-1022 : ℤ) - 52)) : ℚ) := by linarith
      have : (-1 : ℤ) < roundHalfEven (q / 2 ^ ((-1022 : ℤ) - 52)) := by exact_mod_cast this
      omega
    have hm1 : roundHalfEven (q / 2 ^ ((-1022 : ℤ) - 52)) ≤ (2 : ℤ) ^ 52 := by
      have : (roundHalfEven (q / 2 ^ ((-1022 : ℤ) - 52)) : ℚ) < 2 ^ 52 + 1 := by linarith
      have : roundHalfEven (q / 2 ^ ((-1022 : ℤ) - 52)) < (2 : ℤ) ^ 52 + 1 := by exact_mod_cast this
      omega
    have hm0q : (0 : ℚ) ≤ (roundHalfEven (q / 2 ^ ((-1022 : ℤ) - 52)) : ℚ) := by exact_mod_cast hm0
    have hm1q : (roundHalfEven (q / 2 ^ ((-1022 : ℤ) - 52)) : ℚ) ≤ 2 ^ 52 := by exact_mod_cast hm1
    have hy0 : 0 ≤ (roundHalfEven (q / 2 ^ ((-1022 : ℤ) - 52)) : ℚ) * 2 ^ ((-1022 : ℤ) - 52) :=
      mul_nonneg hm0q hulp.le
    have hy1 : (roundHalfEven (q / 2 ^ ((-1022 : ℤ) - 52)) : ℚ) * 2 ^ ((-1022 : ℤ) - 52)
        ≤ (2 : ℚ) ^ (-1022 : ℤ) := by
      calc (roundHalfEven (q / 2 ^ ((-1022 : ℤ) - 52)) : ℚ) * 2 ^ ((-1022 : ℤ) - 52)
          ≤ 2 ^ 52 * 2 ^ ((-1022 : ℤ) - 52) := mul_le_mul_of_nonneg_right hm1q hulp.le
        _ = (2 : ℚ) ^ (-1022 : ℤ) := by rw [zpow_sub₀ (by norm_num)]; norm_num
    refine ⟨_, ?_, hy0, hy1⟩
    unfold round64
    rw [hexp, if_neg]
    rw [not_le, abs_of_nonneg hy0]
    exact lt_of_le_of_lt hy1 (by norm_num)


/-- In the normal range a positive value is rounded to a float64 within the factors
1 - 2^-53 and 1 + 2^-53 of it. -/
theorem round64_pos (q : ℚ) (hlo : (2 : ℚ) ^ (-1022 : ℤ) ≤ q) (hhi : q ≤ (2 : ℚ) ^ (1023 : ℤ)) :
    ∃ y, round64 q = F64.fin y ∧ q * (1 - 1 / 2 ^ 53) ≤ y ∧ y ≤ q * (1 + 1 / 2 ^ 53) := by
  have hpos : 0 < q := lt_of_lt_of_le (by positivity) hlo
  have habs : |q| = q := abs_of_pos hpos
  obtain ⟨y, hy, herr⟩ := round64_rel_error q (by rw [habs]; exact hlo) (by rw [habs]; exact hhi)
  rw [habs, abs_le] at herr
  refine ⟨y, hy, ?_, ?_⟩
  · have : q * (1 - 1 / 2 ^ 53) = q - q / 2 ^ 53 := by ring
    linarith
  · have : q * (1 + 1 / 2 ^ 53) = q + q / 2 ^ 53 := by ring
    linarith

/-- The truncation on float64 of a non-negative value x, with u = 2^-53: it is at most
x * (1 + u)^2 and more than (x * (1 - u) - 10^-8) * (1 - u). -/
theorem float64.Trunc8_bounds (x : ℚ) (h0 : 0 ≤ x) (hhi : x * 10 ^ 8 ≤ (2 : ℚ) ^ (1022 : ℤ)) :
    ∃ z, float64.Trunc8 (F64.fin x) = F64.fin z ∧ 0 ≤ z ∧
      z ≤ x * (1 + 1 / 2 ^ 53) ^ 2 ∧
      (x * (1 - 1 / 2 ^ 53) - 1 / 10 ^ 8) * (1 - 1 / 2 ^ 53) < z := by
  have hu : (0 : ℚ) < 1 - 1 / 2 ^ 53 := by norm_num
  have hx8 : 0 ≤ x * 10 ^ 8 := by positivity
  -- the scaled value
  have key : ∃ y, float64.mul (F64.fin x) (F64.fin (10 ^ 8)) = F64.fin y ∧ 0 ≤ y ∧
      (1 ≤ y → x * 10 ^ 8 * (1 - 1 / 2 ^ 53) ≤ y ∧ y ≤ x * 10 ^ 8 * (1 + 1 / 2 ^ 53)) ∧
      (y < 1 → x * (1 - 1 / 2 ^ 53) < 1 / 10 ^ 8) := by
    by_cases hsmall : x * 10 ^ 8 < (2 : ℚ) ^ (-1022 : ℤ)
    · obtain ⟨y, hy, hy0, hy1⟩ := round64_small (x * 10 ^ 8) hx8 hsmall
      have hylt : y < 1 := lt_of_le_of_lt hy1 (by norm_num)
      refine ⟨y, hy, hy0, fun h => absurd h (not_le.mpr hylt), fun _ => ?_⟩
      have h1 : x * 10 ^ 8 < 1 := lt_trans hsmall (by norm_num)
      have h2 : x * (1 - 1 / 2 ^ 53) ≤ x := by nlinarith
      rw [lt_div_iff₀ (by norm_num)]
      nlinarith
    · obtain ⟨y, hy, hlo, hup⟩ := round64_pos (x * 10 ^ 8) (not_lt.mp hsmall)
        (hhi.trans (by norm_num))
      refine ⟨y, hy, le_trans (mul_nonneg hx8 hu.le) hlo, fun _ => ⟨hlo, hup⟩, fun hy1 => ?_⟩
      have h1 : x * 10 ^ 8 * (1 - 1 / 2 ^ 53) < 1 := lt_of_le_of_lt hlo hy1
      rw [lt_div_iff₀ (by norm_num)]
      linarith
  obtain ⟨y, hy, hy0, hbig, hlt⟩ := key
  have hfl0 : (0 : ℤ) ≤ ⌊y⌋ := Int.floor_nonneg.mpr hy0
  have hfl1 : ((⌊y⌋ : ℤ) : ℚ) ≤ y := Int.floor_le y
  have hfl2 : y < ((⌊y⌋ : ℤ) : ℚ) + 1 := Int.lt_floor_add_one y
  have hT : float64.Trunc8 (F64.fin x)
      = float64.div (F64.fin ((⌊y⌋ : ℤ) : ℚ)) (F64.fin (10 ^ 8)) := by
    unfold float64.Trunc8
    rw [hy]
    simp only [hy0, if_true]
  have hdiv : float64.div (F64.fin ((⌊y⌋ : ℤ) : ℚ)) (F64.fin (10 ^ 8))
      = round64 (((⌊y⌋ : ℤ) : ℚ) / 10 ^ 8) := by
    unfold float64.div
    rw [F64.fin_div_fin _ _ (by norm_num)]
    rfl
  rw [hT, hdiv]
  by_cases hy1 : y < 1
  · have hk : ⌊y⌋ = 0 := by
      rw [Int.floor_eq_iff]; exact ⟨by simpa using hy0, by simpa using hy1⟩
    refine ⟨0, by rw [hk]; simpa using round64_zero, le_refl 0, by positivity, ?_⟩
    have := hlt hy1
    nlinarith
  · have hy1 : 1 ≤ y := not_lt.mp hy1
    obtain ⟨hlo, hup⟩ := hbig hy1
    have hk1 : (1 : ℤ) ≤ ⌊y⌋ := Int.le_floor.mpr (by simpa using hy1)
    have hk1q : (1 : ℚ) ≤ ((⌊y⌋ : ℤ) : ℚ) := by exact_mod_cast hk1
    have hq0 : (2 : ℚ) ^ (-1022 : ℤ) ≤ ((⌊y⌋ : ℤ) : ℚ) / 10 ^ 8 := by
      rw [le_div_iff₀ (by norm_num)]
      calc (2 : ℚ) ^ (-1022 : ℤ) * 10 ^ 8 ≤ 1 := by norm_num
        _ ≤ _ := hk1q
    have hq1 : ((⌊y⌋ : ℤ) : ℚ) / 10 ^ 8 ≤ (2 : ℚ) ^ (1023 : ℤ) := by
      rw [div_le_iff₀ (by norm_num)]
      have h3 : y ≤ (2 : ℚ) ^ (1022 : ℤ) * (1 + 1 / 2 ^ 53) :=
        hup.trans (mul_le_mul_of_nonneg_right hhi (by norm_num))
      have h4 : (2 : ℚ) ^ (1022 : ℤ) * (1 + 1 / 2 ^ 53) ≤ (2 : ℚ) ^ (1023 : ℤ) * 10 ^ 8 := by
        norm_num
      linarith
    obtain ⟨z, hz, hzlo, hzup⟩ := round64_pos _ hq0 hq1
    have hz0 : 0 ≤ z := le_trans (mul_nonneg (by positivity) hu.le) hzlo
    refine ⟨z, hz, hz0, ?_, ?_⟩
    · have h5 : ((⌊y⌋ : ℤ) : ℚ) / 10 ^ 8 ≤ x * (1 + 1 / 2 ^ 53) := by
        rw [div_le_iff₀ (by norm_num)]
        linarith
      calc z ≤ ((⌊y⌋ : ℤ) : ℚ) / 10 ^ 8 * (1 + 1 / 2 ^ 53) := hzup
        _ ≤ x * (1 + 1 / 2 ^ 53) * (1 + 1 / 2 ^ 53) :=
          mul_le_mul_of_nonneg_right h5 (by norm_num)
        _ = x * (1 + 1 / 2 ^ 53) ^ 2 := by ring
    · have h6 : x * (1 - 1 / 2 ^ 53) - 1 / 10 ^ 8 < ((⌊y⌋ : ℤ) : ℚ) / 10 ^ 8 := by
        rw [lt_div_iff₀ (by norm_num)]
        have e : (x * (1 - 1 / 2 ^ 53) - 1 / 10 ^ 8) * 10 ^ 8
            = x * 10 ^ 8 * (1 - 1 / 2 ^ 53) - 1 := by ring
        rw [e]
        linarith
      calc (x * (1 - 1 / 2 ^ 53) - 1 / 10 ^ 8) * (1 - 1 / 2 ^ 53)
          < ((⌊y⌋ : ℤ) : ℚ) / 10 ^ 8 * (1 - 1 / 2 ^ 53) := mul_lt_mul_of_pos_right h6 hu
        _ ≤ z := hzlo

/-- Two roundings in a row, the second on the first result scaled by `s`: the outcome is
within the relative distance 2 * 2^-53 + 2^-106 of the exact `s * a`. -/
theorem round64_twice (a s : ℚ) (halo : (2 : ℚ) ^ (-1000 : ℤ) ≤ a) (hahi : a ≤ (2 : ℚ) ^ (1000 : ℤ))
    (hs : 0 < s) (hlo : (2 : ℚ) ^ (-1000 : ℤ) ≤ s * a) (hhi : s * a ≤ (2 : ℚ) ^ (1000 : ℤ)) :
    ∃ y1 y2, round64 a = F64.fin y1 ∧ round64 (s * y1) = F64.fin y2 ∧
      |y2 - s * a| ≤ s * a * (2 / 2 ^ 53 + 1 / 2 ^ 106) := by
  have hu : (0 : ℚ) < 1 - 1 / 2 ^ 53 := by norm_num
  have ha0 : 0 < a := lt_of_lt_of_le (by positivity) halo
  have hsa0 : 0 < s * a := mul_pos hs ha0
  obtain ⟨y1, hy1, h1lo, h1up⟩ := round64_pos a (le_trans (by norm_num) halo)
    (hahi.trans (by norm_num))
  have h2lo : s * a * (1 - 1 / 2 ^ 53) ≤ s * y1 := by
    have := mul_le_mul_of_nonneg_left h1lo hs.le
    linarith
  have h2up : s * y1 ≤ s * a * (1 + 1 / 2 ^ 53) := by
    have := mul_le_mul_of_nonneg_left h1up hs.le
    linarith
  have hn1 : (2 : ℚ) ^ (-1022 : ℤ) ≤ s * y1 := by
    have h3 : (2 : ℚ) ^ (-1000 : ℤ) * (1 - 1 / 2 ^ 53) ≤ s * a * (1 - 1 / 2 ^ 53) :=
      mul_le_mul_of_nonneg_right hlo hu.le
    have h4 : (2 : ℚ) ^ (-1022 : ℤ) ≤ (2 : ℚ) ^ (-1000 : ℤ) * (1 - 1 / 2 ^ 53) := by norm_num
    exact le_trans h4 (le_trans h3 h2lo)
  have hn2 : s * y1 ≤ (2 : ℚ) ^ (1023 : ℤ) := by
    have h3 : s * a * (1 + 1 / 2 ^ 53) ≤ (2 : ℚ) ^ (1000 : ℤ) * (1 + 1 / 2 ^ 53) :=
      mul_le_mul_of_nonneg_right hhi (by norm_num)
    have h4 : (2 : ℚ) ^ (1000 : ℤ) * (1 + 1 / 2 ^ 53) ≤ (2 : ℚ) ^ (1023 : ℤ) := by norm_num
    exact le_trans h2up (le_trans h3 h4)
  obtain ⟨y2, hy2, h5lo, h5up⟩ := round64_pos (s * y1) hn1 hn2
  refine ⟨y1, y2, hy1, hy2, ?_⟩
  have h6 : s * a * (1 - 1 / 2 ^ 53) * (1 - 1 / 2 ^ 53) ≤ y2 :=
    le_trans (mul_le_mul_of_nonneg_right h2lo hu.le) h5lo
  have h7 : y2 ≤ s * a * (1 + 1 / 2 ^ 53) * (1 + 1 / 2 ^ 53) :=
    le_trans h5up (mul_le_mul_of_nonneg_right h2up (by norm_num))
  rw [abs_le]
  constructor
  · have e : s * a * (1 - 1 / 2 ^ 53) * (1 - 1 / 2 ^ 53)
        = s * a - s * a * (2 / 2 ^ 53 - 1 / 2 ^ 106) := by ring
    nlinarith
  · have e : s * a * (1 + 1 / 2 ^ 53) * (1 + 1 / 2 ^ 53)
        = s * a + s * a * (2 / 2 ^ 53 + 1 / 2 ^ 106) := by ring
    linarith

theorem exponent64_subnormal {q : ℚ} (h0 : 0 < q) (hq : q < (2 : ℚ) ^ (-1022 : ℤ)) :
    exponent64 q = -1022 := by
  have hlog : Int.log 2 |q| < -1022 := by
    rw [abs_of_pos h0]
    exact (Int.lt_zpow_iff_log_lt (by norm_num) h0).mp (by exact_mod_cast hq)
  unfold exponent64
  exact max_eq_right hlog.le

/-- The float64 nearest to a positive `q` below the normal range, from the integer `m`
nearest to `q / 2^-1074`. -/
theorem round64_eval_subnormal (q y : ℚ) (m : ℤ) (h0 : 0 < q)
    (hq : q < (2 : ℚ) ^ (-1022 : ℤ)) (hm : |q / 2 ^ ((-1022 : ℤ) - 52) - m| < 1 / 2)
    (hy : y = m * 2 ^ ((-1022 : ℤ) - 52)) (hfin : |y| < 2 ^ 1024) :
    round64 q = F64.fin y := by
  unfold round64
  rw [exponent64_subnormal h0 hq, roundHalfEven_eq_of_close hm, ← hy,
    if_neg (not_le.mpr hfin)]

/-- A positive `q` whose nearest value with 53 bits is 2^1024 or more is rounded to +Inf. -/
theorem round64_eval_overflow (q : ℚ) (e m : ℤ) (he : -1022 ≤ e) (hlo : (2 : ℚ) ^ e ≤ |q|)
    (hhi : |q| < (2 : ℚ) ^ (e + 1)) (hm : |q / 2 ^ (e - 52) - m| < 1 / 2)
    (hbig : (2 : ℚ) ^ 1024 ≤ |(m : ℚ) * 2 ^ (e - 52)|) (hpos : 0 < q) :
    round64 q = F64.posInf := by
  unfold round64
  rw [exponent64_eq he hlo hhi, roundHalfEven_eq_of_close hm, if_pos hbig, if_pos hpos]

/-- Below the normal range a non-negative value is rounded to a finite non-negative float64
that is at most twice the value. -/
theorem round64_subnormal (q : ℚ) (h0 : 0 ≤ q) (hq : q < (2 : ℚ) ^ (-1022 : ℤ)) :
    ∃ y, round64 q = F64.fin y ∧ 0 ≤ y ∧ y ≤ 2 * q := by
  rcases h0.eq_or_lt with h | hpos
  · subst h
    exact ⟨0, round64_zero, le_refl 0, by norm_num⟩
  · have hulp : (0 : ℚ) < 2 ^ ((-1022 : ℤ) - 52) := by positivity
    have herr := roundHalfEven_error (q / 2 ^ ((-1022 : ℤ) - 52))
    have hx0 : 0 < q / 2 ^ ((-1022 : ℤ) - 52) := div_pos hpos hulp
    have hxq : q / 2 ^ ((-1022 : ℤ) - 52) * 2 ^ ((-1022 : ℤ) - 52) = q :=
      div_mul_cancel₀ q hulp.ne.symm
    obtain ⟨m, hm⟩ : ∃ m : ℤ, roundHalfEven (q / 2 ^ ((-1022 : ℤ) - 52)) = m := ⟨_, rfl⟩
    rw [hm, abs_le] at herr
    have hm0 : (0 : ℤ) ≤ m := by
      have h1 : (-1 : ℚ) < (m : ℚ) := by linarith
      have h2 : (-1 : ℤ) < m := by exact_mod_cast h1
      omega
    have hm0q : (0 : ℚ) ≤ (m : ℚ) := by exact_mod_cast hm0
    have hm2 : (m : ℚ) ≤ 2 * (q / 2 ^ ((-1022 : ℤ) - 52)) := by
      rcases hm0.eq_or_lt with h | h
      · rw [← h]; push_cast; linarith
      · have h1 : (1 : ℤ) ≤ m := h
        have h2 : (1 : ℚ) ≤ (m : ℚ) := by exact_mod_cast h1
        linarith
    have hy0 : 0 ≤ (m : ℚ) * 2 ^ ((-1022 : ℤ) - 52) := mul_nonneg hm0q hulp.le
    have hy2 : (m : ℚ) * 2 ^ ((-1022 : ℤ) - 52) ≤ 2 * q := by
      calc (m : ℚ) * 2 ^ ((-1022 : ℤ) - 52)
          ≤ 2 * (q / 2 ^ ((-1022 : ℤ) - 52)) * 2 ^ ((-1022 : ℤ) - 52) :=
            mul_le_mul_of_nonneg_right hm2 hulp.le
        _ = 2 * (q / 2 ^ ((-1022 : ℤ) - 52) * 2 ^ ((-1022 : ℤ) - 52)) := by ring
        _ = 2 * q := by rw [hxq]
    refine ⟨_, ?_, hy0, hy2⟩
    unfold round64
    rw [exponent64_subnormal hpos hq, hm, if_neg]
    rw [not_le, abs_of_nonneg hy0]
    calc (m : ℚ) * 2 ^ ((-1022 : ℤ) - 52) ≤ 2 * q := hy2
      _ ≤ 2 * (2 : ℚ) ^ (-1022 : ℤ) := by linarith
      _ < 2 ^ 1024 := by norm_num

/-- A non-negative value up to 2^1023 is rounded to a finite non-negative float64 that is
at most twice the value. -/
theorem round64_le_double (q : ℚ) (h0 : 0 ≤ q) (hhi : q ≤ (2 : ℚ) ^ (1023 : ℤ)) :
    ∃ y, round64 q = F64.fin y ∧ 0 ≤ y ∧ y ≤ 2 * q := by
  by_cases hq : q < (2 : ℚ) ^ (-1022 : ℤ)
  · exact round64_subnormal q h0 hq
  · obtain ⟨y, hy, hlo, hup⟩ := round64_pos q (not_lt.mp hq) hhi
    have hu : (0 : ℚ) ≤ 1 - 1 / 2 ^ 53 := by norm_num
    refine ⟨y, hy, le_trans (mul_nonneg h0 hu) hlo, le_trans hup ?_⟩
    have : q * (1 + 1 / 2 ^ 53) ≤ q * 2 := mul_le_mul_of_nonneg_left (by norm_num) h0
    linarith

/-! ## The fields after an update on float64 -/

section fields64
variable (o : Order) (v : F64)

@[simp] theorem float64.UpdateBaseVolume_Price_f64 :
    (float64.UpdateBaseVolume o v).Price = o.Price := by
  unfold float64.UpdateBaseVolume float64.updateVolumesInOut; dsimp only; split_ifs <;> rfl

@[simp] theorem float64.UpdateBaseVolume_TakerFee_f64 :
    (float64.UpdateBaseVolume o v).TakerFee = o.TakerFee := by
  unfold float64.UpdateBaseVolume float64.updateVolumesInOut; dsimp only; split_ifs <;> rfl

@[simp] theorem float64.UpdateBaseVolume_TransactionType_f64 :
    (float64.UpdateBaseVolume o v).TransactionType = o.TransactionType := by
  unfold float64.UpdateBaseVolume float64.updateVolumesInOut; dsimp only; split_ifs <;> rfl

@[simp] theorem float64.UpdateBaseVolume_BaseVolume_f64 :
    (float64.UpdateBaseVolume o v).BaseVolume = v := by
  unfold float64.UpdateBaseVolume float64.updateVolumesInOut; dsimp only; split_ifs <;> rfl

@[simp] theorem float64.UpdateBaseVolume_QuoteVolume_f64 :
    (float64.UpdateBaseVolume o v).QuoteVolume = float64.mul o.Price v := by
  unfold float64.UpdateBaseVolume float64.updateVolumesInOut; dsimp only; split_ifs <;> rfl

@[simp] theorem float64.UpdateBaseVolume_Fee_f64 :
    (float64.UpdateBaseVolume o v).Fee = float64.mul v o.TakerFee := by
  unfold float64.UpdateBaseVolume float64.updateVolumesInOut; dsimp only; split_ifs <;> rfl

@[simp] theorem float64.UpdateQuoteVolume_Price_f64 :
    (float64.UpdateQuoteVolume o v).Price = o.Price := by
  unfold float64.UpdateQuoteVolume float64.updateVolumesInOut; dsimp only; split_ifs <;> rfl

@[simp] theorem float64.UpdateQuoteVolume_TakerFee_f64 :
    (float64.UpdateQuoteVolume o v).TakerFee = o.TakerFee := by
  unfold float64.UpdateQuoteVolume float64.updateVolumesInOut; dsimp only; split_ifs <;> rfl

@[simp] theorem float64.UpdateQuoteVolume_TransactionType_f64 :
    (float64.UpdateQuoteVolume o v).TransactionType = o.TransactionType := by
  unfold float64.UpdateQuoteVolume float64.updateVolumesInOut; dsimp only; split_ifs <;> rfl

@[simp] theorem float64.UpdateQuoteVolume_QuoteVolume_f64 :
    (float64.UpdateQuoteVolume o v).QuoteVolume = v := by
  unfold float64.UpdateQuoteVolume float64.updateVolumesInOut; dsimp only; split_ifs <;> rfl

@[simp] theorem float64.UpdateQuoteVolume_BaseVolume_f64 :
    (float64.UpdateQuoteVolume o v).BaseVolume = float64.div v o.Price := by
  unfold float64.UpdateQuoteVolume float64.updateVolumesInOut; dsimp only; split_ifs <;> rfl

@[simp] theorem float64.UpdateQuoteVolume_Fee_f64 :
    (float64.UpdateQuoteVolume o v).Fee = float64.mul (float64.div v o.Price) o.TakerFee := by
  unfold float64.UpdateQuoteVolume float64.updateVolumesInOut; dsimp only; split_ifs <;> rfl

theorem float64.UpdateBaseVolume_bid_f64 (h : o.TransactionType = Bid) :
    (float64.UpdateBaseVolume o v).BaseVolumeIn = F64.fin 0 ∧
    (float64.UpdateBaseVolume o v).QuoteVolumeIn = float64.Trunc8 (float64.mul o.Price v) ∧
    (float64.UpdateBaseVolume o v).BaseVolumeOut
      = float64.Trunc8 (float64.sub v (float64.mul v o.TakerFee)) ∧
    (float64.UpdateBaseVolume o v).QuoteVolumeOut = F64.fin 0 := by
  unfold float64.UpdateBaseVolume float64.updateVolumesInOut
  simp [h]

theorem float64.UpdateQuoteVolume_bid_f64 (h : o.TransactionType = Bid) :
    (float64.UpdateQuoteVolume o v).BaseVolumeIn = F64.fin 0 ∧
    (float64.UpdateQuoteVolume o v).QuoteVolumeIn = float64.Trunc8 v ∧
    (float64.UpdateQuoteVolume o v).BaseVolumeOut
      = float64.Trunc8 (float64.sub (float64.div v o.Price)
          (float64.mul (float64.div v o.Price) o.TakerFee)) ∧
    (float64.UpdateQuoteVolume o v).QuoteVolumeOut = F64.fin 0 := by
  unfold float64.UpdateQuoteVolume float64.updateVolumesInOut
  simp [h]

theorem float64.UpdateBaseVolume_ask_f64 (h : o.TransactionType = Ask) :
    (float64.UpdateBaseVolume o v).BaseVolumeIn = float64.Trunc8 v ∧
    (float64.UpdateBaseVolume o v).QuoteVolumeIn = F64.fin 0 ∧
    (float64.UpdateBaseVolume o v).BaseVolumeOut = F64.fin 0 ∧
    (float64.UpdateBaseVolume o v).QuoteVolumeOut
      = float64.Trunc8 (float64.sub (float64.mul o.Price v)
          (float64.mul (float64.mul o.Price v) o.TakerFee)) := by
  unfold float64.UpdateBaseVolume float64.updateVolumesInOut
  simp [h, Ask, Bid]

end fields64

/-- The order `Init` hands to `UpdateBaseVolume` when `NewBid` runs on float64. -/
theorem float64.NewBid_eq_f64 (price baseVolume : F64) :
    float64.NewBid price baseVolume =
      float64.UpdateBaseVolume
        ({ Order.zero with TransactionType := Bid, Price := price,
                           PriceOfQuoteToBase := float64.div (F64.fin 1) price,
                           TakerFee := round64 (0.10 / 100) } : Order) baseVolume := rfl

/-- The order `Init` hands to `UpdateBaseVolume` when `NewAsk` runs on float64. -/
theorem float64.NewAsk_eq_f64 (price baseVolume : F64) :
    float64.NewAsk price baseVolume =
      float64.UpdateBaseVolume
        ({ Order.zero with TransactionType := Ask, Price := price,
                           PriceOfQuoteToBase := float64.div (F64.fin 1) price,
                           TakerFee := round64 (0.10 / 100) } : Order) baseVolume := rfl

@[simp] theorem float64.NewBid_TransactionType_f64 (p b : F64) :
    (float64.NewBid p b).TransactionType = Bid := by
  simp [float64.NewBid_eq_f64]

@[simp] theorem float64.NewAsk_TransactionType_f64 (p b : F64) :
    (float64.NewAsk p b).TransactionType = Ask := by
  simp [float64.NewAsk_eq_f64]

@[simp] theorem float64.NewBid_Price_f64 (p b : F64) : (float64.NewBid p b).Price = p := by
  simp [float64.NewBid_eq_f64]

@[simp] theorem float64.NewAsk_Price_f64 (p b : F64) : (float64.NewAsk p b).Price = p := by
  simp [float64.NewAsk_eq_f64]

@[simp] theorem float64.NewBid_TakerFee_f64 (p b : F64) :
    (float64.NewBid p b).TakerFee = round64 (0.10 / 100) := by
  simp [float64.NewBid_eq_f64]

@[simp] theorem float64.NewAsk_TakerFee_f64 (p b : F64) :
    (float64.NewAsk p b).TakerFee = round64 (0.10 / 100) := by
  simp [float64.NewAsk_eq_f64]

@[simp] theorem float64.NewBid_BaseVolume_f64 (p b : F64) : (float64.NewBid p b).BaseVolume = b := by
  simp [float64.NewBid_eq_f64]

@[simp] theorem float64.NewAsk_BaseVolume_f64 (p b : F64) : (float64.NewAsk p b).BaseVolume = b := by
  simp [float64.NewAsk_eq_f64]

@[simp] theorem float64.NewBid_QuoteVolume_f64 (p b : F64) :
    (float64.NewBid p b).QuoteVolume = float64.mul p b := by
  simp [float64.NewBid_eq_f64]

@[simp] theorem float64.NewAsk_QuoteVolume_f64 (p b : F64) :
    (float64.NewAsk p b).QuoteVolume = float64.mul p b := by
  simp [float64.NewAsk_eq_f64]

@[simp] theorem float64.NewBid_Fee_f64 (p b : F64) :
    (float64.NewBid p b).Fee = float64.mul b (round64 (0.10 / 100)) := by
  simp [float64.NewBid_eq_f64]

@[simp] theorem float64.NewAsk_Fee_f64 (p b : F64) :
    (float64.NewAsk p b).Fee = float64.mul b (round64 (0.10 / 100)) := by
  simp [float64.NewAsk_eq_f64]

/-- The four in/out fields of a Bid built on float64. -/
theorem float64.NewBid_inout_f64 (p b : F64) :
    (float64.NewBid p b).BaseVolumeIn = F64.fin 0 ∧
    (float64.NewBid p b).QuoteVolumeIn = float64.Trunc8 (float64.mul p b) ∧
    (float64.NewBid p b).BaseVolumeOut
      = float64.Trunc8 (float64.sub b (float64.mul b (round64 (0.10 / 100)))) ∧
    (float64.NewBid p b).QuoteVolumeOut = F64.fin 0 := by
  rw [float64.NewBid_eq_f64]
  exact float64.UpdateBaseVolume_bid_f64 _ b rfl

/-- The four in/out fields of an Ask built on float64. -/
theorem float64.NewAsk_inout_f64 (p b : F64) :
    (float64.NewAsk p b).BaseVolumeIn = float64.Trunc8 b ∧
    (float64.NewAsk p b).QuoteVolumeIn = F64.fin 0 ∧
    (float64.NewAsk p b).BaseVolumeOut = F64.fin 0 ∧
    (float64.NewAsk p b).QuoteVolumeOut
      = float64.Trunc8 (float64.sub (float64.mul p b)
          (float64.mul (float64.mul p b) (round64 (0.10 / 100)))) := by
  rw [float64.NewAsk_eq_f64]
  exact float64.UpdateBaseVolume_ask_f64 _ b rfl

/-! ## Float64 values at the inputs used below -/

/-- The constant `0.10 / 100` as a float64: the float64 nearest to 0.001. -/
theorem float64.takerFee_eq :
    round64 (0.10 / 100) = F64.fin (1152921504606847 / 1152921504606846976 : ℚ) :=
  round64_eval _ _ (-10) (4611686018427388) (by norm_num) (by norm_num [abs_of_pos])
      (by norm_num [abs_of_pos]) (by norm_num [abs_lt]) (by norm_num)
      (by norm_num [abs_of_pos])

/-- The float64 that the decimal 777.4 denotes. -/
theorem float64.lit_777_4 :
    round64 777.4 = F64.fin (6838082715464499 / 8796093022208 : ℚ) :=
  round64_eval _ _ (9) (6838082715464499) (by norm_num) (by norm_num [abs_of_pos])
      (by norm_num [abs_of_pos]) (by norm_num [abs_lt]) (by norm_num)
      (by norm_num [abs_of_pos])

/-- The fee on the base volume 777.4 at the taker fee. -/
theorem float64.fee_777_4 :
    float64.mul (F64.fin (6838082715464499 / 8796093022208 : ℚ)) (F64.fin (1152921504606847 / 1152921504606846976 : ℚ)) = F64.fin (7002196700635647 / 9007199254740992 : ℚ) :=
  float64.mul_fin _ _ _
    (round64_eval _ _ (-1) (7002196700635647) (by norm_num) (by norm_num [abs_of_pos])
      (by norm_num [abs_of_pos]) (by norm_num [abs_lt]) (by norm_num)
      (by norm_num [abs_of_pos]))

/-- The net amount `v - v * TakerFee` of the code at v = 777.4: just above 776.6226. -/
theorem float64.net_777_4 :
    float64.sub (F64.fin (6838082715464499 / 8796093022208 : ℚ)) (F64.fin (7002196700635647 / 9007199254740992 : ℚ)) = F64.fin (6831244632749035 / 8796093022208 : ℚ) :=
  float64.sub_fin _ _ _
    (round64_eval _ _ (9) (6831244632749035) (by norm_num) (by norm_num [abs_of_pos])
      (by norm_num [abs_of_pos]) (by norm_num [abs_lt]) (by norm_num)
      (by norm_num [abs_of_pos]))

/-- The truncation of the net amount of the code at 777.4: 776.6226. -/
theorem float64.Trunc8_net_777_4 :
    float64.Trunc8 (F64.fin (6831244632749035 / 8796093022208 : ℚ)) = F64.fin (6831244632749035 / 8796093022208 : ℚ) :=
  float64.Trunc8_eval _ (77662260000 : ℚ) _ (77662260000)
    (float64.mul_fin _ _ _
    (round64_eval _ _ (36) (5089673871360000) (by norm_num) (by norm_num [abs_of_pos])
      (by norm_num [abs_of_pos]) (by norm_num [abs_lt]) (by norm_num)
      (by norm_num [abs_of_pos])))
    (by norm_num)
    (by rw [Int.floor_eq_iff]; constructor <;> norm_num)
    (float64.div_fin _ _ _ (by norm_num)
    (round64_eval _ _ (9) (6831244632749035) (by norm_num) (by norm_num [abs_of_pos])
      (by norm_num [abs_of_pos]) (by norm_num [abs_lt]) (by norm_num)
      (by norm_num [abs_of_pos])))

/-- The float64 that the decimal 776.6226 denotes. -/
theorem float64.lit_776_6226 :
    round64 776.6226 = F64.fin (6831244632749035 / 8796093022208 : ℚ) :=
  round64_eval _ _ (9) (6831244632749035) (by norm_num) (by norm_num [abs_of_pos])
      (by norm_num [abs_of_pos]) (by norm_num [abs_lt]) (by norm_num)
      (by norm_num [abs_of_pos])

/-- The factor `1 - TakerFee` as a float64. -/
theorem float64.one_minus_takerFee :
    float64.sub (F64.fin (1 : ℚ)) (F64.fin (1152921504606847 / 1152921504606846976 : ℚ)) = F64.fin (8998192055486251 / 9007199254740992 : ℚ) :=
  float64.sub_fin _ _ _
    (round64_eval _ _ (-1) (8998192055486251) (by norm_num) (by norm_num [abs_of_pos])
      (by norm_num [abs_of_pos]) (by norm_num [abs_lt]) (by norm_num)
      (by norm_num [abs_of_pos]))

/-- The net amount `v * (1 - TakerFee)` at v = 777.4: just below 776.6226. -/
theorem float64.claimed_net_777_4 :
    float64.mul (F64.fin (6838082715464499 / 8796093022208 : ℚ)) (F64.fin (8998192055486251 / 9007199254740992 : ℚ)) = F64.fin (3415622316374517 / 4398046511104 : ℚ) :=
  float64.mul_fin _ _ _
    (round64_eval _ _ (9) (6831244632749034) (by norm_num) (by norm_num [abs_of_pos])
      (by norm_num [abs_of_pos]) (by norm_num [abs_lt]) (by norm_num)
      (by norm_num [abs_of_pos]))

/-- The truncation of `v * (1 - TakerFee)` at v = 777.4: 776.62259999. -/
theorem float64.Trunc8_claimed_net_777_4 :
    float64.Trunc8 (F64.fin (3415622316374517 / 4398046511104 : ℚ)) = F64.fin (3415622316330537 / 4398046511104 : ℚ) :=
  float64.Trunc8_eval _ (5089673871359999 / 65536 : ℚ) _ (77662259999)
    (float64.mul_fin _ _ _
    (round64_eval _ _ (36) (5089673871359999) (by norm_num) (by norm_num [abs_of_pos])
      (by norm_num [abs_of_pos]) (by norm_num [abs_lt]) (by norm_num)
      (by norm_num [abs_of_pos])))
    (by norm_num)
    (by rw [Int.floor_eq_iff]; constructor <;> norm_num)
    (float64.div_fin _ _ _ (by norm_num)
    (round64_eval _ _ (9) (6831244632661074) (by norm_num) (by norm_num [abs_of_pos])
      (by norm_num [abs_of_pos]) (by norm_num [abs_lt]) (by norm_num)
      (by norm_num [abs_of_pos])))

/-- The float64 that the decimal 776.62259999 denotes. -/
theorem float64.lit_776_62259999 :
    round64 776.62259999 = F64.fin (3415622316330537 / 4398046511104 : ℚ) :=
  round64_eval _ _ (9) (6831244632661074) (by norm_num) (by norm_num [abs_of_pos])
      (by norm_num [abs_of_pos]) (by norm_num [abs_lt]) (by norm_num)
      (by norm_num [abs_of_pos])

/-- The quote volume at price 1 and base volume 777.4. -/
theorem float64.one_times_777_4 :
    float64.mul (F64.fin (1 : ℚ)) (F64.fin (6838082715464499 / 8796093022208 : ℚ)) = F64.fin (6838082715464499 / 8796093022208 : ℚ) :=
  float64.mul_fin _ _ _
    (round64_eval _ _ (9) (6838082715464499) (by norm_num) (by norm_num [abs_of_pos])
      (by norm_num [abs_of_pos]) (by norm_num [abs_lt]) (by norm_num)
      (by norm_num [abs_of_pos]))

/-- The quote volume at price 100 and base volume 2. -/
theorem float64.quote_100_2 :
    float64.mul (F64.fin (100 : ℚ)) (F64.fin (2 : ℚ)) = F64.fin (200 : ℚ) :=
  float64.mul_fin _ _ _
    (round64_eval _ _ (7) (7036874417766400) (by norm_num) (by norm_num [abs_of_pos])
      (by norm_num [abs_of_pos]) (by norm_num [abs_lt]) (by norm_num)
      (by norm_num [abs_of_pos]))

/-- The truncation of 200. -/
theorem float64.Trunc8_200 :
    float64.Trunc8 (F64.fin (200 : ℚ)) = F64.fin (200 : ℚ) :=
  float64.Trunc8_eval _ (20000000000 : ℚ) _ (20000000000)
    (float64.mul_fin _ _ _
    (round64_eval _ _ (34) (5242880000000000) (by norm_num) (by norm_num [abs_of_pos])
      (by norm_num [abs_of_pos]) (by norm_num [abs_lt]) (by norm_num)
      (by norm_num [abs_of_pos])))
    (by norm_num)
    (by rw [Int.floor_eq_iff]; constructor <;> norm_num)
    (float64.div_fin _ _ _ (by norm_num)
    (round64_eval _ _ (7) (7036874417766400) (by norm_num) (by norm_num [abs_of_pos])
      (by norm_num [abs_of_pos]) (by norm_num [abs_lt]) (by norm_num)
      (by norm_num [abs_of_pos])))

/-- The fee on the base volume 2. -/
theorem float64.fee_2 :
    float64.mul (F64.fin (2 : ℚ)) (F64.fin (1152921504606847 / 1152921504606846976 : ℚ)) = F64.fin (1152921504606847 / 576460752303423488 : ℚ) :=
  float64.mul_fin _ _ _
    (round64_eval _ _ (-9) (4611686018427388) (by norm_num) (by norm_num [abs_of_pos])
      (by norm_num [abs_of_pos]) (by norm_num [abs_lt]) (by norm_num)
      (by norm_num [abs_of_pos]))

/-- The net amount of the code at v = 2: the float64 nearest to 1.998. -/
theorem float64.net_2 :
    float64.sub (F64.fin (2 : ℚ)) (F64.fin (1152921504606847 / 576460752303423488 : ℚ)) = F64.fin (8998192055486251 / 4503599627370496 : ℚ) :=
  float64.sub_fin _ _ _
    (round64_eval _ _ (0) (8998192055486251) (by norm_num) (by norm_num [abs_of_pos])
      (by norm_num [abs_of_pos]) (by norm_num [abs_lt]) (by norm_num)
      (by norm_num [abs_of_pos]))

/-- The truncation of the net amount at 2. -/
theorem float64.Trunc8_net_2 :
    float64.Trunc8 (F64.fin (8998192055486251 / 4503599627370496 : ℚ)) = F64.fin (8998192055486251 / 4503599627370496 : ℚ) :=
  float64.Trunc8_eval _ (199800000 : ℚ) _ (199800000)
    (float64.mul_fin _ _ _
    (round64_eval _ _ (27) (6704175513600000) (by norm_num) (by norm_num [abs_of_pos])
      (by norm_num [abs_of_pos]) (by norm_num [abs_lt]) (by norm_num)
      (by norm_num [abs_of_pos])))
    (by norm_num)
    (by rw [Int.floor_eq_iff]; constructor <;> norm_num)
    (float64.div_fin _ _ _ (by norm_num)
    (round64_eval _ _ (0) (8998192055486251) (by norm_num) (by norm_num [abs_of_pos])
      (by norm_num [abs_of_pos]) (by norm_num [abs_lt]) (by norm_num)
      (by norm_num [abs_of_pos])))

/-- The float64 that the decimal 1.998 denotes. -/
theorem float64.lit_1_998 :
    round64 1.998 = F64.fin (8998192055486251 / 4503599627370496 : ℚ) :=
  round64_eval _ _ (0) (8998192055486251) (by norm_num) (by norm_num [abs_of_pos])
      (by norm_num [abs_of_pos]) (by norm_num [abs_lt]) (by norm_num)
      (by norm_num [abs_of_pos])

/-- The base volume 1 / 49 as a float64. -/
theorem float64.one_div_49 :
    float64.div (F64.fin (1 : ℚ)) (F64.fin (49 : ℚ)) = F64.fin (5882252574524729 / 288230376151711744 : ℚ) :=
  float64.div_fin _ _ _ (by norm_num)
    (round64_eval _ _ (-6) (5882252574524729) (by norm_num) (by norm_num [abs_of_pos])
      (by norm_num [abs_of_pos]) (by norm_num [abs_lt]) (by norm_num)
      (by norm_num [abs_of_pos]))

/-- The product 49 * (1 / 49) on float64: 1 - 2^-53, not 1. -/
theorem float64.mul_49_one_div_49 :
    float64.mul (F64.fin (49 : ℚ)) (F64.fin (5882252574524729 / 288230376151711744 : ℚ)) = F64.fin (9007199254740991 / 9007199254740992 : ℚ) :=
  float64.mul_fin _ _ _
    (round64_eval _ _ (-1) (9007199254740991) (by norm_num) (by norm_num [abs_of_pos])
      (by norm_num [abs_of_pos]) (by norm_num [abs_lt]) (by norm_num)
      (by norm_num [abs_of_pos]))

/-- The float64 that the decimal 0.1 denotes. -/
theorem float64.lit_0_1 :
    round64 0.1 = F64.fin (3602879701896397 / 36028797018963968 : ℚ) :=
  round64_eval _ _ (-4) (7205759403792794) (by norm_num) (by norm_num [abs_of_pos])
      (by norm_num [abs_of_pos]) (by norm_num [abs_lt]) (by norm_num)
      (by norm_num [abs_of_pos])

/-- The quote volume at price 0.1 and base volume 3. -/
theorem float64.mul_0_1_3 :
    float64.mul (F64.fin (3602879701896397 / 36028797018963968 : ℚ)) (F64.fin (3 : ℚ)) = F64.fin (1351079888211149 / 4503599627370496 : ℚ) :=
  float64.mul_fin _ _ _
    (round64_eval_tie _ _ (-2) (5404319552844596) (5404319552844595) (by norm_num) (by norm_num [abs_of_pos])
      (by norm_num [abs_of_pos]) (by norm_num) (by decide) (by norm_num)
      (by norm_num [abs_of_pos]))

/-- The base volume back from that quote volume: 3 + 2^-51, not 3. -/
theorem float64.round_trip_0_1_3 :
    float64.div (F64.fin (1351079888211149 / 4503599627370496 : ℚ)) (F64.fin (3602879701896397 / 36028797018963968 : ℚ)) = F64.fin (6755399441055745 / 2251799813685248 : ℚ) :=
  float64.div_fin _ _ _ (by norm_num)
    (round64_eval _ _ (1) (6755399441055745) (by norm_num) (by norm_num [abs_of_pos])
      (by norm_num [abs_of_pos]) (by norm_num [abs_lt]) (by norm_num)
      (by norm_num [abs_of_pos]))

/-- The float64 that the decimal 0.3 denotes. -/
theorem float64.lit_0_3 :
    round64 0.3 = F64.fin (5404319552844595 / 18014398509481984 : ℚ) :=
  round64_eval _ _ (-2) (5404319552844595) (by norm_num) (by norm_num [abs_of_pos])
      (by norm_num [abs_of_pos]) (by norm_num [abs_lt]) (by norm_num)
      (by norm_num [abs_of_pos])

/-- The float64 that the decimal 1000000000.1 denotes. -/
theorem float64.lit_1000000000_1 :
    round64 1000000000.1 = F64.fin (8388608000838861 / 8388608 : ℚ) :=
  round64_eval _ _ (29) (8388608000838861) (by norm_num) (by norm_num [abs_of_pos])
      (by norm_num [abs_of_pos]) (by norm_num [abs_lt]) (by norm_num)
      (by norm_num [abs_of_pos])

/-- The quote volume at price 0.3 and base volume 1000000000.1. -/
theorem float64.mul_0_3_big :
    float64.mul (F64.fin (5404319552844595 / 18014398509481984 : ℚ)) (F64.fin (8388608000838861 / 8388608 : ℚ)) = F64.fin (1258291200125829 / 4194304 : ℚ) :=
  float64.mul_fin _ _ _
    (round64_eval _ _ (28) (5033164800503316) (by norm_num) (by norm_num [abs_of_pos])
      (by norm_num [abs_of_pos]) (by norm_num [abs_lt]) (by norm_num)
      (by norm_num [abs_of_pos]))

/-- The base volume back from that quote volume: 2^-23 below the one passed. -/
theorem float64.round_trip_0_3_big :
    float64.div (F64.fin (1258291200125829 / 4194304 : ℚ)) (F64.fin (5404319552844595 / 18014398509481984 : ℚ)) = F64.fin (2097152000209715 / 2097152 : ℚ) :=
  float64.div_fin _ _ _ (by norm_num)
    (round64_eval _ _ (29) (8388608000838860) (by norm_num) (by norm_num [abs_of_pos])
      (by norm_num [abs_of_pos]) (by norm_num [abs_lt]) (by norm_num)
      (by norm_num [abs_of_pos]))

/-- The float64 that the decimal 690.679432082082 denotes. -/
theorem float64.lit_690_68 :
    round64 690.679432082082 = F64.fin (3037640266559893 / 4398046511104 : ℚ) :=
  round64_eval _ _ (9) (6075280533119786) (by norm_num) (by norm_num [abs_of_pos])
      (by norm_num [abs_of_pos]) (by norm_num [abs_lt]) (by norm_num)
      (by norm_num [abs_of_pos])

/-- The fee on the base volume 690.679432082082. -/
theorem float64.fee_690_68 :
    float64.mul (F64.fin (3037640266559893 / 4398046511104 : ℚ)) (F64.fin (1152921504606847 / 1152921504606846976 : ℚ)) = F64.fin (6221087265914661 / 9007199254740992 : ℚ) :=
  float64.mul_fin _ _ _
    (round64_eval _ _ (-1) (6221087265914661) (by norm_num) (by norm_num [abs_of_pos])
      (by norm_num [abs_of_pos]) (by norm_num [abs_lt]) (by norm_num)
      (by norm_num [abs_of_pos]))

/-- The net amount of the code at v = 690.679432082082: just below 689.98875265. -/
theorem float64.net_690_68 :
    float64.sub (F64.fin (3037640266559893 / 4398046511104 : ℚ)) (F64.fin (6221087265914661 / 9007199254740992 : ℚ)) = F64.fin (3034602626293333 / 4398046511104 : ℚ) :=
  float64.sub_fin _ _ _
    (round64_eval _ _ (9) (6069205252586666) (by norm_num) (by norm_num [abs_of_pos])
      (by norm_num [abs_of_pos]) (by norm_num [abs_lt]) (by norm_num)
      (by norm_num [abs_of_pos]))

/-- The truncation of that net amount: the float64 nearest to 689.98875265, which is above it. -/
theorem float64.Trunc8_net_690_68 :
    float64.Trunc8 (F64.fin (3034602626293333 / 4398046511104 : ℚ)) = F64.fin (6069205252586667 / 8796093022208 : ℚ) :=
  float64.Trunc8_eval _ (68998875265 : ℚ) _ (68998875265)
    (float64.mul_fin _ _ _
    (round64_eval _ _ (36) (4521910289367040) (by norm_num) (by norm_num [abs_of_pos])
      (by norm_num [abs_of_pos]) (by norm_num [abs_lt]) (by norm_num)
      (by norm_num [abs_of_pos])))
    (by norm_num)
    (by rw [Int.floor_eq_iff]; constructor <;> norm_num)
    (float64.div_fin _ _ _ (by norm_num)
    (round64_eval _ _ (9) (6069205252586667) (by norm_num) (by norm_num [abs_of_pos])
      (by norm_num [abs_of_pos]) (by norm_num [abs_lt]) (by norm_num)
      (by norm_num [abs_of_pos])))

/-! ## The Bid row on float64 -/

theorem float64.BidRow_UpdateBaseVolume (o : Order) (v : F64) (h : o.TransactionType = Bid) :
    float64.BidRow (float64.UpdateBaseVolume o v) := by
  obtain ⟨h1, h2, h3, h4⟩ := float64.UpdateBaseVolume_bid_f64 o v h
  refine ⟨h1, h4, ?_, ?_⟩
  · rw [h2, float64.UpdateBaseVolume_QuoteVolume_f64]
  · rw [h3, float64.UpdateBaseVolume_BaseVolume_f64, float64.UpdateBaseVolume_TakerFee_f64]

theorem float64.BidRow_UpdateQuoteVolume (o : Order) (v : F64) (h : o.TransactionType = Bid) :
    float64.BidRow (float64.UpdateQuoteVolume o v) := by
  obtain ⟨h1, h2, h3, h4⟩ := float64.UpdateQuoteVolume_bid_f64 o v h
  refine ⟨h1, h4, ?_, ?_⟩
  · rw [h2, float64.UpdateQuoteVolume_QuoteVolume_f64]
  · rw [h3, float64.UpdateQuoteVolume_BaseVolume_f64, float64.UpdateQuoteVolume_TakerFee_f64]

theorem float64.BidRow_applyUpdates (us : List VolumeUpdate) (o : Order)
    (h : o.TransactionType = Bid) (hrow : float64.BidRow o) :
    float64.BidRow (float64.applyUpdates o us) := by
  induction us generalizing o with
  | nil => exact hrow
  | cons u us ih =>
    cases u with
    | base v =>
      exact ih (float64.UpdateBaseVolume o (round64 v)) (by simpa using h)
        (float64.BidRow_UpdateBaseVolume o _ h)
    | quote v =>
      exact ih (float64.UpdateQuoteVolume o (round64 v)) (by simpa using h)
        (float64.BidRow_UpdateQuoteVolume o _ h)

theorem float64.BidRow_NewBid (p b : F64) : float64.BidRow (float64.NewBid p b) := by
  rw [float64.NewBid_eq_f64]
  exact float64.BidRow_UpdateBaseVolume _ b rfl

/-- The in/out fields of `NewBid(100, 2)` on float64. -/
theorem float64.NewBid_100_2_f64 :
    (float64.NewBid (F64.fin 100) (F64.fin 2)).QuoteVolumeIn = F64.fin 200 ∧
    (float64.NewBid (F64.fin 100) (F64.fin 2)).BaseVolumeOut = round64 1.998 ∧
    (float64.NewBid (F64.fin 100) (F64.fin 2)).BaseVolumeIn = F64.fin 0 ∧
    (float64.NewBid (F64.fin 100) (F64.fin 2)).QuoteVolumeOut = F64.fin 0 := by
  obtain ⟨h1, h2, h3, h4⟩ := float64.NewBid_inout_f64 (F64.fin 100) (F64.fin 2)
  refine ⟨?_, ?_, h1, h4⟩
  · rw [h2, float64.quote_100_2, float64.Trunc8_200]
  · rw [h3, float64.takerFee_eq, float64.fee_2, float64.net_2, float64.Trunc8_net_2,
      float64.lit_1_998]

/-! ## Bounds on float64 -/

/-- The fee and the net amount `b - b * TakerFee` of the code on float64 are finite for a
volume b from 0 to 2^990, and the net amount is non-negative and small enough to be scaled
by 10^8. -/
theorem float64.net_finite (b : ℚ) (hb0 : 0 ≤ b) (hhi : b ≤ (2 : ℚ) ^ (990 : ℤ)) :
    ∃ f x, float64.mul (F64.fin b) (round64 (0.10 / 100)) = F64.fin f ∧
      float64.sub (F64.fin b) (F64.fin f) = F64.fin x ∧ 0 ≤ x ∧
      x * 10 ^ 8 ≤ (2 : ℚ) ^ (1022 : ℤ) := by
  rw [float64.takerFee_eq]
  -- the fee
  have hT : (2 : ℚ) * (1152921504606847 / 1152921504606846976) ≤ 1 := by norm_num
  have hq0 : 0 ≤ b * (1152921504606847 / 1152921504606846976) :=
    mul_nonneg hb0 (by norm_num)
  have hqb : 2 * (b * (1152921504606847 / 1152921504606846976)) ≤ b := by
    calc 2 * (b * (1152921504606847 / 1152921504606846976))
        = b * (2 * (1152921504606847 / 1152921504606846976)) := by ring
      _ ≤ b * 1 := mul_le_mul_of_nonneg_left hT hb0
      _ = b := mul_one b
  have hb1 : b ≤ (2 : ℚ) ^ (1023 : ℤ) := le_trans hhi (by norm_num)
  obtain ⟨f, hf, hf0, hf2⟩ := round64_le_double _ hq0 (by linarith)
  -- the net amount
  have hn0 : 0 ≤ b - f := by linarith
  have hn1 : b - f ≤ b := by linarith
  obtain ⟨x, hx, hx0, hx2⟩ := round64_le_double _ hn0 (le_trans hn1 hb1)
  refine ⟨f, x, float64.mul_fin _ _ _ hf, float64.sub_fin _ _ _ hx, hx0, ?_⟩
  calc x * 10 ^ 8 ≤ 2 * (b - f) * 10 ^ 8 := mul_le_mul_of_nonneg_right hx2 (by norm_num)
    _ ≤ 2 * b * 10 ^ 8 :=
        mul_le_mul_of_nonneg_right (mul_le_mul_of_nonneg_left hn1 (by norm_num)) (by norm_num)
    _ = b * (2 * 10 ^ 8) := by ring
    _ ≤ (2 : ℚ) ^ (990 : ℤ) * (2 * 10 ^ 8) := mul_le_mul_of_nonneg_right hhi (by norm_num)
    _ ≤ (2 : ℚ) ^ (1022 : ℤ) := by norm_num

/-- The bounds of the truncated net amount on float64, with u = 2^-53 and x the net amount
`b - b * TakerFee` the code computes: at most x * (1 + u)^2 and more than
(x * (1 - u) - 10^-8) * (1 - u). -/
theorem float64.net_bounds (b : ℚ) (hb0 : 0 ≤ b) (hhi : b ≤ (2 : ℚ) ^ (990 : ℤ)) :
    ∃ x out,
      float64.sub (F64.fin b) (float64.mul (F64.fin b) (round64 (0.10 / 100))) = F64.fin x ∧
      float64.Trunc8 (float64.sub (F64.fin b) (float64.mul (F64.fin b) (round64 (0.10 / 100))))
        = F64.fin out ∧
      0 ≤ x ∧ out ≤ x * (1 + 1 / 2 ^ 53) ^ 2 ∧
      (x * (1 - 1 / 2 ^ 53) - 1 / 10 ^ 8) * (1 - 1 / 2 ^ 53) < out := by
  obtain ⟨f, x, hf, hx, hx0, hx8⟩ := float64.net_finite b hb0 hhi
  obtain ⟨z, hz, -, hzup, hzlo⟩ := float64.Trunc8_bounds x hx0 hx8
  refine ⟨x, z, ?_, ?_, hx0, hzup, hzlo⟩
  · rw [hf, hx]
  · rw [hf, hx, hz]

/-! ## The fields after an update -/

section fields
variable (o : Order) (v : F64)

@[simp] theorem UpdateBaseVolume_Price : (o.UpdateBaseVolume v).Price = o.Price := by
  unfold Order.UpdateBaseVolume Order.updateVolumesInOut; dsimp only; split_ifs <;> rfl

@[simp] theorem UpdateBaseVolume_TakerFee : (o.UpdateBaseVolume v).TakerFee = o.TakerFee := by
  unfold Order.UpdateBaseVolume Order.updateVolumesInOut; dsimp only; split_ifs <;> rfl

@[simp] theorem UpdateBaseVolume_TransactionType :
    (o.UpdateBaseVolume v).TransactionType = o.TransactionType := by
  unfold Order.UpdateBaseVolume Order.updateVolumesInOut; dsimp only; split_ifs <;> rfl

@[simp] theorem UpdateBaseVolume_BaseVolume : (o.UpdateBaseVolume v).BaseVolume = v := by
  unfold Order.UpdateBaseVolume Order.updateVolumesInOut; dsimp only; split_ifs <;> rfl

@[simp] theorem UpdateBaseVolume_QuoteVolume :
    (o.UpdateBaseVolume v).QuoteVolume = o.Price * v := by
  unfold Order.UpdateBaseVolume Order.updateVolumesInOut; dsimp only; split_ifs <;> rfl

@[simp] theorem UpdateBaseVolume_Fee : (o.UpdateBaseVolume v).Fee = v * o.TakerFee := by
  unfold Order.UpdateBaseVolume Order.updateVolumesInOut; dsimp only; split_ifs <;> rfl

@[simp] theorem UpdateQuoteVolume_Price : (o.UpdateQuoteVolume v).Price = o.Price := by
  unfold Order.UpdateQuoteVolume Order.updateVolumesInOut; dsimp only; split_ifs <;> rfl

@[simp] theorem UpdateQuoteVolume_TakerFee : (o.UpdateQuoteVolume v).TakerFee = o.TakerFee := by
  unfold Order.UpdateQuoteVolume Order.updateVolumesInOut; dsimp only; split_ifs <;> rfl

@[simp] theorem UpdateQuoteVolume_TransactionType :
    (o.UpdateQuoteVolume v).TransactionType = o.TransactionType := by
  unfold Order.UpdateQuoteVolume Order.updateVolumesInOut; dsimp only; split_ifs <;> rfl

@[simp] theorem UpdateQuoteVolume_QuoteVolume : (o.UpdateQuoteVolume v).QuoteVolume = v := by
  unfold Order.UpdateQuoteVolume Order.updateVolumesInOut; dsimp only; split_ifs <;> rfl

@[simp] theorem UpdateQuoteVolume_BaseVolume :
    (o.UpdateQuoteVolume v).BaseVolume = v / o.Price := by
  unfold Order.UpdateQuoteVolume Order.updateVolumesInOut; dsimp only; split_ifs <;> rfl

@[simp] theorem UpdateQuoteVolume_Fee :
    (o.UpdateQuoteVolume v).Fee = v / o.Price * o.TakerFee := by
  unfold Order.UpdateQuoteVolume Order.updateVolumesInOut; dsimp only; split_ifs <;> rfl

@[simp] theorem UpdateBaseVolume_PriceOfQuoteToBase :
    (o.UpdateBaseVolume v).PriceOfQuoteToBase = o.PriceOfQuoteToBase := by
  unfold Order.UpdateBaseVolume Order.updateVolumesInOut; dsimp only; split_ifs <;> rfl

@[simp] theorem UpdateQuoteVolume_PriceOfQuoteToBase :
    (o.UpdateQuoteVolume v).PriceOfQuoteToBase = o.PriceOfQuoteToBase := by
  unfold Order.UpdateQuoteVolume Order.updateVolumesInOut; dsimp only; split_ifs <;> rfl

end fields

section sides
variable (o : Order) (v : F64)

theorem UpdateBaseVolume_bid (h : o.TransactionType = Bid) :
    (o.UpdateBaseVolume v).BaseVolumeIn = F64.fin 0 ∧
    (o.UpdateBaseVolume v).QuoteVolumeIn = Trunc8 (o.Price * v) ∧
    (o.UpdateBaseVolume v).BaseVolumeOut = Trunc8 (v - v * o.TakerFee) ∧
    (o.UpdateBaseVolume v).QuoteVolumeOut = F64.fin 0 := by
  unfold Order.UpdateBaseVolume Order.updateVolumesInOut
  simp [h]

theorem UpdateQuoteVolume_bid (h : o.TransactionType = Bid) :
    (o.UpdateQuoteVolume v).BaseVolumeIn = F64.fin 0 ∧
    (o.UpdateQuoteVolume v).QuoteVolumeIn = Trunc8 v ∧
    (o.UpdateQuoteVolume v).BaseVolumeOut = Trunc8 (v / o.Price - v / o.Price * o.TakerFee) ∧
    (o.UpdateQuoteVolume v).QuoteVolumeOut = F64.fin 0 := by
  unfold Order.UpdateQuoteVolume Order.updateVolumesInOut
  simp [h]

theorem UpdateBaseVolume_ask (h : o.TransactionType = Ask) :
    (o.UpdateBaseVolume v).BaseVolumeIn = Trunc8 v ∧
    (o.UpdateBaseVolume v).QuoteVolumeIn = F64.fin 0 ∧
    (o.UpdateBaseVolume v).BaseVolumeOut = F64.fin 0 ∧
    (o.UpdateBaseVolume v).QuoteVolumeOut
      = Trunc8 (o.Price * v - o.Price * v * o.TakerFee) := by
  unfold Order.UpdateBaseVolume Order.updateVolumesInOut
  simp [h, Ask, Bid]

theorem UpdateQuoteVolume_ask (h : o.TransactionType = Ask) :
    (o.UpdateQuoteVolume v).BaseVolumeIn = Trunc8 (v / o.Price) ∧
    (o.UpdateQuoteVolume v).QuoteVolumeIn = F64.fin 0 ∧
    (o.UpdateQuoteVolume v).BaseVolumeOut = F64.fin 0 ∧
    (o.UpdateQuoteVolume v).QuoteVolumeOut = Trunc8 (v - v * o.TakerFee) := by
  unfold Order.UpdateQuoteVolume Order.updateVolumesInOut
  simp [h, Ask, Bid]

end sides

/-! ## The constructors -/

/-- The order `Init` hands to `UpdateBaseVolume` when `NewBid` runs. -/
theorem NewBid_eq (price baseVolume : F64) :
    NewBid price baseVolume =
      ({ Order.zero with TransactionType := Bid, Price := price,
                         PriceOfQuoteToBase := F64.fin 1 / price,
                         TakerFee := F64.fin (0.10 / 100) } : Order).UpdateBaseVolume
        baseVolume := rfl

/-- The order `Init` hands to `UpdateBaseVolume` when `NewAsk` runs. -/
theorem NewAsk_eq (price baseVolume : F64) :
    NewAsk price baseVolume =
      ({ Order.zero with TransactionType := Ask, Price := price,
                         PriceOfQuoteToBase := F64.fin 1 / price,
                         TakerFee := F64.fin (0.10 / 100) } : Order).UpdateBaseVolume
        baseVolume := rfl

@[simp] theorem NewBid_TransactionType (p b : F64) : (NewBid p b).TransactionType = Bid := by
  simp [NewBid_eq]

@[simp] theorem NewAsk_TransactionType (p b : F64) : (NewAsk p b).TransactionType = Ask := by
  simp [NewAsk_eq]

@[simp] theorem NewBid_Price (p b : F64) : (NewBid p b).Price = p := by simp [NewBid_eq]

@[simp] theorem NewAsk_Price (p b : F64) : (NewAsk p b).Price = p := by simp [NewAsk_eq]

@[simp] theorem NewBid_TakerFee (p b : F64) : (NewBid p b).TakerFee = F64.fin (0.10 / 100) := by
  simp [NewBid_eq]

@[simp] theorem NewAsk_TakerFee (p b : F64) : (NewAsk p b).TakerFee = F64.fin (0.10 / 100) := by
  simp [NewAsk_eq]

@[simp] theorem NewBid_BaseVolume (p b : F64) : (NewBid p b).BaseVolume = b := by
  simp [NewBid_eq]

@[simp] theorem NewAsk_BaseVolume (p b : F64) : (NewAsk p b).BaseVolume = b := by
  simp [NewAsk_eq]

@[simp] theorem NewBid_QuoteVolume (p b : F64) : (NewBid p b).QuoteVolume = p * b := by
  simp [NewBid_eq]

@[simp] theorem NewAsk_QuoteVolume (p b : F64) : (NewAsk p b).QuoteVolume = p * b := by
  simp [NewAsk_eq]

@[simp] theorem NewBid_PriceOfQuoteToBase (p b : F64) :
    (NewBid p b).PriceOfQuoteToBase = F64.fin 1 / p := by
  simp [NewBid_eq]

@[simp] theorem NewAsk_PriceOfQuoteToBase (p b : F64) :
    (NewAsk p b).PriceOfQuoteToBase = F64.fin 1 / p := by
  simp [NewAsk_eq]

@[simp] theorem NewBid_Fee (p b : F64) : (NewBid p b).Fee = b * F64.fin (0.10 / 100) := by
  simp [NewBid_eq]

@[simp] theorem NewAsk_Fee (p b : F64) : (NewAsk p b).Fee = b * F64.fin (0.10 / 100) := by
  simp [NewAsk_eq]

/-! ## The derivation table -/

theorem AskRow_UpdateBaseVolume (o : Order) (v : F64) (h : o.TransactionType = Ask) :
    AskRow (o.UpdateBaseVolume v) := by
  obtain ⟨h1, h2, h3, h4⟩ := UpdateBaseVolume_ask o v h
  refine ⟨h3, h2, ?_, ?_⟩
  · rw [h1, UpdateBaseVolume_BaseVolume]
  · rw [h4, UpdateBaseVolume_QuoteVolume, UpdateBaseVolume_TakerFee]

theorem AskRow_UpdateQuoteVolume (o : Order) (v : F64) (h : o.TransactionType = Ask) :
    AskRow (o.UpdateQuoteVolume v) := by
  obtain ⟨h1, h2, h3, h4⟩ := UpdateQuoteVolume_ask o v h
  refine ⟨h3, h2, ?_, ?_⟩
  · rw [h1, UpdateQuoteVolume_BaseVolume]
  · rw [h4, UpdateQuoteVolume_QuoteVolume, UpdateQuoteVolume_TakerFee]

/-- Side, price and taker fee are the same after any sequence of updates. -/
theorem applyUpdates_frame (us : List VolumeUpdate) (o : Order) :
    (o.applyUpdates us).TransactionType = o.TransactionType ∧
    (o.applyUpdates us).Price = o.Price ∧ (o.applyUpdates us).TakerFee = o.TakerFee := by
  induction us generalizing o with
  | nil => exact ⟨rfl, rfl, rfl⟩
  | cons u us ih =>
    have := ih (o.applyUpdate u)
    cases u <;> simpa [Order.applyUpdates, Order.applyUpdate] using this

theorem AskRow_applyUpdates (us : List VolumeUpdate) (o : Order)
    (h : o.TransactionType = Ask) (hrow : AskRow o) : AskRow (o.applyUpdates us) := by
  induction us generalizing o with
  | nil => exact hrow
  | cons u us ih =>
    cases u with
    | base v =>
      exact ih (o.UpdateBaseVolume (F64.fin v)) (by simpa using h)
        (AskRow_UpdateBaseVolume o _ h)
    | quote v =>
      exact ih (o.UpdateQuoteVolume (F64.fin v)) (by simpa using h)
        (AskRow_UpdateQuoteVolume o _ h)

theorem AskRow_NewAsk (p b : F64) : AskRow (NewAsk p b) := by
  rw [NewAsk_eq]
  exact AskRow_UpdateBaseVolume _ b rfl

theorem FeeDerived_applyUpdate (o : Order) (u : VolumeUpdate)
    (h : o.TakerFee = F64.fin 0.001) : FeeDerived (o.applyUpdate u) := by
  cases u <;> simp [FeeDerived, Order.applyUpdate, h]

theorem FeeDerived_applyUpdates (us : List VolumeUpdate) (o : Order) (h : FeeDerived o) :
    FeeDerived (o.applyUpdates us) := by
  induction us generalizing o with
  | nil => exact h
  | cons u us ih => exact ih (o.applyUpdate u) (FeeDerived_applyUpdate o u h.1)

theorem takerFee_value : F64.fin (0.10 / 100) = F64.fin 0.001 := by
  congr 1; norm_num

theorem FeeDerived_NewBid (p b : F64) : FeeDerived (NewBid p b) := by
  simp [FeeDerived, takerFee_value]

theorem FeeDerived_NewAsk (p b : F64) : FeeDerived (NewAsk p b) := by
  simp [FeeDerived, takerFee_value]

/-- The four in/out fields of a Bid built from finite values. -/
theorem NewBid_inout (p b : ℚ) :
    (NewBid (F64.fin p) (F64.fin b)).BaseVolumeIn = F64.fin 0 ∧
    (NewBid (F64.fin p) (F64.fin b)).QuoteVolumeIn = F64.fin (truncToward0 (p * b)) ∧
    (NewBid (F64.fin p) (F64.fin b)).BaseVolumeOut
      = F64.fin (truncToward0 (b - b * (0.10 / 100))) ∧
    (NewBid (F64.fin p) (F64.fin b)).QuoteVolumeOut = F64.fin 0 := by
  have h := UpdateBaseVolume_bid
    ({ Order.zero with TransactionType := Bid, Price := F64.fin p,
                       PriceOfQuoteToBase := F64.fin 1 / F64.fin p,
                       TakerFee := F64.fin (0.10 / 100) } : Order) (F64.fin b) rfl
  simpa only [NewBid_eq, F64.fin_mul_fin, F64.fin_sub_fin, Trunc8_fin] using h

/-- The four in/out fields of an Ask built from finite values. -/
theorem NewAsk_inout (p b : ℚ) :
    (NewAsk (F64.fin p) (F64.fin b)).BaseVolumeIn = F64.fin (truncToward0 b) ∧
    (NewAsk (F64.fin p) (F64.fin b)).QuoteVolumeIn = F64.fin 0 ∧
    (NewAsk (F64.fin p) (F64.fin b)).BaseVolumeOut = F64.fin 0 ∧
    (NewAsk (F64.fin p) (F64.fin b)).QuoteVolumeOut
      = F64.fin (truncToward0 (p * b - p * b * (0.10 / 100))) := by
  have h := UpdateBaseVolume_ask
    ({ Order.zero with TransactionType := Ask, Price := F64.fin p,
                       PriceOfQuoteToBase := F64.fin 1 / F64.fin p,
                       TakerFee := F64.fin (0.10 / 100) } : Order) (F64.fin b) rfl
  simpa only [NewAsk_eq, F64.fin_mul_fin, F64.fin_sub_fin, Trunc8_fin] using h

/-- A value that is `n / 10 ^ 8` for an integer `n` is left as it is. -/
theorem truncToward0_eq_self (x : ℚ) (n : ℤ) (h : x = (n : ℚ) / 10 ^ 8) :
    truncToward0 x = x := by
  rw [h, truncToward0_of_int]

/-- The in/out fields of `NewBid(100, 2)`. -/
theorem NewBid_100_2 :
    (NewBid (F64.fin 100) (F64.fin 2)).QuoteVolumeIn = F64.fin 200 ∧
    (NewBid (F64.fin 100) (F64.fin 2)).BaseVolumeOut = F64.fin 1.998 ∧
    (NewBid (F64.fin 100) (F64.fin 2)).BaseVolumeIn = F64.fin 0 ∧
    (NewBid (F64.fin 100) (F64.fin 2)).QuoteVolumeOut = F64.fin 0 := by
  obtain ⟨h1, h2, h3, h4⟩ := NewBid_inout 100 2
  refine ⟨?_, ?_, h1, h4⟩
  · rw [h2, truncToward0_eq_self _ 20000000000 (by norm_num)]; congr 1; norm_num
  · rw [h3, truncToward0_eq_self _ 199800000 (by norm_num)]; congr 1; norm_num

/-- The in/out fields of `NewAsk(50, 10)`. -/
theorem NewAsk_50_10 :
    (NewAsk (F64.fin 50) (F64.fin 10)).BaseVolumeIn = F64.fin 10 ∧
    (NewAsk (F64.fin 50) (F64.fin 10)).QuoteVolumeOut = F64.fin 499.5 ∧
    (NewAsk (F64.fin 50) (F64.fin 10)).BaseVolumeOut = F64.fin 0 ∧
    (NewAsk (F64.fin 50) (F64.fin 10)).QuoteVolumeIn = F64.fin 0 := by
  obtain ⟨h1, h2, h3, h4⟩ := NewAsk_inout 50 10
  refine ⟨?_, ?_, h3, h2⟩
  · rw [h1, truncToward0_eq_self _ 1000000000 (by norm_num)]
  · rw [h4, truncToward0_eq_self _ 49950000000 (by norm_num)]; congr 1; norm_num

/-! ## Signs of the volumes -/

theorem net_nonneg {b : ℚ} (hb : 0 ≤ b) : 0 ≤ b - b * (0.10 / 100) := by
  have e : b - b * (0.10 / 100) = b * (999 / 1000) := by ring
  rw [e]; positivity

theorem NonNegVolumes_UpdateBaseVolume (o : Order) (p v : ℚ) (hprice : o.Price = F64.fin p)
    (hp : 0 < p) (ht : o.TakerFee = F64.fin (0.10 / 100))
    (hside : o.TransactionType = Bid ∨ o.TransactionType = Ask) (hv : 0 ≤ v) :
    NonNegVolumes (o.UpdateBaseVolume (F64.fin v)) := by
  have hq : 0 ≤ p * v := by positivity
  have hf : 0 ≤ v * (0.10 / 100) := by positivity
  rcases hside with h | h
  · obtain ⟨h1, h2, h3, h4⟩ := UpdateBaseVolume_bid o (F64.fin v) h
    refine ⟨?_, ?_, ?_, ?_, ?_, ?_, ?_⟩
    · simpa using hv
    · simpa [hprice] using hq
    · simpa [ht] using hf
    · simp [h1]
    · simpa [h3, ht] using truncToward0_nonneg (net_nonneg hv)
    · simpa [h2, hprice] using truncToward0_nonneg hq
    · simp [h4]
  · obtain ⟨h1, h2, h3, h4⟩ := UpdateBaseVolume_ask o (F64.fin v) h
    refine ⟨?_, ?_, ?_, ?_, ?_, ?_, ?_⟩
    · simpa using hv
    · simpa [hprice] using hq
    · simpa [ht] using hf
    · simpa [h1] using truncToward0_nonneg hv
    · simp [h3]
    · simp [h2]
    · simpa [h4, hprice, ht] using truncToward0_nonneg (net_nonneg hq)

theorem NonNegVolumes_UpdateQuoteVolume (o : Order) (p v : ℚ) (hprice : o.Price = F64.fin p)
    (hp : 0 < p) (ht : o.TakerFee = F64.fin (0.10 / 100))
    (hside : o.TransactionType = Bid ∨ o.TransactionType = Ask) (hv : 0 ≤ v) :
    NonNegVolumes (o.UpdateQuoteVolume (F64.fin v)) := by
  have hp0 : p ≠ 0 := hp.ne.symm
  have hb : 0 ≤ v / p := by positivity
  have hf : 0 ≤ v / p * (0.10 / 100) := by positivity
  have hd : F64.fin v / F64.fin p = F64.fin (v / p) := F64.fin_div_fin _ _ hp0
  rcases hside with h | h
  · obtain ⟨h1, h2, h3, h4⟩ := UpdateQuoteVolume_bid o (F64.fin v) h
    refine ⟨?_, ?_, ?_, ?_, ?_, ?_, ?_⟩
    · simpa [hprice, hd] using hb
    · simpa using hv
    · simpa [hprice, hd, ht] using hf
    · simp [h1]
    · simpa [h3, hprice, hd, ht] using truncToward0_nonneg (net_nonneg hb)
    · simpa [h2] using truncToward0_nonneg hv
    · simp [h4]
  · obtain ⟨h1, h2, h3, h4⟩ := UpdateQuoteVolume_ask o (F64.fin v) h
    refine ⟨?_, ?_, ?_, ?_, ?_, ?_, ?_⟩
    · simpa [hprice, hd] using hb
    · simpa using hv
    · simpa [hprice, hd, ht] using hf
    · simpa [h1, hprice, hd] using truncToward0_nonneg hb
    · simp [h3]
    · simp [h2]
    · simpa [h4, ht] using truncToward0_nonneg (net_nonneg hv)

theorem NonNegVolumes_applyUpdates (us : List VolumeUpdate) (o : Order) (p : ℚ)
    (hprice : o.Price = F64.fin p) (hp : 0 < p) (ht : o.TakerFee = F64.fin (0.10 / 100))
    (hside : o.TransactionType = Bid ∨ o.TransactionType = Ask)
    (hus : ∀ u ∈ us, 0 ≤ u.volume) (h0 : NonNegVolumes o) :
    NonNegVolumes (o.applyUpdates us) := by
  induction us generalizing o with
  | nil => exact h0
  | cons u us ih =>
    have hu : 0 ≤ u.volume := hus u (List.mem_cons_self _ _)
    have hrest : ∀ w ∈ us, 0 ≤ w.volume := fun w hw => hus w (List.mem_cons_of_mem _ hw)
    cases u with
    | base v =>
      exact ih (o.UpdateBaseVolume (F64.fin v)) (by simpa using hprice) (by simpa using ht)
        (by simpa using hside) hrest
        (NonNegVolumes_UpdateBaseVolume o p v hprice hp ht hside hu)
    | quote v =>
      exact ih (o.UpdateQuoteVolume (F64.fin v)) (by simpa using hprice) (by simpa using ht)
        (by simpa using hside) hrest
        (NonNegVolumes_UpdateQuoteVolume o p v hprice hp ht hside hu)

theorem NonNegVolumes_NewBid (p b : ℚ) (hp : 0 < p) (hb : 0 ≤ b) :
    NonNegVolumes (NewBid (F64.fin p) (F64.fin b)) := by
  rw [NewBid_eq]
  exact NonNegVolumes_UpdateBaseVolume _ p b rfl hp rfl (Or.inl rfl) hb

theorem NonNegVolumes_NewAsk (p b : ℚ) (hp : 0 < p) (hb : 0 ≤ b) :
    NonNegVolumes (NewAsk (F64.fin p) (F64.fin b)) := by
  rw [NewAsk_eq]
  exact NonNegVolumes_UpdateBaseVolume _ p b rfl hp rfl (Or.inr rfl) hb

/-! ## Fixed points of the truncation -/

theorem Trunc8_idem (x : F64) : Trunc8 (Trunc8 x) = Trunc8 x := by
  cases x with
  | fin q => simp [truncToward0_idem]
  | posInf => rfl
  | negInf => rfl
  | nan => rfl

theorem Trunc8_zero : Trunc8 (F64.fin 0) = F64.fin 0 := by
  rw [Trunc8_fin, truncToward0_eq_self 0 0 (by norm_num)]

theorem InOutFixed_UpdateBaseVolume (o : Order) (v : F64)
    (hside : o.TransactionType = Bid ∨ o.TransactionType = Ask) :
    InOutFixed (o.UpdateBaseVolume v) := by
  rcases hside with h | h
  · obtain ⟨h1, h2, h3, h4⟩ := UpdateBaseVolume_bid o v h
    exact ⟨by rw [h1, Trunc8_zero], by rw [h3, Trunc8_idem], by rw [h2, Trunc8_idem],
      by rw [h4, Trunc8_zero]⟩
  · obtain ⟨h1, h2, h3, h4⟩ := UpdateBaseVolume_ask o v h
    exact ⟨by rw [h1, Trunc8_idem], by rw [h3, Trunc8_zero], by rw [h2, Trunc8_zero],
      by rw [h4, Trunc8_idem]⟩

theorem InOutFixed_UpdateQuoteVolume (o : Order) (v : F64)
    (hside : o.TransactionType = Bid ∨ o.TransactionType = Ask) :
    InOutFixed (o.UpdateQuoteVolume v) := by
  rcases hside with h | h
  · obtain ⟨h1, h2, h3, h4⟩ := UpdateQuoteVolume_bid o v h
    exact ⟨by rw [h1, Trunc8_zero], by rw [h3, Trunc8_idem], by rw [h2, Trunc8_idem],
      by rw [h4, Trunc8_zero]⟩
  · obtain ⟨h1, h2, h3, h4⟩ := UpdateQuoteVolume_ask o v h
    exact ⟨by rw [h1, Trunc8_idem], by rw [h3, Trunc8_zero], by rw [h2, Trunc8_zero],
      by rw [h4, Trunc8_idem]⟩

/-! ## The frame of the updates -/

theorem SameFrame_UpdateBaseVolume (o : Order) (v : F64) :
    SameFrame (o.UpdateBaseVolume v) o := by
  unfold SameFrame Order.UpdateBaseVolume Order.updateVolumesInOut
  dsimp only
  split_ifs <;> exact ⟨rfl, rfl, rfl, rfl, rfl, rfl⟩

theorem SameFrame_UpdateQuoteVolume (o : Order) (v : F64) :
    SameFrame (o.UpdateQuoteVolume v) o := by
  unfold SameFrame Order.UpdateQuoteVolume Order.updateVolumesInOut
  dsimp only
  split_ifs <;> exact ⟨rfl, rfl, rfl, rfl, rfl, rfl⟩

theorem SameInOut_UpdateBaseVolume (o : Order) (v : F64) (hb : o.TransactionType ≠ Bid)
    (ha : o.TransactionType ≠ Ask) : SameInOut (o.UpdateBaseVolume v) o := by
  unfold SameInOut Order.UpdateBaseVolume Order.updateVolumesInOut
  dsimp only
  rw [if_neg hb, if_neg ha]
  exact ⟨rfl, rfl, rfl, rfl⟩

theorem SameInOut_UpdateQuoteVolume (o : Order) (v : F64) (hb : o.TransactionType ≠ Bid)
    (ha : o.TransactionType ≠ Ask) : SameInOut (o.UpdateQuoteVolume v) o := by
  unfold SameInOut Order.UpdateQuoteVolume Order.updateVolumesInOut
  dsimp only
  rw [if_neg hb, if_neg ha]
  exact ⟨rfl, rfl, rfl, rfl⟩

/-! ## The round trip on exact arithmetic -/

/-- On exact arithmetic, a quote-volume update with the quote volume a base-volume update
has just stored gives the base volume back and changes no field. -/
theorem UpdateQuoteVolume_UpdateBaseVolume (o : Order) (p v : ℚ)
    (hprice : o.Price = F64.fin p) (hp : 0 < p) :
    ((o.UpdateBaseVolume (F64.fin v)).UpdateQuoteVolume
      (o.UpdateBaseVolume (F64.fin v)).QuoteVolume).BaseVolume = F64.fin v ∧
    (o.UpdateBaseVolume (F64.fin v)).UpdateQuoteVolume
      (o.UpdateBaseVolume (F64.fin v)).QuoteVolume = o.UpdateBaseVolume (F64.fin v) := by
  have hp0 : p ≠ 0 := hp.ne.symm
  have hq : (o.UpdateBaseVolume (F64.fin v)).QuoteVolume = F64.fin (p * v) := by
    rw [UpdateBaseVolume_QuoteVolume, hprice, F64.fin_mul_fin]
  have hdiv : F64.fin (p * v) / F64.fin p = F64.fin v := by
    rw [F64.fin_div_fin _ _ hp0]; congr 1; field_simp
  have hb : ((o.UpdateBaseVolume (F64.fin v)).UpdateQuoteVolume
      (o.UpdateBaseVolume (F64.fin v)).QuoteVolume).BaseVolume = F64.fin v := by
    rw [UpdateQuoteVolume_BaseVolume, hq, UpdateBaseVolume_Price, hprice, hdiv]
  refine ⟨hb, ?_⟩
  rw [hq]
  cases o
  simp only at hprice
  subst hprice
  unfold Order.UpdateQuoteVolume Order.UpdateBaseVolume Order.updateVolumesInOut
  dsimp only
  split_ifs <;> simp_all [hdiv]

/-! ## Claims -/

/-- C1, as stated, fails on float64: for `NewBid(1, 777.4)` the code truncates
BaseVolume - BaseVolume * TakerFee, a float64 that is 776.6226 or just above, so
BaseVolumeOut is 776.6226; the claimed BaseVolume * (1 - TakerFee) is a float64 just below
776.6226, whose truncation is 776.62259999. -/
theorem bid_out_is_not_truncated_product_on_float64 :
    F64.fin 0 < F64.fin 1 ∧ F64.fin 0 ≤ round64 777.4 ∧
    (float64.NewBid (F64.fin 1) (round64 777.4)).BaseVolumeOut = round64 776.6226 ∧
    float64.Trunc8
        (float64.mul (float64.NewBid (F64.fin 1) (round64 777.4)).BaseVolume
          (float64.sub (F64.fin 1) (float64.NewBid (F64.fin 1) (round64 777.4)).TakerFee))
      = round64 776.62259999 ∧
    (float64.NewBid (F64.fin 1) (round64 777.4)).BaseVolumeOut
      ≠ float64.Trunc8
          (float64.mul (float64.NewBid (F64.fin 1) (round64 777.4)).BaseVolume
            (float64.sub (F64.fin 1)
              (float64.NewBid (F64.fin 1) (round64 777.4)).TakerFee)) := by
  obtain ⟨-, -, h3, -⟩ := float64.NewBid_inout_f64 (F64.fin 1) (round64 777.4)
  have hout : (float64.NewBid (F64.fin 1) (round64 777.4)).BaseVolumeOut
      = F64.fin (6831244632749035 / 8796093022208) := by
    rw [h3, float64.lit_777_4, float64.takerFee_eq, float64.fee_777_4, float64.net_777_4,
      float64.Trunc8_net_777_4]
  have hclaim : float64.Trunc8
        (float64.mul (float64.NewBid (F64.fin 1) (round64 777.4)).BaseVolume
          (float64.sub (F64.fin 1) (float64.NewBid (F64.fin 1) (round64 777.4)).TakerFee))
      = F64.fin (3415622316330537 / 4398046511104) := by
    rw [float64.NewBid_BaseVolume_f64, float64.NewBid_TakerFee_f64, float64.lit_777_4,
      float64.takerFee_eq, float64.one_minus_takerFee, float64.claimed_net_777_4,
      float64.Trunc8_claimed_net_777_4]
  refine ⟨by simp, ?_, ?_, ?_, ?_⟩
  · rw [float64.lit_777_4, F64.fin_le_fin]; norm_num
  · rw [hout, float64.lit_776_6226]
  · rw [hclaim, float64.lit_776_62259999]
  · rw [hout, hclaim]
    intro h
    rw [F64.fin.injEq] at h
    norm_num at h

/-- C1, amended: on float64, for every price > 0 and baseVolume >= 0, the order
`NewBid(price, baseVolume)` satisfies the Bid row with the net base volume as the code and
the derivation table write it (BaseVolumeIn = 0, QuoteVolumeOut = 0,
QuoteVolumeIn = trunc8(QuoteVolume), BaseVolumeOut = trunc8(BaseVolume - BaseVolume *
TakerFee)), and so does the order after any sequence of `UpdateBaseVolume(v)` /
`UpdateQuoteVolume(v)` calls with v >= 0 on it; and `NewBid(100, 2)` has
QuoteVolumeIn = 200, BaseVolumeOut = 1.998, BaseVolumeIn = 0 and QuoteVolumeOut = 0. -/
theorem bid_row_as_coded (price baseVolume : ℚ) (_hp : 0 < price) (_hv : 0 ≤ baseVolume)
    (us : List VolumeUpdate) (_hus : ∀ u ∈ us, 0 ≤ u.volume) :
    float64.BidRow
      (float64.applyUpdates (float64.NewBid (round64 price) (round64 baseVolume)) us) ∧
    ((float64.NewBid (F64.fin 100) (F64.fin 2)).QuoteVolumeIn = F64.fin 200 ∧
     (float64.NewBid (F64.fin 100) (F64.fin 2)).BaseVolumeOut = round64 1.998 ∧
     (float64.NewBid (F64.fin 100) (F64.fin 2)).BaseVolumeIn = F64.fin 0 ∧
     (float64.NewBid (F64.fin 100) (F64.fin 2)).QuoteVolumeOut = F64.fin 0) :=
  ⟨float64.BidRow_applyUpdates us _ (by simp) (float64.BidRow_NewBid _ _),
    float64.NewBid_100_2_f64⟩

/-- Witness of C1 amended: a Bid at price 100 for 2 units, then `UpdateBaseVolume(3)` and
`UpdateQuoteVolume(50)`. -/
theorem bid_row_as_coded_witness :
    (0 : ℚ) < 100 ∧ (0 : ℚ) ≤ 2 ∧
    (∀ u ∈ [VolumeUpdate.base 3, VolumeUpdate.quote 50], 0 ≤ u.volume) ∧
    (float64.BidRow
      (float64.applyUpdates (float64.NewBid (round64 100) (round64 2))
        [VolumeUpdate.base 3, VolumeUpdate.quote 50]) ∧
     ((float64.NewBid (F64.fin 100) (F64.fin 2)).QuoteVolumeIn = F64.fin 200 ∧
      (float64.NewBid (F64.fin 100) (F64.fin 2)).BaseVolumeOut = round64 1.998 ∧
      (float64.NewBid (F64.fin 100) (F64.fin 2)).BaseVolumeIn = F64.fin 0 ∧
      (float64.NewBid (F64.fin 100) (F64.fin 2)).QuoteVolumeOut = F64.fin 0)) :=
  ⟨by norm_num, by norm_num, by simp [VolumeUpdate.volume],
    bid_row_as_coded 100 2 (by norm_num) (by norm_num)
      [VolumeUpdate.base 3, VolumeUpdate.quote 50] (by simp [VolumeUpdate.volume])⟩

/-- C2: for every price > 0 and baseVolume >= 0, the order `NewAsk(price, baseVolume)`
satisfies the Ask row of the derivation table (BaseVolumeOut = 0, QuoteVolumeIn = 0,
BaseVolumeIn = trunc8(BaseVolume), QuoteVolumeOut = trunc8(QuoteVolume - QuoteVolume *
TakerFee)), and so does the order after any sequence of `UpdateBaseVolume(v)` /
`UpdateQuoteVolume(v)` calls with v >= 0 on it; and `NewAsk(50, 10)` has BaseVolumeIn = 10,
QuoteVolumeOut = 499.5, BaseVolumeOut = 0 and QuoteVolumeIn = 0. -/
theorem ask_row_after_construction_and_updates (price baseVolume : ℚ) (_hp : 0 < price)
    (_hv : 0 ≤ baseVolume) (us : List VolumeUpdate) (_hus : ∀ u ∈ us, 0 ≤ u.volume) :
    AskRow ((NewAsk (F64.fin price) (F64.fin baseVolume)).applyUpdates us) ∧
    ((NewAsk (F64.fin 50) (F64.fin 10)).BaseVolumeIn = F64.fin 10 ∧
     (NewAsk (F64.fin 50) (F64.fin 10)).QuoteVolumeOut = F64.fin 499.5 ∧
     (NewAsk (F64.fin 50) (F64.fin 10)).BaseVolumeOut = F64.fin 0 ∧
     (NewAsk (F64.fin 50) (F64.fin 10)).QuoteVolumeIn = F64.fin 0) := by
  exact ⟨AskRow_applyUpdates us _ (by simp) (AskRow_NewAsk _ _), NewAsk_50_10⟩

/-- Witness of C2: an Ask at price 50 for 10 units, then `UpdateQuoteVolume(40)` and
`UpdateBaseVolume(1)`. -/
theorem ask_row_after_construction_and_updates_witness :
    (0 : ℚ) < 50 ∧ (0 : ℚ) ≤ 10 ∧
    (∀ u ∈ [VolumeUpdate.quote 40, VolumeUpdate.base 1], 0 ≤ u.volume) ∧
    (AskRow ((NewAsk (F64.fin 50) (F64.fin 10)).applyUpdates
        [VolumeUpdate.quote 40, VolumeUpdate.base 1]) ∧
     ((NewAsk (F64.fin 50) (F64.fin 10)).BaseVolumeIn = F64.fin 10 ∧
      (NewAsk (F64.fin 50) (F64.fin 10)).QuoteVolumeOut = F64.fin 499.5 ∧
      (NewAsk (F64.fin 50) (F64.fin 10)).BaseVolumeOut = F64.fin 0 ∧
      (NewAsk (F64.fin 50) (F64.fin 10)).QuoteVolumeIn = F64.fin 0)) :=
  ⟨by norm_num, by norm_num, by simp [VolumeUpdate.volume],
    ask_row_after_construction_and_updates 50 10 (by norm_num) (by norm_num)
      [VolumeUpdate.quote 40, VolumeUpdate.base 1] (by simp [VolumeUpdate.volume])⟩

/-- C3: for every price > 0 and baseVolume >= 0, `NewBid(price, baseVolume)` and
`NewAsk(price, baseVolume)` each return an order with Price = price,
BaseVolume = baseVolume, QuoteVolume = price * baseVolume and
PriceOfQuoteToBase = 1 / price. -/
theorem constructors_set_price_and_volumes (price baseVolume : ℚ) (hp : 0 < price)
    (_hv : 0 ≤ baseVolume) :
    ((NewBid (F64.fin price) (F64.fin baseVolume)).Price = F64.fin price ∧
     (NewBid (F64.fin price) (F64.fin baseVolume)).BaseVolume = F64.fin baseVolume ∧
     (NewBid (F64.fin price) (F64.fin baseVolume)).QuoteVolume
       = F64.fin (price * baseVolume) ∧
     (NewBid (F64.fin price) (F64.fin baseVolume)).PriceOfQuoteToBase
       = F64.fin (1 / price)) ∧
    ((NewAsk (F64.fin price) (F64.fin baseVolume)).Price = F64.fin price ∧
     (NewAsk (F64.fin price) (F64.fin baseVolume)).BaseVolume = F64.fin baseVolume ∧
     (NewAsk (F64.fin price) (F64.fin baseVolume)).QuoteVolume
       = F64.fin (price * baseVolume) ∧
     (NewAsk (F64.fin price) (F64.fin baseVolume)).PriceOfQuoteToBase
       = F64.fin (1 / price)) := by
  have hp0 : price ≠ 0 := hp.ne.symm
  simp [F64.fin_div_fin _ _ hp0]

/-- Witness of C3: price 4, base volume 3. -/
theorem constructors_set_price_and_volumes_witness :
    (0 : ℚ) < 4 ∧ (0 : ℚ) ≤ 3 ∧
    ((NewBid (F64.fin 4) (F64.fin 3)).Price = F64.fin 4 ∧
     (NewBid (F64.fin 4) (F64.fin 3)).BaseVolume = F64.fin 3 ∧
     (NewBid (F64.fin 4) (F64.fin 3)).QuoteVolume = F64.fin (4 * 3) ∧
     (NewBid (F64.fin 4) (F64.fin 3)).PriceOfQuoteToBase = F64.fin (1 / 4)) ∧
    ((NewAsk (F64.fin 4) (F64.fin 3)).Price = F64.fin 4 ∧
     (NewAsk (F64.fin 4) (F64.fin 3)).BaseVolume = F64.fin 3 ∧
     (NewAsk (F64.fin 4) (F64.fin 3)).QuoteVolume = F64.fin (4 * 3) ∧
     (NewAsk (F64.fin 4) (F64.fin 3)).PriceOfQuoteToBase = F64.fin (1 / 4)) :=
  ⟨by norm_num, by norm_num,
    constructors_set_price_and_volumes 4 3 (by norm_num) (by norm_num)⟩

/-- C4, as stated, fails on float64 after `UpdateQuoteVolume`.  On the zero-value order
`Order{}` (a Bid whose Price is 0), `UpdateQuoteVolume(1)` sets QuoteVolume = 1 and
BaseVolume = 1 / 0 = +Inf, and Price * BaseVolume = 0 * +Inf is NaN.  On `NewBid(49, 2)`,
whose Price is 49, `UpdateQuoteVolume(1)` sets QuoteVolume = 1 and BaseVolume = 1 / 49
rounded, and Price * BaseVolume is 1 - 2^-53, not 1.  Outside the range of float64 the
product loses QuoteVolume altogether: on `NewBid(4, 1)`, `UpdateQuoteVolume(2^-1074)` sets
BaseVolume = 0 by underflow and Price * BaseVolume is 0; on `NewBid(2^-100, 1)`,
`UpdateQuoteVolume(2^1000)` sets BaseVolume = +Inf by overflow and Price * BaseVolume is
+Inf. -/
theorem quote_volume_invariant_fails_after_quote_update :
    (Order.zero.TransactionType = Bid ∧ Order.zero.Price = F64.fin 0 ∧ (0 : ℚ) ≤ 1 ∧
     (float64.UpdateQuoteVolume Order.zero (F64.fin 1)).QuoteVolume = F64.fin 1 ∧
     (float64.UpdateQuoteVolume Order.zero (F64.fin 1)).BaseVolume = F64.posInf ∧
     float64.mul (float64.UpdateQuoteVolume Order.zero (F64.fin 1)).Price
       (float64.UpdateQuoteVolume Order.zero (F64.fin 1)).BaseVolume = F64.nan ∧
     (float64.UpdateQuoteVolume Order.zero (F64.fin 1)).QuoteVolume
       ≠ float64.mul (float64.UpdateQuoteVolume Order.zero (F64.fin 1)).Price
           (float64.UpdateQuoteVolume Order.zero (F64.fin 1)).BaseVolume) ∧
    ((float64.NewBid (F64.fin 49) (F64.fin 2)).Price = F64.fin 49 ∧
     (float64.UpdateQuoteVolume (float64.NewBid (F64.fin 49) (F64.fin 2))
       (F64.fin 1)).QuoteVolume = F64.fin 1 ∧
     float64.mul
       (float64.UpdateQuoteVolume (float64.NewBid (F64.fin 49) (F64.fin 2)) (F64.fin 1)).Price
       (float64.UpdateQuoteVolume (float64.NewBid (F64.fin 49) (F64.fin 2))
         (F64.fin 1)).BaseVolume = F64.fin (1 - 1 / 2 ^ 53) ∧
     (float64.UpdateQuoteVolume (float64.NewBid (F64.fin 49) (F64.fin 2))
       (F64.fin 1)).QuoteVolume
       ≠ float64.mul
          (float64.UpdateQuoteVolume (float64.NewBid (F64.fin 49) (F64.fin 2))
            (F64.fin 1)).Price
          (float64.UpdateQuoteVolume (float64.NewBid (F64.fin 49) (F64.fin 2))
            (F64.fin 1)).BaseVolume) ∧
    ((float64.NewBid (F64.fin 4) (F64.fin 1)).Price = F64.fin 4 ∧ (0 : ℚ) ≤ 1 / 2 ^ 1074 ∧
     (float64.UpdateQuoteVolume (float64.NewBid (F64.fin 4) (F64.fin 1))
       (F64.fin (1 / 2 ^ 1074))).QuoteVolume = F64.fin (1 / 2 ^ 1074) ∧
     (float64.UpdateQuoteVolume (float64.NewBid (F64.fin 4) (F64.fin 1))
       (F64.fin (1 / 2 ^ 1074))).BaseVolume = F64.fin 0 ∧
     float64.mul
       (float64.UpdateQuoteVolume (float64.NewBid (F64.fin 4) (F64.fin 1))
         (F64.fin (1 / 2 ^ 1074))).Price
       (float64.UpdateQuoteVolume (float64.NewBid (F64.fin 4) (F64.fin 1))
         (F64.fin (1 / 2 ^ 1074))).BaseVolume = F64.fin 0) ∧
    ((float64.NewBid (F64.fin (1 / 2 ^ 100)) (F64.fin 1)).Price = F64.fin (1 / 2 ^ 100) ∧
     (0 : ℚ) ≤ 2 ^ 1000 ∧
     (float64.UpdateQuoteVolume (float64.NewBid (F64.fin (1 / 2 ^ 100)) (F64.fin 1))
       (F64.fin (2 ^ 1000))).QuoteVolume = F64.fin (2 ^ 1000) ∧
     (float64.UpdateQuoteVolume (float64.NewBid (F64.fin (1 / 2 ^ 100)) (F64.fin 1))
       (F64.fin (2 ^ 1000))).BaseVolume = F64.posInf ∧
     float64.mul
       (float64.UpdateQuoteVolume (float64.NewBid (F64.fin (1 / 2 ^ 100)) (F64.fin 1))
         (F64.fin (2 ^ 1000))).Price
       (float64.UpdateQuoteVolume (float64.NewBid (F64.fin (1 / 2 ^ 100)) (F64.fin 1))
         (F64.fin (2 ^ 1000))).BaseVolume = F64.posInf) := by
  have hb : (float64.UpdateQuoteVolume Order.zero (F64.fin 1)).BaseVolume = F64.posInf := by
    rw [float64.UpdateQuoteVolume_BaseVolume_f64]
    show (F64.div (F64.fin 1) (F64.fin 0)).round = F64.posInf
    simp [F64.div, F64.infOfSign, F64.round]
  have hm : float64.mul (float64.UpdateQuoteVolume Order.zero (F64.fin 1)).Price
      (float64.UpdateQuoteVolume Order.zero (F64.fin 1)).BaseVolume = F64.nan := by
    rw [hb, float64.UpdateQuoteVolume_Price_f64]
    show (F64.mul (F64.fin 0) F64.posInf).round = F64.nan
    simp [F64.mul, F64.infOfSign, F64.round]
  have hm49 : float64.mul
      (float64.UpdateQuoteVolume (float64.NewBid (F64.fin 49) (F64.fin 2)) (F64.fin 1)).Price
      (float64.UpdateQuoteVolume (float64.NewBid (F64.fin 49) (F64.fin 2))
        (F64.fin 1)).BaseVolume = F64.fin (9007199254740991 / 9007199254740992) := by
    rw [float64.UpdateQuoteVolume_Price_f64, float64.UpdateQuoteVolume_BaseVolume_f64,
      float64.NewBid_Price_f64, float64.one_div_49, float64.mul_49_one_div_49]
  have hu : (float64.UpdateQuoteVolume (float64.NewBid (F64.fin 4) (F64.fin 1))
      (F64.fin (1 / 2 ^ 1074))).BaseVolume = F64.fin 0 := by
    have hq : round64 ((1 / 2 ^ 1074 : ℚ) / 4) = F64.fin 0 :=
      round64_eval_subnormal _ _ 0 (by norm_num) (by norm_num) (by norm_num [abs_lt])
        (by norm_num) (by norm_num)
    rw [float64.UpdateQuoteVolume_BaseVolume_f64, float64.NewBid_Price_f64]
    exact float64.div_fin _ _ 0 (by norm_num) hq
  have ho : (float64.UpdateQuoteVolume (float64.NewBid (F64.fin (1 / 2 ^ 100)) (F64.fin 1))
      (F64.fin (2 ^ 1000))).BaseVolume = F64.posInf := by
    have hq : round64 ((2 ^ 1000 : ℚ) / (1 / 2 ^ 100)) = F64.posInf :=
      round64_eval_overflow _ 1100 (2 ^ 52) (by norm_num) (by norm_num [abs_of_pos])
        (by norm_num [abs_of_pos]) (by norm_num [abs_lt]) (by norm_num [abs_of_pos])
        (by norm_num)
    rw [float64.UpdateQuoteVolume_BaseVolume_f64, float64.NewBid_Price_f64]
    show (F64.fin (2 ^ 1000) / F64.fin (1 / 2 ^ 100)).round = F64.posInf
    rw [F64.fin_div_fin _ _ (by norm_num)]
    exact hq
  refine ⟨⟨rfl, rfl, by norm_num, by simp, hb, hm, ?_⟩, ⟨by simp, by simp, ?_, ?_⟩,
    ⟨by simp, by norm_num, by simp, hu, ?_⟩, ⟨by simp, by norm_num, by simp, ho, ?_⟩⟩
  · rw [hm, float64.UpdateQuoteVolume_QuoteVolume_f64]
    exact fun h => F64.noConfusion h
  · rw [hm49]; congr 1; norm_num
  · rw [hm49, float64.UpdateQuoteVolume_QuoteVolume_f64]
    intro h
    rw [F64.fin.injEq] at h
    norm_num at h
  · rw [hu, float64.UpdateQuoteVolume_Price_f64, float64.NewBid_Price_f64]
    exact float64.mul_fin _ _ 0 (by simpa using round64_zero)
  · rw [ho, float64.UpdateQuoteVolume_Price_f64, float64.NewBid_Price_f64]
    show (F64.mul (F64.fin (1 / 2 ^ 100)) F64.posInf).round = F64.posInf
    simp [F64.mul, F64.infOfSign, F64.round]

/-- C4, amended: on float64, for every order o (of either side) whose Price is finite and
every v >= 0, the order after `o.UpdateBaseVolume(v)` satisfies QuoteVolume = Price *
BaseVolume; the order after `o.UpdateQuoteVolume(v)` has QuoteVolume = v and BaseVolume =
v / Price, and when Price > 0 and neither v nor v / Price underflows or overflows (both
within 2^-1000 and 2^1000), Price * BaseVolume is finite and differs from QuoteVolume by
at most v * (2^-52 + 2^-106). -/
theorem quote_volume_invariant_up_to_rounding (o : Order) (p v : ℚ)
    (hprice : o.Price = F64.fin p) (_hv : 0 ≤ v) :
    (float64.UpdateBaseVolume o (F64.fin v)).QuoteVolume
      = float64.mul (float64.UpdateBaseVolume o (F64.fin v)).Price
          (float64.UpdateBaseVolume o (F64.fin v)).BaseVolume ∧
    (float64.UpdateQuoteVolume o (F64.fin v)).QuoteVolume = F64.fin v ∧
    (float64.UpdateQuoteVolume o (F64.fin v)).BaseVolume
      = float64.div (F64.fin v) (F64.fin p) ∧
    (0 < p → 1 / 2 ^ 1000 ≤ v → v ≤ 2 ^ 1000 → 1 / 2 ^ 1000 ≤ v / p → v / p ≤ 2 ^ 1000 →
      ∃ y, float64.mul (float64.UpdateQuoteVolume o (F64.fin v)).Price
             (float64.UpdateQuoteVolume o (F64.fin v)).BaseVolume = F64.fin y ∧
        |y - v| ≤ v * (2 / 2 ^ 53 + 1 / 2 ^ 106)) := by
  refine ⟨by simp, by simp, by simp [hprice], fun hp h1 h2 h3 h4 => ?_⟩
  have hp0 : p ≠ 0 := hp.ne.symm
  have hsa : p * (v / p) = v := by field_simp
  have e1 : (2 : ℚ) ^ (-1000 : ℤ) = 1 / 2 ^ 1000 := by norm_num
  have e2 : (2 : ℚ) ^ (1000 : ℤ) = 2 ^ 1000 := by norm_num
  obtain ⟨y1, y2, hy1, hy2, herr⟩ := round64_twice (v / p) p (by rw [e1]; exact h3)
    (by rw [e2]; exact h4) hp (by rw [e1, hsa]; exact h1) (by rw [e2, hsa]; exact h2)
  rw [hsa] at herr
  refine ⟨y2, ?_, herr⟩
  rw [float64.UpdateQuoteVolume_Price_f64, float64.UpdateQuoteVolume_BaseVolume_f64, hprice,
    float64.div_fin _ _ _ hp0 hy1]
  exact float64.mul_fin _ _ _ hy2

/-- Witness of C4 amended: the Ask `NewAsk(50, 10)`, whose Price is 50, and v = 40. -/
theorem quote_volume_invariant_up_to_rounding_witness :
    (float64.NewAsk (F64.fin 50) (F64.fin 10)).Price = F64.fin 50 ∧ (0 : ℚ) ≤ 40 ∧
    (0 : ℚ) < 50 ∧ (1 / 2 ^ 1000 : ℚ) ≤ 40 ∧ (40 : ℚ) ≤ 2 ^ 1000 ∧
    (1 / 2 ^ 1000 : ℚ) ≤ 40 / 50 ∧ (40 / 50 : ℚ) ≤ 2 ^ 1000 ∧
    (float64.UpdateBaseVolume (float64.NewAsk (F64.fin 50) (F64.fin 10)) (F64.fin 40)).QuoteVolume
      = float64.mul
          (float64.UpdateBaseVolume (float64.NewAsk (F64.fin 50) (F64.fin 10))
            (F64.fin 40)).Price
          (float64.UpdateBaseVolume (float64.NewAsk (F64.fin 50) (F64.fin 10))
            (F64.fin 40)).BaseVolume ∧
    (float64.UpdateQuoteVolume (float64.NewAsk (F64.fin 50) (F64.fin 10))
      (F64.fin 40)).QuoteVolume = F64.fin 40 ∧
    (∃ y, float64.mul
            (float64.UpdateQuoteVolume (float64.NewAsk (F64.fin 50) (F64.fin 10))
              (F64.fin 40)).Price
            (float64.UpdateQuoteVolume (float64.NewAsk (F64.fin 50) (F64.fin 10))
              (F64.fin 40)).BaseVolume = F64.fin y ∧
        |y - 40| ≤ 40 * (2 / 2 ^ 53 + 1 / 2 ^ 106)) :=
  have h := quote_volume_invariant_up_to_rounding (float64.NewAsk (F64.fin 50) (F64.fin 10))
    50 40 (by simp) (by norm_num)
  ⟨by simp, by norm_num, by norm_num, by norm_num, by norm_num, by norm_num, by norm_num,
    h.1, h.2.1,
    h.2.2.2 (by norm_num) (by norm_num) (by norm_num) (by norm_num) (by norm_num)⟩

/-- C5: every order built by `NewBid` or `NewAsk` has TakerFee = 0.001, and after
construction and after every `UpdateBaseVolume(v)` or `UpdateQuoteVolume(v)` its Fee
equals BaseVolume * TakerFee, where BaseVolume = v / Price after `UpdateQuoteVolume(v)`;
and `NewBid(100, 2).Fee` = 0.002 and `NewAsk(50, 10).Fee` = 0.01. -/
theorem fee_is_base_volume_times_taker_fee (price baseVolume : ℚ) (us : List VolumeUpdate) :
    FeeDerived ((NewBid (F64.fin price) (F64.fin baseVolume)).applyUpdates us) ∧
    FeeDerived ((NewAsk (F64.fin price) (F64.fin baseVolume)).applyUpdates us) ∧
    (∀ (o : Order) (v : ℚ),
      (o.UpdateQuoteVolume (F64.fin v)).BaseVolume = F64.fin v / o.Price ∧
      (o.UpdateQuoteVolume (F64.fin v)).Fee
        = (o.UpdateQuoteVolume (F64.fin v)).BaseVolume
          * (o.UpdateQuoteVolume (F64.fin v)).TakerFee) ∧
    (NewBid (F64.fin 100) (F64.fin 2)).Fee = F64.fin 0.002 ∧
    (NewAsk (F64.fin 50) (F64.fin 10)).Fee = F64.fin 0.01 := by
  refine ⟨FeeDerived_applyUpdates us _ (FeeDerived_NewBid _ _),
    FeeDerived_applyUpdates us _ (FeeDerived_NewAsk _ _), fun o v => by simp, ?_, ?_⟩
  · rw [NewBid_Fee, F64.fin_mul_fin]; congr 1; norm_num
  · rw [NewAsk_Fee, F64.fin_mul_fin]; congr 1; norm_num

/-- C6: for every order b whose side is Bid, `b.CreateMatchingAsk()` succeeds and returns
an order with side Ask and the Price, BaseVolume and QuoteVolume of b; for every order a
whose side is Ask, `a.CreateMatchingBid()` succeeds and returns an order with side Bid and
the Price, BaseVolume and QuoteVolume of a. -/
theorem matching_order_flips_side_keeps_price_volume (b a : Order)
    (hb : b.TransactionType = Bid) (ha : a.TransactionType = Ask) :
    (∃ m, b.CreateMatchingAsk = Except.ok m ∧ m.TransactionType = Ask ∧
      m.Price = b.Price ∧ m.BaseVolume = b.BaseVolume ∧ m.QuoteVolume = b.QuoteVolume) ∧
    (∃ m, a.CreateMatchingBid = Except.ok m ∧ m.TransactionType = Bid ∧
      m.Price = a.Price ∧ m.BaseVolume = a.BaseVolume ∧ m.QuoteVolume = a.QuoteVolume) := by
  constructor
  · exact ⟨{ b with TransactionType := Ask }, by simp [Order.CreateMatchingAsk, hb],
      rfl, rfl, rfl, rfl⟩
  · exact ⟨{ a with TransactionType := Bid }, by simp [Order.CreateMatchingBid, ha],
      rfl, rfl, rfl, rfl⟩

/-- Witness of C6: the Bid `NewBid(100, 2)` and the Ask `NewAsk(50, 10)`. -/
theorem matching_order_flips_side_keeps_price_volume_witness :
    (NewBid (F64.fin 100) (F64.fin 2)).TransactionType = Bid ∧
    (NewAsk (F64.fin 50) (F64.fin 10)).TransactionType = Ask ∧
    (∃ m, (NewBid (F64.fin 100) (F64.fin 2)).CreateMatchingAsk = Except.ok m ∧
      m.TransactionType = Ask ∧ m.Price = (NewBid (F64.fin 100) (F64.fin 2)).Price ∧
      m.BaseVolume = (NewBid (F64.fin 100) (F64.fin 2)).BaseVolume ∧
      m.QuoteVolume = (NewBid (F64.fin 100) (F64.fin 2)).QuoteVolume) ∧
    (∃ m, (NewAsk (F64.fin 50) (F64.fin 10)).CreateMatchingBid = Except.ok m ∧
      m.TransactionType = Bid ∧ m.Price = (NewAsk (F64.fin 50) (F64.fin 10)).Price ∧
      m.BaseVolume = (NewAsk (F64.fin 50) (F64.fin 10)).BaseVolume ∧
      m.QuoteVolume = (NewAsk (F64.fin 50) (F64.fin 10)).QuoteVolume) :=
  have h := matching_order_flips_side_keeps_price_volume (NewBid (F64.fin 100) (F64.fin 2))
    (NewAsk (F64.fin 50) (F64.fin 10)) (by simp) (by simp)
  ⟨by simp, by simp, h.1, h.2⟩

/-- C7, on the code at `NewBid(100, 2)` and `NewAsk(50, 10)`: the Ask that
`CreateMatchingAsk` returns still carries the in/out fields derived for the Bid
(BaseVolumeIn = 0, QuoteVolumeIn = 200, BaseVolumeOut = 1.998, QuoteVolumeOut = 0), so it
does not satisfy the Ask row, whose values are those of `NewAsk(100, 2)`
(BaseVolumeIn = 2, QuoteVolumeOut = 199.8); and the Bid that `CreateMatchingBid` returns
still carries the Ask fields (BaseVolumeIn = 10, QuoteVolumeOut = 499.5) and does not
satisfy the Bid row. -/
theorem matching_order_keeps_in_out_of_other_side :
    (∃ m, (NewBid (F64.fin 100) (F64.fin 2)).CreateMatchingAsk = Except.ok m ∧
      m.TransactionType = Ask ∧ m.BaseVolume = F64.fin 2 ∧
      m.BaseVolumeIn = F64.fin 0 ∧ m.QuoteVolumeIn = F64.fin 200 ∧
      m.BaseVolumeOut = F64.fin 1.998 ∧ m.QuoteVolumeOut = F64.fin 0 ∧
      (NewAsk (F64.fin 100) (F64.fin 2)).BaseVolumeIn = F64.fin 2 ∧
      (NewAsk (F64.fin 100) (F64.fin 2)).QuoteVolumeOut = F64.fin 199.8 ∧
      ¬ AskRow m) ∧
    (∃ m, (NewAsk (F64.fin 50) (F64.fin 10)).CreateMatchingBid = Except.ok m ∧
      m.TransactionType = Bid ∧ m.QuoteVolume = F64.fin 500 ∧
      m.BaseVolumeIn = F64.fin 10 ∧ m.QuoteVolumeIn = F64.fin 0 ∧
      m.BaseVolumeOut = F64.fin 0 ∧ m.QuoteVolumeOut = F64.fin 499.5 ∧
      ¬ BidRow m) := by
  obtain ⟨b1, b2, b3, b4⟩ := NewBid_100_2
  obtain ⟨a1, a2, a3, a4⟩ := NewAsk_50_10
  obtain ⟨n1, -, -, n4⟩ := NewAsk_inout 100 2
  have t2 : truncToward0 2 = 2 := truncToward0_eq_self _ 200000000 (by norm_num)
  constructor
  · refine ⟨{ NewBid (F64.fin 100) (F64.fin 2) with TransactionType := Ask },
      by simp [Order.CreateMatchingAsk], rfl, by simp, b3, b1, b2, b4, ?_, ?_, ?_⟩
    · rw [n1, t2]
    · rw [n4, truncToward0_eq_self _ 19980000000 (by norm_num)]; congr 1; norm_num
    · intro h
      have h3 := h.2.2.1
      simp only [b3, NewBid_BaseVolume, Trunc8_fin, t2, F64.fin.injEq] at h3
      norm_num at h3
  · refine ⟨{ NewAsk (F64.fin 50) (F64.fin 10) with TransactionType := Bid },
      by simp [Order.CreateMatchingBid], rfl, by simp; norm_num, a1, a4, a3, a2, ?_⟩
    intro h
    have h1 := h.1
    simp only [a1, F64.fin.injEq] at h1
    norm_num at h1

/-- C8: for every Bid b, `CreateMatchingAsk` followed by `CreateMatchingBid` on its result
succeeds and returns an order equal to b in every field (so a Bid with the Price,
BaseVolume and QuoteVolume of b); and for every Ask a, `CreateMatchingBid` followed by
`CreateMatchingAsk` returns an order equal to a. -/
theorem matching_order_twice_is_identity (b a : Order)
    (hb : b.TransactionType = Bid) (ha : a.TransactionType = Ask) :
    (∃ m, b.CreateMatchingAsk = Except.ok m ∧ m.CreateMatchingBid = Except.ok b) ∧
    (∃ m, a.CreateMatchingBid = Except.ok m ∧ m.CreateMatchingAsk = Except.ok a) := by
  constructor
  · refine ⟨{ b with TransactionType := Ask }, by simp [Order.CreateMatchingAsk, hb], ?_⟩
    cases b
    simp only at hb
    simp [Order.CreateMatchingBid, hb]
  · refine ⟨{ a with TransactionType := Bid }, by simp [Order.CreateMatchingBid, ha], ?_⟩
    cases a
    simp only at ha
    simp [Order.CreateMatchingAsk, ha]

/-- Witness of C8: the Bid `NewBid(100, 2)` and the Ask `NewAsk(50, 10)`. -/
theorem matching_order_twice_is_identity_witness :
    (NewBid (F64.fin 100) (F64.fin 2)).TransactionType = Bid ∧
    (NewAsk (F64.fin 50) (F64.fin 10)).TransactionType = Ask ∧
    (∃ m, (NewBid (F64.fin 100) (F64.fin 2)).CreateMatchingAsk = Except.ok m ∧
      m.CreateMatchingBid = Except.ok (NewBid (F64.fin 100) (F64.fin 2))) ∧
    (∃ m, (NewAsk (F64.fin 50) (F64.fin 10)).CreateMatchingBid = Except.ok m ∧
      m.CreateMatchingAsk = Except.ok (NewAsk (F64.fin 50) (F64.fin 10))) :=
  have h := matching_order_twice_is_identity (NewBid (F64.fin 100) (F64.fin 2))
    (NewAsk (F64.fin 50) (F64.fin 10)) (by simp) (by simp)
  ⟨by simp, by simp, h.1, h.2⟩

/-- C9: `CreateMatchingAsk` returns an error (and no order) if and only if the receiver's
TransactionType is not Bid, and `CreateMatchingBid` returns an error (and no order) if and
only if it is not Ask; so for an order whose TransactionType is neither Bid nor Ask both
operations fail. -/
theorem matching_order_fails_exactly_on_side_mismatch (o : Order) :
    ((∃ e, o.CreateMatchingAsk = Except.error e) ↔ o.TransactionType ≠ Bid) ∧
    ((∃ e, o.CreateMatchingBid = Except.error e) ↔ o.TransactionType ≠ Ask) ∧
    (o.TransactionType ≠ Bid → o.TransactionType ≠ Ask →
      o.CreateMatchingAsk = Except.error "order: not a bid" ∧
      o.CreateMatchingBid = Except.error "order: not a ask") := by
  refine ⟨?_, ?_, fun h1 h2 => ⟨by simp [Order.CreateMatchingAsk, h1],
    by simp [Order.CreateMatchingBid, h2]⟩⟩
  · by_cases h : o.TransactionType = Bid <;> simp [Order.CreateMatchingAsk, h]
  · by_cases h : o.TransactionType = Ask <;> simp [Order.CreateMatchingBid, h]

/-- Witness of C9: the zero-value order with its TransactionType set to 2. -/
theorem matching_order_fails_exactly_on_side_mismatch_witness :
    ({ Order.zero with TransactionType := 2 } : Order).TransactionType ≠ Bid ∧
    ({ Order.zero with TransactionType := 2 } : Order).TransactionType ≠ Ask ∧
    ({ Order.zero with TransactionType := 2 } : Order).CreateMatchingAsk
      = Except.error "order: not a bid" ∧
    ({ Order.zero with TransactionType := 2 } : Order).CreateMatchingBid
      = Except.error "order: not a ask" :=
  ⟨by decide, by decide,
    (matching_order_fails_exactly_on_side_mismatch
      { Order.zero with TransactionType := 2 }).2.2 (by decide) (by decide)⟩

/-- C10, as stated, fails on float64.  On `NewBid(0.1, 1)`, whose Price is the float64
0.1, the round trip from v = 3 stores the quote volume 0.30000000000000004 and returns
BaseVolume = 3.0000000000000004 = 3 + 2^-51, not 3, so the order after the round trip is not
the order before it.  On `NewBid(0.3, 1)` the round trip from v = 1000000000.1 returns a
BaseVolume 2^-23 (about 1.19 * 10^-7) below v, not within 10^-8 of it.  Outside the range of
float64 the round trip loses v altogether: at the Price 2^-1074 and v = 1/4 the quote volume
underflows to 0 and BaseVolume returns as 0, and at the Price 2^1000 and v = 2^100 the quote
volume overflows and BaseVolume returns as +Inf. -/
theorem round_trip_misses_volume_on_float64 :
    ((float64.NewBid (round64 0.1) (F64.fin 1)).Price = round64 0.1 ∧
     F64.fin 0 < round64 0.1 ∧ (0 : ℚ) ≤ 3 ∧
     (float64.roundTrip (float64.NewBid (round64 0.1) (F64.fin 1)) (F64.fin 3)).BaseVolume
       = F64.fin (3 + 1 / 2 ^ 51) ∧
     (float64.roundTrip (float64.NewBid (round64 0.1) (F64.fin 1)) (F64.fin 3)).BaseVolume
       ≠ F64.fin 3 ∧
     float64.roundTrip (float64.NewBid (round64 0.1) (F64.fin 1)) (F64.fin 3)
       ≠ float64.UpdateBaseVolume (float64.NewBid (round64 0.1) (F64.fin 1)) (F64.fin 3)) ∧
    ((float64.NewBid (round64 0.3) (F64.fin 1)).Price = round64 0.3 ∧
     F64.fin 0 < round64 0.3 ∧
     round64 1000000000.1 = F64.fin (8388608000838861 / 8388608) ∧
     (float64.roundTrip (float64.NewBid (round64 0.3) (F64.fin 1))
       (round64 1000000000.1)).BaseVolume = F64.fin (8388608000838860 / 8388608) ∧
     ¬ (|(8388608000838860 / 8388608 : ℚ) - 8388608000838861 / 8388608| < 1 / 10 ^ 8)) ∧
    ((float64.NewBid (F64.fin (1 / 2 ^ 1074)) (F64.fin 1)).Price = F64.fin (1 / 2 ^ 1074) ∧
     (0 : ℚ) < 1 / 2 ^ 1074 ∧ (0 : ℚ) ≤ 1 / 4 ∧
     (float64.roundTrip (float64.NewBid (F64.fin (1 / 2 ^ 1074)) (F64.fin 1))
       (F64.fin (1 / 4))).BaseVolume = F64.fin 0 ∧
     ¬ (|(0 : ℚ) - 1 / 4| < 1 / 10 ^ 8)) ∧
    ((float64.NewBid (F64.fin (2 ^ 1000)) (F64.fin 1)).Price = F64.fin (2 ^ 1000) ∧
     (0 : ℚ) < 2 ^ 1000 ∧ (0 : ℚ) ≤ 2 ^ 100 ∧
     (float64.roundTrip (float64.NewBid (F64.fin (2 ^ 1000)) (F64.fin 1))
       (F64.fin (2 ^ 100))).BaseVolume = F64.posInf) := by
  have h1 : (float64.roundTrip (float64.NewBid (round64 0.1) (F64.fin 1))
      (F64.fin 3)).BaseVolume = F64.fin (6755399441055745 / 2251799813685248) := by
    unfold float64.roundTrip
    rw [float64.UpdateQuoteVolume_BaseVolume_f64, float64.UpdateBaseVolume_QuoteVolume_f64,
      float64.UpdateBaseVolume_Price_f64, float64.NewBid_Price_f64, float64.lit_0_1,
      float64.mul_0_1_3, float64.round_trip_0_1_3]
  have h2 : (float64.roundTrip (float64.NewBid (round64 0.3) (F64.fin 1))
      (round64 1000000000.1)).BaseVolume = F64.fin (2097152000209715 / 2097152) := by
    unfold float64.roundTrip
    rw [float64.UpdateQuoteVolume_BaseVolume_f64, float64.UpdateBaseVolume_QuoteVolume_f64,
      float64.UpdateBaseVolume_Price_f64, float64.NewBid_Price_f64, float64.lit_0_3,
      float64.lit_1000000000_1, float64.mul_0_3_big, float64.round_trip_0_3_big]
  have h3 : (float64.roundTrip (float64.NewBid (round64 0.1) (F64.fin 1))
      (F64.fin 3)).BaseVolume ≠ F64.fin 3 := by
    rw [h1]
    intro h
    rw [F64.fin.injEq] at h
    norm_num at h
  have h4 : (float64.roundTrip (float64.NewBid (F64.fin (1 / 2 ^ 1074)) (F64.fin 1))
      (F64.fin (1 / 4))).BaseVolume = F64.fin 0 := by
    unfold float64.roundTrip
    have hq : round64 ((1 / 2 ^ 1074 : ℚ) * (1 / 4)) = F64.fin 0 :=
      round64_eval_subnormal _ _ 0 (by norm_num) (by norm_num) (by norm_num [abs_lt])
        (by norm_num) (by norm_num)
    rw [float64.UpdateQuoteVolume_BaseVolume_f64, float64.UpdateBaseVolume_QuoteVolume_f64,
      float64.UpdateBaseVolume_Price_f64, float64.NewBid_Price_f64,
      float64.mul_fin _ _ 0 hq]
    exact float64.div_fin _ _ 0 (by norm_num) (by simpa using round64_zero)
  have h5 : (float64.roundTrip (float64.NewBid (F64.fin (2 ^ 1000)) (F64.fin 1))
      (F64.fin (2 ^ 100))).BaseVolume = F64.posInf := by
    have hq : round64 ((2 ^ 1000 : ℚ) * 2 ^ 100) = F64.posInf :=
      round64_eval_overflow _ 1100 (2 ^ 52) (by norm_num) (by norm_num [abs_of_pos])
        (by norm_num [abs_of_pos]) (by norm_num [abs_lt]) (by norm_num [abs_of_pos])
        (by norm_num)
    have hm : float64.mul (F64.fin (2 ^ 1000)) (F64.fin (2 ^ 100)) = F64.posInf := hq
    unfold float64.roundTrip
    rw [float64.UpdateQuoteVolume_BaseVolume_f64, float64.UpdateBaseVolume_QuoteVolume_f64,
      float64.UpdateBaseVolume_Price_f64, float64.NewBid_Price_f64, hm]
    show (F64.div F64.posInf (F64.fin (2 ^ 1000))).round = F64.posInf
    simp [F64.div, F64.infOfSign, F64.round]
  refine ⟨⟨by simp, ?_, by norm_num, ?_, h3, ?_⟩,
    ⟨by simp, ?_, float64.lit_1000000000_1, ?_, ?_⟩,
    ⟨by simp, by norm_num, by norm_num, h4, by norm_num [abs_lt]⟩,
    ⟨by simp, by norm_num, by norm_num, h5⟩⟩
  · rw [float64.lit_0_1, F64.fin_lt_fin]; norm_num
  · rw [h1]; congr 1; norm_num
  · intro h
    apply h3
    rw [h, float64.UpdateBaseVolume_BaseVolume_f64]
  · rw [float64.lit_0_3, F64.fin_lt_fin]; norm_num
  · rw [h2]; congr 1; norm_num
  · norm_num [abs_lt]

/-- C10, amended: for every order o with finite Price > 0 and every v >= 0, with o1 the
order after `o.UpdateBaseVolume(v)` and o2 the order after
`o1.UpdateQuoteVolume(o1.QuoteVolume)`: in exact arithmetic o2.BaseVolume = v and o2 equals
o1 in every field; on float64, when neither v nor Price * v underflows or overflows (v = 0,
or both within 2^-1000 and 2^1000), o2 has the QuoteVolume of o1, and its BaseVolume is
finite and differs from v by at most v * (2^-52 + 2^-106), hence by less than 10^-8
whenever v <= 4 * 10^7. -/
theorem round_trip_up_to_rounding (o : Order) (p v : ℚ) (hprice : o.Price = F64.fin p)
    (hp : 0 < p) (_hv : 0 ≤ v)
    (hrange : v = 0 ∨
      (1 / 2 ^ 1000 ≤ v ∧ v ≤ 2 ^ 1000 ∧ 1 / 2 ^ 1000 ≤ p * v ∧ p * v ≤ 2 ^ 1000)) :
    (((o.UpdateBaseVolume (F64.fin v)).UpdateQuoteVolume
        (o.UpdateBaseVolume (F64.fin v)).QuoteVolume).BaseVolume = F64.fin v ∧
     (o.UpdateBaseVolume (F64.fin v)).UpdateQuoteVolume
        (o.UpdateBaseVolume (F64.fin v)).QuoteVolume = o.UpdateBaseVolume (F64.fin v)) ∧
    (float64.roundTrip o (F64.fin v)).QuoteVolume
      = (float64.UpdateBaseVolume o (F64.fin v)).QuoteVolume ∧
    ∃ b, (float64.roundTrip o (F64.fin v)).BaseVolume = F64.fin b ∧
      |b - v| ≤ v * (2 / 2 ^ 53 + 1 / 2 ^ 106) ∧
      (v ≤ 4 * 10 ^ 7 → |b - v| < 1 / 10 ^ 8) := by
  have hp0 : p ≠ 0 := hp.ne.symm
  have hB : (float64.roundTrip o (F64.fin v)).BaseVolume
      = float64.div (float64.mul (F64.fin p) (F64.fin v)) (F64.fin p) := by
    unfold float64.roundTrip
    rw [float64.UpdateQuoteVolume_BaseVolume_f64, float64.UpdateBaseVolume_QuoteVolume_f64,
      float64.UpdateBaseVolume_Price_f64, hprice]
  refine ⟨UpdateQuoteVolume_UpdateBaseVolume o p v hprice hp,
    by unfold float64.roundTrip; simp, ?_⟩
  rw [hB]
  rcases hrange with h0 | ⟨h1, h2, h3, h4⟩
  · subst h0
    refine ⟨0, ?_, by simp, fun _ => by norm_num⟩
    rw [float64.mul_fin p 0 0 (by simpa using round64_zero)]
    exact float64.div_fin 0 p 0 hp0 (by simpa using round64_zero)
  · have hsa : 1 / p * (p * v) = v := by field_simp
    have e1 : (2 : ℚ) ^ (-1000 : ℤ) = 1 / 2 ^ 1000 := by norm_num
    have e2 : (2 : ℚ) ^ (1000 : ℤ) = 2 ^ 1000 := by norm_num
    have hv0 : 0 < v := lt_of_lt_of_le (by positivity) h1
    obtain ⟨y1, y2, hy1, hy2, herr⟩ := round64_twice (p * v) (1 / p) (by rw [e1]; exact h3)
      (by rw [e2]; exact h4) (by positivity) (by rw [e1, hsa]; exact h1)
      (by rw [e2, hsa]; exact h2)
    rw [hsa] at herr
    have hdiv : y1 / p = 1 / p * y1 := by ring
    refine ⟨y2, ?_, herr, fun hv7 => ?_⟩
    · rw [float64.mul_fin _ _ _ hy1]
      exact float64.div_fin _ _ _ hp0 (by rw [hdiv]; exact hy2)
    · have hb1 : v * (2 / 2 ^ 53 + 1 / 2 ^ 106)
          ≤ 4 * 10 ^ 7 * (2 / 2 ^ 53 + 1 / 2 ^ 106) :=
        mul_le_mul_of_nonneg_right hv7 (by norm_num)
      have hb2 : (4 * 10 ^ 7 * (2 / 2 ^ 53 + 1 / 2 ^ 106) : ℚ) < 1 / 10 ^ 8 := by norm_num
      exact lt_of_le_of_lt (le_trans herr hb1) hb2

/-- Witness of C10 amended: the Bid `NewBid(100, 2)`, whose Price is 100, and v = 3. -/
theorem round_trip_up_to_rounding_witness :
    (float64.NewBid (F64.fin 100) (F64.fin 2)).Price = F64.fin 100 ∧ (0 : ℚ) < 100 ∧
    (0 : ℚ) ≤ 3 ∧
    ((3 : ℚ) = 0 ∨
      ((1 / 2 ^ 1000 : ℚ) ≤ 3 ∧ (3 : ℚ) ≤ 2 ^ 1000 ∧ (1 / 2 ^ 1000 : ℚ) ≤ 100 * 3 ∧
        (100 * 3 : ℚ) ≤ 2 ^ 1000)) ∧
    (((((float64.NewBid (F64.fin 100) (F64.fin 2)).UpdateBaseVolume (F64.fin 3)).UpdateQuoteVolume
        ((float64.NewBid (F64.fin 100) (F64.fin 2)).UpdateBaseVolume (F64.fin 3)).QuoteVolume
        ).BaseVolume = F64.fin 3 ∧
      ((float64.NewBid (F64.fin 100) (F64.fin 2)).UpdateBaseVolume (F64.fin 3)).UpdateQuoteVolume
        ((float64.NewBid (F64.fin 100) (F64.fin 2)).UpdateBaseVolume (F64.fin 3)).QuoteVolume
        = (float64.NewBid (F64.fin 100) (F64.fin 2)).UpdateBaseVolume (F64.fin 3)) ∧
     (float64.roundTrip (float64.NewBid (F64.fin 100) (F64.fin 2)) (F64.fin 3)).QuoteVolume
      = (float64.UpdateBaseVolume (float64.NewBid (F64.fin 100) (F64.fin 2))
          (F64.fin 3)).QuoteVolume ∧
     ∃ b, (float64.roundTrip (float64.NewBid (F64.fin 100) (F64.fin 2))
            (F64.fin 3)).BaseVolume = F64.fin b ∧
       |b - 3| ≤ 3 * (2 / 2 ^ 53 + 1 / 2 ^ 106) ∧
       ((3 : ℚ) ≤ 4 * 10 ^ 7 → |b - 3| < 1 / 10 ^ 8)) :=
  ⟨by simp, by norm_num, by norm_num,
    Or.inr ⟨by norm_num, by norm_num, by norm_num, by norm_num⟩,
    round_trip_up_to_rounding (float64.NewBid (F64.fin 100) (F64.fin 2)) 100 3 (by simp)
      (by norm_num) (by norm_num)
      (Or.inr ⟨by norm_num, by norm_num, by norm_num, by norm_num⟩)⟩

/-- C11, as stated, fails: on the zero-value order `Order{}`, whose Price is 0,
`UpdateQuoteVolume(1)` reports no error; it completes and leaves an order with
QuoteVolume = 1 and BaseVolume = 1 / 0 = +Inf. -/
theorem update_quote_volume_at_zero_price_reports_no_error :
    Order.zero.Price = F64.fin 0 ∧ (0 : ℚ) ≤ 1 ∧
    (¬ ∃ e, Order.zero.callUpdateQuoteVolume (F64.fin 1) = Except.error e) ∧
    ∃ o, Order.zero.callUpdateQuoteVolume (F64.fin 1) = Except.ok o ∧
      o.QuoteVolume = F64.fin 1 ∧ o.BaseVolume = F64.posInf := by
  refine ⟨rfl, by norm_num, ?_, Order.zero.UpdateQuoteVolume (F64.fin 1), rfl, by simp, ?_⟩
  · rintro ⟨e, he⟩
    simp [Order.callUpdateQuoteVolume] at he
  · rw [UpdateQuoteVolume_BaseVolume]
    show F64.div (F64.fin 1) (F64.fin 0) = F64.posInf
    simp [F64.div, F64.infOfSign]

/-- C11, amended: `UpdateQuoteVolume` has no error result; for every order o with Price = 0
and every v >= 0 the call completes and leaves an updated order with QuoteVolume = v and
BaseVolume = v / 0, which is +Inf when v > 0 and NaN when v = 0. -/
theorem update_quote_volume_at_zero_price_completes (o : Order) (v : ℚ)
    (hprice : o.Price = F64.fin 0) (hv : 0 ≤ v) :
    ∃ o1, o.callUpdateQuoteVolume (F64.fin v) = Except.ok o1 ∧
      o1.QuoteVolume = F64.fin v ∧
      o1.BaseVolume = (if v = 0 then F64.nan else F64.posInf) := by
  refine ⟨o.UpdateQuoteVolume (F64.fin v), rfl, by simp, ?_⟩
  rw [UpdateQuoteVolume_BaseVolume, hprice]
  show F64.div (F64.fin v) (F64.fin 0) = _
  by_cases h0 : v = 0
  · simp [F64.div, F64.infOfSign, h0]
  · have hpos : 0 < v := lt_of_le_of_ne hv (Ne.symm h0)
    simp [F64.div, F64.infOfSign, h0, hpos]

/-- Witness of C11 amended: the zero-value order `Order{}` and v = 0. -/
theorem update_quote_volume_at_zero_price_completes_witness :
    Order.zero.Price = F64.fin 0 ∧ (0 : ℚ) ≤ 0 ∧
    ∃ o1, Order.zero.callUpdateQuoteVolume (F64.fin 0) = Except.ok o1 ∧
      o1.QuoteVolume = F64.fin 0 ∧
      o1.BaseVolume = (if (0 : ℚ) = 0 then F64.nan else F64.posInf) :=
  ⟨rfl, le_refl 0, update_quote_volume_at_zero_price_completes Order.zero 0 rfl (le_refl 0)⟩

/-- C12, as stated, fails: `NewBid(0, 1)` does not fail, it returns a Bid with Price = 0,
PriceOfQuoteToBase = 1 / 0 = +Inf and QuoteVolume = 0; and `NewAsk(-1, 1)` does not fail,
it returns an Ask with Price = -1 and QuoteVolume = -1. -/
theorem constructors_accept_non_positive_price :
    (0 : ℚ) ≤ 0 ∧ (-1 : ℚ) ≤ 0 ∧
    (∃ o, callNewBid (F64.fin 0) (F64.fin 1) = Except.ok o ∧ o.TransactionType = Bid ∧
      o.Price = F64.fin 0 ∧ o.PriceOfQuoteToBase = F64.posInf ∧
      o.QuoteVolume = F64.fin 0) ∧
    (∃ o, callNewAsk (F64.fin (-1)) (F64.fin 1) = Except.ok o ∧ o.TransactionType = Ask ∧
      o.Price = F64.fin (-1) ∧ o.QuoteVolume = F64.fin (-1)) := by
  refine ⟨le_refl 0, by norm_num, ⟨NewBid (F64.fin 0) (F64.fin 1), rfl, by simp, by simp,
    ?_, by simp⟩, ⟨NewAsk (F64.fin (-1)) (F64.fin 1), rfl, by simp, by simp, by simp⟩⟩
  rw [NewBid_PriceOfQuoteToBase]
  show F64.div (F64.fin 1) (F64.fin 0) = F64.posInf
  simp [F64.div, F64.infOfSign]

/-- C12, amended: `NewBid` and `NewAsk` never fail: for every price and baseVolume, also
with price <= 0, they return an order of the requested side with Price = price and
BaseVolume = baseVolume; so they fail for no input with price > 0 and baseVolume >= 0. -/
theorem constructors_never_fail (price baseVolume : F64) :
    (∃ o, callNewBid price baseVolume = Except.ok o ∧ o.TransactionType = Bid ∧
      o.Price = price ∧ o.BaseVolume = baseVolume) ∧
    (∃ o, callNewAsk price baseVolume = Except.ok o ∧ o.TransactionType = Ask ∧
      o.Price = price ∧ o.BaseVolume = baseVolume) ∧
    (∀ e, callNewBid price baseVolume ≠ Except.error e) ∧
    (∀ e, callNewAsk price baseVolume ≠ Except.error e) := by
  refine ⟨⟨NewBid price baseVolume, rfl, by simp, by simp, by simp⟩,
    ⟨NewAsk price baseVolume, rfl, by simp, by simp, by simp⟩, ?_, ?_⟩
  · intro e he; simp [callNewBid] at he
  · intro e he; simp [callNewAsk] at he

/-- C13, as stated, fails: with price 100 and baseVolume 0 the Bid `NewBid(100, 0)` has
QuoteVolumeIn = 0 and BaseVolumeOut = 0, neither of them > 0; and with baseVolume
0.000000001, below one unit of the 8th digit, the Ask `NewAsk(1, 0.000000001)` has
BaseVolumeIn = 0. -/
theorem in_out_not_positive_at_small_volume :
    (0 : ℚ) < 100 ∧ (0 : ℚ) ≤ 0 ∧
    (NewBid (F64.fin 100) (F64.fin 0)).QuoteVolumeIn = F64.fin 0 ∧
    (NewBid (F64.fin 100) (F64.fin 0)).BaseVolumeOut = F64.fin 0 ∧
    ¬ (F64.fin 0 < (NewBid (F64.fin 100) (F64.fin 0)).QuoteVolumeIn) ∧
    ¬ (F64.fin 0 < (NewBid (F64.fin 100) (F64.fin 0)).BaseVolumeOut) ∧
    (0 : ℚ) < 1 ∧ (0 : ℚ) ≤ 1 / 10 ^ 9 ∧
    (NewAsk (F64.fin 1) (F64.fin (1 / 10 ^ 9))).BaseVolumeIn = F64.fin 0 ∧
    ¬ (F64.fin 0 < (NewAsk (F64.fin 1) (F64.fin (1 / 10 ^ 9))).BaseVolumeIn) := by
  obtain ⟨-, b2, b3, -⟩ := NewBid_inout 100 0
  obtain ⟨a1, -, -, -⟩ := NewAsk_inout 1 (1 / 10 ^ 9)
  have z1 : truncToward0 (100 * 0) = 0 := by
    rw [truncToward0_eq_self _ 0 (by norm_num)]; norm_num
  have z2 : truncToward0 (0 - 0 * (0.10 / 100)) = 0 := by
    rw [truncToward0_eq_self _ 0 (by norm_num)]; norm_num
  have z3 : truncToward0 (1 / 10 ^ 9) = 0 := by
    have hnot : ¬ 0 < truncToward0 (1 / 10 ^ 9 : ℚ) := by
      rw [truncToward0_pos_iff (by norm_num)]; norm_num
    exact le_antisymm (not_lt.mp hnot) (truncToward0_nonneg (by norm_num))
  rw [z1] at b2
  rw [z2] at b3
  rw [z3] at a1
  refine ⟨by norm_num, le_refl 0, b2, b3, ?_, ?_, by norm_num, by norm_num, a1, ?_⟩
  · rw [b2]; simp
  · rw [b3]; simp
  · rw [a1]; simp

/-- C13, amended: for every price > 0 and baseVolume >= 0, `NewBid(price, baseVolume)` has
BaseVolumeIn = QuoteVolumeOut = 0, QuoteVolumeIn > 0 exactly when price * baseVolume >=
10^-8 and BaseVolumeOut > 0 exactly when baseVolume - baseVolume * 0.001 >= 10^-8; and
`NewAsk(price, baseVolume)` has QuoteVolumeIn = BaseVolumeOut = 0, BaseVolumeIn > 0 exactly
when baseVolume >= 10^-8 and QuoteVolumeOut > 0 exactly when price * baseVolume -
price * baseVolume * 0.001 >= 10^-8. -/
theorem in_out_positive_iff_above_tick (price baseVolume : ℚ) (hp : 0 < price)
    (hv : 0 ≤ baseVolume) :
    ((NewBid (F64.fin price) (F64.fin baseVolume)).BaseVolumeIn = F64.fin 0 ∧
     (NewBid (F64.fin price) (F64.fin baseVolume)).QuoteVolumeOut = F64.fin 0 ∧
     (F64.fin 0 < (NewBid (F64.fin price) (F64.fin baseVolume)).QuoteVolumeIn ↔
       1 / 10 ^ 8 ≤ price * baseVolume) ∧
     (F64.fin 0 < (NewBid (F64.fin price) (F64.fin baseVolume)).BaseVolumeOut ↔
       1 / 10 ^ 8 ≤ baseVolume - baseVolume * 0.001)) ∧
    ((NewAsk (F64.fin price) (F64.fin baseVolume)).QuoteVolumeIn = F64.fin 0 ∧
     (NewAsk (F64.fin price) (F64.fin baseVolume)).BaseVolumeOut = F64.fin 0 ∧
     (F64.fin 0 < (NewAsk (F64.fin price) (F64.fin baseVolume)).BaseVolumeIn ↔
       1 / 10 ^ 8 ≤ baseVolume) ∧
     (F64.fin 0 < (NewAsk (F64.fin price) (F64.fin baseVolume)).QuoteVolumeOut ↔
       1 / 10 ^ 8 ≤ price * baseVolume - price * baseVolume * 0.001)) := by
  obtain ⟨b1, b2, b3, b4⟩ := NewBid_inout price baseVolume
  obtain ⟨a1, a2, a3, a4⟩ := NewAsk_inout price baseVolume
  have hq : 0 ≤ price * baseVolume := by positivity
  have e1 : baseVolume - baseVolume * (0.001 : ℚ) = baseVolume - baseVolume * (0.10 / 100) := by
    norm_num
  have e2 : price * baseVolume - price * baseVolume * (0.001 : ℚ)
      = price * baseVolume - price * baseVolume * (0.10 / 100) := by norm_num
  refine ⟨⟨b1, b4, ?_, ?_⟩, ⟨a2, a3, ?_, ?_⟩⟩
  · rw [b2, F64.fin_lt_fin, truncToward0_pos_iff hq]
  · rw [b3, F64.fin_lt_fin, truncToward0_pos_iff (net_nonneg hv), e1]
  · rw [a1, F64.fin_lt_fin, truncToward0_pos_iff hv]
  · rw [a4, F64.fin_lt_fin, truncToward0_pos_iff (net_nonneg hq), e2]

/-- Witness of C13 amended: price 100, base volume 2. -/
theorem in_out_positive_iff_above_tick_witness :
    (0 : ℚ) < 100 ∧ (0 : ℚ) ≤ 2 ∧
    ((NewBid (F64.fin 100) (F64.fin 2)).BaseVolumeIn = F64.fin 0 ∧
     (NewBid (F64.fin 100) (F64.fin 2)).QuoteVolumeOut = F64.fin 0 ∧
     (F64.fin 0 < (NewBid (F64.fin 100) (F64.fin 2)).QuoteVolumeIn ↔
       1 / 10 ^ 8 ≤ (100 : ℚ) * 2) ∧
     (F64.fin 0 < (NewBid (F64.fin 100) (F64.fin 2)).BaseVolumeOut ↔
       1 / 10 ^ 8 ≤ (2 : ℚ) - 2 * 0.001)) ∧
    ((NewAsk (F64.fin 100) (F64.fin 2)).QuoteVolumeIn = F64.fin 0 ∧
     (NewAsk (F64.fin 100) (F64.fin 2)).BaseVolumeOut = F64.fin 0 ∧
     (F64.fin 0 < (NewAsk (F64.fin 100) (F64.fin 2)).BaseVolumeIn ↔
       1 / 10 ^ 8 ≤ (2 : ℚ)) ∧
     (F64.fin 0 < (NewAsk (F64.fin 100) (F64.fin 2)).QuoteVolumeOut ↔
       1 / 10 ^ 8 ≤ (100 : ℚ) * 2 - 100 * 2 * 0.001)) :=
  ⟨by norm_num, by norm_num, in_out_positive_iff_above_tick 100 2 (by norm_num) (by norm_num)⟩

/-- C14: for every order built by `NewBid` or `NewAsk` with price > 0 and baseVolume >= 0,
and after any sequence of `UpdateBaseVolume(v)` / `UpdateQuoteVolume(v)` calls with
v >= 0, the fields BaseVolume, QuoteVolume, Fee, BaseVolumeIn, BaseVolumeOut,
QuoteVolumeIn and QuoteVolumeOut are all >= 0. -/
theorem volumes_never_negative (price baseVolume : ℚ) (hp : 0 < price)
    (hv : 0 ≤ baseVolume) (us : List VolumeUpdate) (hus : ∀ u ∈ us, 0 ≤ u.volume) :
    NonNegVolumes ((NewBid (F64.fin price) (F64.fin baseVolume)).applyUpdates us) ∧
    NonNegVolumes ((NewAsk (F64.fin price) (F64.fin baseVolume)).applyUpdates us) :=
  ⟨NonNegVolumes_applyUpdates us _ price (by simp) hp (by simp) (by simp) hus
      (NonNegVolumes_NewBid price baseVolume hp hv),
    NonNegVolumes_applyUpdates us _ price (by simp) hp (by simp) (by simp) hus
      (NonNegVolumes_NewAsk price baseVolume hp hv)⟩

/-- Witness of C14: price 100 and base volume 2, then `UpdateQuoteVolume(50)` and
`UpdateBaseVolume(0)`. -/
theorem volumes_never_negative_witness :
    (0 : ℚ) < 100 ∧ (0 : ℚ) ≤ 2 ∧
    (∀ u ∈ [VolumeUpdate.quote 50, VolumeUpdate.base 0], 0 ≤ u.volume) ∧
    NonNegVolumes ((NewBid (F64.fin 100) (F64.fin 2)).applyUpdates
      [VolumeUpdate.quote 50, VolumeUpdate.base 0]) ∧
    NonNegVolumes ((NewAsk (F64.fin 100) (F64.fin 2)).applyUpdates
      [VolumeUpdate.quote 50, VolumeUpdate.base 0]) :=
  ⟨by norm_num, by norm_num, by simp [VolumeUpdate.volume],
    volumes_never_negative 100 2 (by norm_num) (by norm_num)
      [VolumeUpdate.quote 50, VolumeUpdate.base 0] (by simp [VolumeUpdate.volume])⟩

/-- C17: truncation is idempotent, trunc8(trunc8(x)) = trunc8(x) for every x (positive,
zero or negative, and also an infinity or a NaN); consequently every in/out field of the
order `NewBid` or `NewAsk` returns, and of the order `UpdateBaseVolume` or
`UpdateQuoteVolume` leaves on an order of side Bid or Ask, is a fixed point of trunc8. -/
theorem truncation_is_idempotent :
    (∀ x : F64, Trunc8 (Trunc8 x) = Trunc8 x) ∧
    (∀ q : ℚ, truncToward0 (truncToward0 q) = truncToward0 q) ∧
    (∀ price baseVolume : F64,
      InOutFixed (NewBid price baseVolume) ∧ InOutFixed (NewAsk price baseVolume)) ∧
    (∀ (o : Order) (v : F64), (o.TransactionType = Bid ∨ o.TransactionType = Ask) →
      InOutFixed (o.UpdateBaseVolume v) ∧ InOutFixed (o.UpdateQuoteVolume v)) := by
  refine ⟨Trunc8_idem, truncToward0_idem, fun price baseVolume => ⟨?_, ?_⟩,
    fun o v hside => ⟨InOutFixed_UpdateBaseVolume o v hside,
      InOutFixed_UpdateQuoteVolume o v hside⟩⟩
  · rw [NewBid_eq]; exact InOutFixed_UpdateBaseVolume _ _ (Or.inl rfl)
  · rw [NewAsk_eq]; exact InOutFixed_UpdateBaseVolume _ _ (Or.inr rfl)

/-- Witness of C17: the Ask `NewAsk(50, 10)` updated with the volume 1/3, which has more
than 8 fractional digits. -/
theorem truncation_is_idempotent_witness :
    ((NewAsk (F64.fin 50) (F64.fin 10)).TransactionType = Bid ∨
      (NewAsk (F64.fin 50) (F64.fin 10)).TransactionType = Ask) ∧
    InOutFixed ((NewAsk (F64.fin 50) (F64.fin 10)).UpdateBaseVolume (F64.fin (1 / 3))) ∧
    InOutFixed ((NewAsk (F64.fin 50) (F64.fin 10)).UpdateQuoteVolume (F64.fin (1 / 3))) :=
  ⟨Or.inr (by simp),
    truncation_is_idempotent.2.2.2 (NewAsk (F64.fin 50) (F64.fin 10)) (F64.fin (1 / 3))
      (Or.inr (by simp))⟩

/-- C18, as stated, fails on float64.  For `NewAsk(1, 777.4)` the code truncates
QuoteVolume - QuoteVolume * TakerFee and gets QuoteVolumeOut = 776.6226, which is more than
QuoteVolume * (1 - TakerFee), a float64 just below 776.6226.  For
`NewBid(1, 690.679432082082)` the net amount BaseVolume - Fee is the float64 just below
689.98875265, its product by 10^8 rounds to the integer 68998875265, and BaseVolumeOut is
the float64 nearest to 689.98875265, one step above BaseVolume - Fee. -/
theorem truncated_net_exceeds_bound_on_float64 :
    (F64.fin 0 < F64.fin 1 ∧ F64.fin 0 ≤ round64 777.4 ∧
     (float64.NewAsk (F64.fin 1) (round64 777.4)).QuoteVolumeOut = round64 776.6226 ∧
     float64.mul (float64.NewAsk (F64.fin 1) (round64 777.4)).QuoteVolume
         (float64.sub (F64.fin 1) (float64.NewAsk (F64.fin 1) (round64 777.4)).TakerFee)
       < (float64.NewAsk (F64.fin 1) (round64 777.4)).QuoteVolumeOut ∧
     ¬ ((float64.NewAsk (F64.fin 1) (round64 777.4)).QuoteVolumeOut
         ≤ float64.mul (float64.NewAsk (F64.fin 1) (round64 777.4)).QuoteVolume
             (float64.sub (F64.fin 1)
               (float64.NewAsk (F64.fin 1) (round64 777.4)).TakerFee))) ∧
    (F64.fin 0 ≤ round64 690.679432082082 ∧
     float64.sub (float64.NewBid (F64.fin 1) (round64 690.679432082082)).BaseVolume
         (float64.NewBid (F64.fin 1) (round64 690.679432082082)).Fee
       < (float64.NewBid (F64.fin 1) (round64 690.679432082082)).BaseVolumeOut ∧
     ¬ ((float64.NewBid (F64.fin 1) (round64 690.679432082082)).BaseVolumeOut
         ≤ float64.sub (float64.NewBid (F64.fin 1) (round64 690.679432082082)).BaseVolume
             (float64.NewBid (F64.fin 1) (round64 690.679432082082)).Fee)) := by
  obtain ⟨-, -, -, a4⟩ := float64.NewAsk_inout_f64 (F64.fin 1) (round64 777.4)
  obtain ⟨-, -, b3, -⟩ := float64.NewBid_inout_f64 (F64.fin 1) (round64 690.679432082082)
  have hout : (float64.NewAsk (F64.fin 1) (round64 777.4)).QuoteVolumeOut
      = F64.fin (6831244632749035 / 8796093022208) := by
    rw [a4, float64.lit_777_4, float64.takerFee_eq, float64.one_times_777_4,
      float64.fee_777_4, float64.net_777_4, float64.Trunc8_net_777_4]
  have hbound : float64.mul (float64.NewAsk (F64.fin 1) (round64 777.4)).QuoteVolume
      (float64.sub (F64.fin 1) (float64.NewAsk (F64.fin 1) (round64 777.4)).TakerFee)
      = F64.fin (3415622316374517 / 4398046511104) := by
    rw [float64.NewAsk_QuoteVolume_f64, float64.NewAsk_TakerFee_f64, float64.lit_777_4,
      float64.takerFee_eq, float64.one_times_777_4, float64.one_minus_takerFee,
      float64.claimed_net_777_4]
  have hout2 : (float64.NewBid (F64.fin 1) (round64 690.679432082082)).BaseVolumeOut
      = F64.fin (6069205252586667 / 8796093022208) := by
    rw [b3, float64.lit_690_68, float64.takerFee_eq, float64.fee_690_68,
      float64.net_690_68, float64.Trunc8_net_690_68]
  have hnet2 :
      float64.sub (float64.NewBid (F64.fin 1) (round64 690.679432082082)).BaseVolume
        (float64.NewBid (F64.fin 1) (round64 690.679432082082)).Fee
      = F64.fin (3034602626293333 / 4398046511104) := by
    rw [float64.NewBid_BaseVolume_f64, float64.NewBid_Fee_f64, float64.lit_690_68,
      float64.takerFee_eq, float64.fee_690_68, float64.net_690_68]
  refine ⟨⟨by simp, ?_, ?_, ?_, ?_⟩, ⟨?_, ?_, ?_⟩⟩
  · rw [float64.lit_777_4, F64.fin_le_fin]; norm_num
  · rw [hout, float64.lit_776_6226]
  · rw [hout, hbound, F64.fin_lt_fin]; norm_num
  · rw [hout, hbound, F64.fin_le_fin]; norm_num
  · rw [float64.lit_690_68, F64.fin_le_fin]; norm_num
  · rw [hout2, hnet2, F64.fin_lt_fin]; norm_num
  · rw [hout2, hnet2, F64.fin_le_fin]; norm_num

/-- C18, amended: on float64, for every price > 0 and baseVolume >= 0 without overflow
(baseVolume and price * baseVolume at most 2^989), with u = 2^-53: the net amount
X = BaseVolume - Fee of the Bid `NewBid(price, baseVolume)` is finite and
(X * (1 - u) - 10^-8) * (1 - u) < BaseVolumeOut <= X * (1 + u)^2; and the net amount
X = QuoteVolume - QuoteVolume * TakerFee of the Ask `NewAsk(price, baseVolume)` is finite
and (X * (1 - u) - 10^-8) * (1 - u) < QuoteVolumeOut <= X * (1 + u)^2. -/
theorem truncation_bounded_up_to_rounding (price baseVolume : ℚ) (hp : 0 < price)
    (hv : 0 ≤ baseVolume) (hmax : baseVolume ≤ 2 ^ 989)
    (hqmax : price * baseVolume ≤ 2 ^ 989) :
    (∃ x out,
      float64.sub (float64.NewBid (F64.fin price) (F64.fin baseVolume)).BaseVolume
        (float64.NewBid (F64.fin price) (F64.fin baseVolume)).Fee = F64.fin x ∧
      (float64.NewBid (F64.fin price) (F64.fin baseVolume)).BaseVolumeOut = F64.fin out ∧
      0 ≤ x ∧ out ≤ x * (1 + 1 / 2 ^ 53) ^ 2 ∧
      (x * (1 - 1 / 2 ^ 53) - 1 / 10 ^ 8) * (1 - 1 / 2 ^ 53) < out) ∧
    (∃ x out,
      float64.sub (float64.NewAsk (F64.fin price) (F64.fin baseVolume)).QuoteVolume
        (float64.mul (float64.NewAsk (F64.fin price) (F64.fin baseVolume)).QuoteVolume
          (float64.NewAsk (F64.fin price) (F64.fin baseVolume)).TakerFee) = F64.fin x ∧
      (float64.NewAsk (F64.fin price) (F64.fin baseVolume)).QuoteVolumeOut = F64.fin out ∧
      0 ≤ x ∧ out ≤ x * (1 + 1 / 2 ^ 53) ^ 2 ∧
      (x * (1 - 1 / 2 ^ 53) - 1 / 10 ^ 8) * (1 - 1 / 2 ^ 53) < out) := by
  obtain ⟨-, -, b3, -⟩ := float64.NewBid_inout_f64 (F64.fin price) (F64.fin baseVolume)
  obtain ⟨-, -, -, a4⟩ := float64.NewAsk_inout_f64 (F64.fin price) (F64.fin baseVolume)
  have e1 : (2 : ℚ) ^ 989 ≤ (2 : ℚ) ^ (990 : ℤ) := by norm_num
  have e2 : (2 : ℚ) ^ 989 ≤ (2 : ℚ) ^ (1023 : ℤ) := by norm_num
  have e3 : 2 * (2 : ℚ) ^ 989 ≤ (2 : ℚ) ^ (990 : ℤ) := by norm_num
  constructor
  · -- the Bid
    obtain ⟨x, out, hx, hout, hx0, hup, hlo⟩ :=
      float64.net_bounds baseVolume hv (le_trans hmax e1)
    refine ⟨x, out, ?_, ?_, hx0, hup, hlo⟩
    · rw [float64.NewBid_BaseVolume_f64, float64.NewBid_Fee_f64]; exact hx
    · rw [b3]; exact hout
  · -- the Ask: first the quote volume
    obtain ⟨q, hq, hq0, hq2⟩ := round64_le_double (price * baseVolume)
      (mul_nonneg hp.le hv) (le_trans hqmax e2)
    have hq' : float64.mul (F64.fin price) (F64.fin baseVolume) = F64.fin q :=
      float64.mul_fin _ _ _ hq
    obtain ⟨x, out, hx, hout, hx0, hup, hlo⟩ :=
      float64.net_bounds q hq0 (le_trans hq2 (le_trans (by linarith) e3))
    refine ⟨x, out, ?_, ?_, hx0, hup, hlo⟩
    · rw [float64.NewAsk_QuoteVolume_f64, float64.NewAsk_TakerFee_f64, hq']; exact hx
    · rw [a4, hq']; exact hout

/-- Witness of C18 amended: price 3 and base volume 1/7. -/
theorem truncation_bounded_up_to_rounding_witness :
    (0 : ℚ) < 3 ∧ (0 : ℚ) ≤ 1 / 7 ∧ (1 / 7 : ℚ) ≤ 2 ^ 989 ∧ (3 * (1 / 7) : ℚ) ≤ 2 ^ 989 ∧
    (∃ x out,
      float64.sub (float64.NewBid (F64.fin 3) (F64.fin (1 / 7))).BaseVolume
        (float64.NewBid (F64.fin 3) (F64.fin (1 / 7))).Fee = F64.fin x ∧
      (float64.NewBid (F64.fin 3) (F64.fin (1 / 7))).BaseVolumeOut = F64.fin out ∧
      0 ≤ x ∧ out ≤ x * (1 + 1 / 2 ^ 53) ^ 2 ∧
      (x * (1 - 1 / 2 ^ 53) - 1 / 10 ^ 8) * (1 - 1 / 2 ^ 53) < out) ∧
    (∃ x out,
      float64.sub (float64.NewAsk (F64.fin 3) (F64.fin (1 / 7))).QuoteVolume
        (float64.mul (float64.NewAsk (F64.fin 3) (F64.fin (1 / 7))).QuoteVolume
          (float64.NewAsk (F64.fin 3) (F64.fin (1 / 7))).TakerFee) = F64.fin x ∧
      (float64.NewAsk (F64.fin 3) (F64.fin (1 / 7))).QuoteVolumeOut = F64.fin out ∧
      0 ≤ x ∧ out ≤ x * (1 + 1 / 2 ^ 53) ^ 2 ∧
      (x * (1 - 1 / 2 ^ 53) - 1 / 10 ^ 8) * (1 - 1 / 2 ^ 53) < out) :=
  have h := truncation_bounded_up_to_rounding 3 (1 / 7) (by norm_num) (by norm_num)
    (by norm_num) (by norm_num)
  ⟨by norm_num, by norm_num, by norm_num, by norm_num, h.1, h.2⟩

/-- C19: for every order o and every v, `UpdateBaseVolume(v)` and `UpdateQuoteVolume(v)`
leave Price, PriceOfQuoteToBase, TakerFee, TransactionType, Hit and Progress unchanged;
and when the TransactionType of o is neither Bid nor Ask they also leave BaseVolumeIn,
BaseVolumeOut, QuoteVolumeIn and QuoteVolumeOut unchanged. -/
theorem volume_updates_frame (o : Order) (v : F64) :
    SameFrame (o.UpdateBaseVolume v) o ∧ SameFrame (o.UpdateQuoteVolume v) o ∧
    (o.TransactionType ≠ Bid → o.TransactionType ≠ Ask →
      SameInOut (o.UpdateBaseVolume v) o ∧ SameInOut (o.UpdateQuoteVolume v) o) :=
  ⟨SameFrame_UpdateBaseVolume o v, SameFrame_UpdateQuoteVolume o v,
    fun hb ha => ⟨SameInOut_UpdateBaseVolume o v hb ha, SameInOut_UpdateQuoteVolume o v hb ha⟩⟩

/-- Witness of C19: the order `NewBid(100, 2)` with its TransactionType set to 2, updated
with the volume 5. -/
theorem volume_updates_frame_witness :
    ({ NewBid (F64.fin 100) (F64.fin 2) with TransactionType := 2 } : Order).TransactionType
      ≠ Bid ∧
    ({ NewBid (F64.fin 100) (F64.fin 2) with TransactionType := 2 } : Order).TransactionType
      ≠ Ask ∧
    SameInOut (({ NewBid (F64.fin 100) (F64.fin 2) with TransactionType := 2 } :
      Order).UpdateBaseVolume (F64.fin 5))
      { NewBid (F64.fin 100) (F64.fin 2) with TransactionType := 2 } ∧
    SameInOut (({ NewBid (F64.fin 100) (F64.fin 2) with TransactionType := 2 } :
      Order).UpdateQuoteVolume (F64.fin 5))
      { NewBid (F64.fin 100) (F64.fin 2) with TransactionType := 2 } :=
  ⟨by decide, by decide,
    (volume_updates_frame { NewBid (F64.fin 100) (F64.fin 2) with TransactionType := 2 }
      (F64.fin 5)).2.2 (by decide) (by decide)⟩

/-- C20: for every price > 0 and all 0 <= v1 <= v2, `NewBid(price, v1)` has BaseVolumeOut
and QuoteVolumeIn at most those of `NewBid(price, v2)`, and `NewAsk(price, v1)` has
QuoteVolumeOut and BaseVolumeIn at most those of `NewAsk(price, v2)`. -/
theorem net_amounts_monotone_in_volume (price v1 v2 : ℚ) (hp : 0 < price) (h1 : 0 ≤ v1)
    (h12 : v1 ≤ v2) :
    (NewBid (F64.fin price) (F64.fin v1)).BaseVolumeOut
      ≤ (NewBid (F64.fin price) (F64.fin v2)).BaseVolumeOut ∧
    (NewBid (F64.fin price) (F64.fin v1)).QuoteVolumeIn
      ≤ (NewBid (F64.fin price) (F64.fin v2)).QuoteVolumeIn ∧
    (NewAsk (F64.fin price) (F64.fin v1)).QuoteVolumeOut
      ≤ (NewAsk (F64.fin price) (F64.fin v2)).QuoteVolumeOut ∧
    (NewAsk (F64.fin price) (F64.fin v1)).BaseVolumeIn
      ≤ (NewAsk (F64.fin price) (F64.fin v2)).BaseVolumeIn := by
  obtain ⟨-, b2, b3, -⟩ := NewBid_inout price v1
  obtain ⟨-, c2, c3, -⟩ := NewBid_inout price v2
  obtain ⟨a1, -, -, a4⟩ := NewAsk_inout price v1
  obtain ⟨d1, -, -, d4⟩ := NewAsk_inout price v2
  have hq1 : 0 ≤ price * v1 := by positivity
  have hq : price * v1 ≤ price * v2 := mul_le_mul_of_nonneg_left h12 hp.le
  have hnet : ∀ x y : ℚ, x ≤ y → x - x * (0.10 / 100) ≤ y - y * (0.10 / 100) := by
    intro x y hxy; linarith
  rw [b2, b3, c2, c3, a1, a4, d1, d4]
  simp only [F64.fin_le_fin]
  exact ⟨truncToward0_mono (net_nonneg h1) (hnet _ _ h12), truncToward0_mono hq1 hq,
    truncToward0_mono (net_nonneg hq1) (hnet _ _ hq), truncToward0_mono h1 h12⟩

/-- Witness of C20: price 100 and the volumes 1/3 <= 2. -/
theorem net_amounts_monotone_in_volume_witness :
    (0 : ℚ) < 100 ∧ (0 : ℚ) ≤ 1 / 3 ∧ (1 / 3 : ℚ) ≤ 2 ∧
    (NewBid (F64.fin 100) (F64.fin (1 / 3))).BaseVolumeOut
      ≤ (NewBid (F64.fin 100) (F64.fin 2)).BaseVolumeOut ∧
    (NewBid (F64.fin 100) (F64.fin (1 / 3))).QuoteVolumeIn
      ≤ (NewBid (F64.fin 100) (F64.fin 2)).QuoteVolumeIn ∧
    (NewAsk (F64.fin 100) (F64.fin (1 / 3))).QuoteVolumeOut
      ≤ (NewAsk (F64.fin 100) (F64.fin 2)).QuoteVolumeOut ∧
    (NewAsk (F64.fin 100) (F64.fin (1 / 3))).BaseVolumeIn
      ≤ (NewAsk (F64.fin 100) (F64.fin 2)).BaseVolumeIn :=
  ⟨by norm_num, by norm_num, by norm_num,
    net_amounts_monotone_in_volume 100 (1 / 3) 2 (by norm_num) (by norm_num) (by norm_num)⟩

end core

namespace exchanges

open core

/-! ## The factory -/

/-- The exchange on which `BuildExchange` calls `GetPortfolio`, and which it returns. -/
theorem BuildExchange_fst (env : Env) (name : String) :
    (BuildExchange env name).1 =
      (let config := env.GetStringMapString (String.intercalate "." ["exchanges", name])
       let exchange :=
         ((({ Exchange.zero with Name := name } : Exchange).LoadPairsEnabled env.splitPairs
           (config "pairs_enabled")))
       let exchange :=
         (if name = "Binance" then injectStandardizedMethods exchange env.Binance
          else if name = "Liqui" then injectStandardizedMethods exchange env.Liqui
          else exchange).LoadSettings
       { exchange with
         ExchangeSettings :=
           { exchange.ExchangeSettings with
             APIKey := config "api_key", APISecret := config "api_secret" } }) := by
  unfold BuildExchange
  dsimp only
  split <;> rfl

/-- The effects of a run, from the outcome of the portfolio fetch on the returned
exchange. -/
theorem BuildExchange_snd (env : Env) (name : String) :
    (BuildExchange env name).2 =
      Effect.printBuilding name
          (env.GetStringMapString (String.intercalate "." ["exchanges", name])) ::
        (match (BuildExchange env name).1.GetPortfolio with
         | Except.ok portfolio =>
           [Effect.UpdateWithNewState
             (env.NewPortfolioStateFromPositions portfolio.Positions) false]
         | Except.error err => [Effect.printPortfolioError err]) := by
  rw [BuildExchange_fst]
  unfold BuildExchange
  dsimp only
  split <;> rename_i h <;> simp only [h] <;> rfl

theorem LoadSettings_funcs (e : Exchange) :
    e.LoadSettings.FuncGetSettings = e.FuncGetSettings ∧
    e.LoadSettings.FuncGetOrderbook = e.FuncGetOrderbook ∧
    e.LoadSettings.FuncGetPortfolio = e.FuncGetPortfolio ∧
    e.LoadSettings.FuncPostOrder = e.FuncPostOrder ∧
    e.LoadSettings.Name = e.Name := by
  unfold Exchange.LoadSettings
  split
  · split <;> exact ⟨rfl, rfl, rfl, rfl, rfl⟩
  · exact ⟨rfl, rfl, rfl, rfl, rfl⟩

theorem injectStandardizedMethods_funcs (b : Exchange) (exch : standardizedExchange) :
    (injectStandardizedMethods b exch).FuncGetSettings = some exch.GetSettings ∧
    (injectStandardizedMethods b exch).FuncGetOrderbook = some exch.GetOrderbook ∧
    (injectStandardizedMethods b exch).FuncGetPortfolio = some exch.GetPortfolio ∧
    (injectStandardizedMethods b exch).FuncPostOrder = some exch.PostOrder ∧
    (injectStandardizedMethods b exch).Name = b.Name :=
  ⟨rfl, rfl, rfl, rfl, rfl⟩

/-- The calls of the portfolio manager in a run, from the outcome of the portfolio fetch. -/
theorem managerCalls_BuildExchange (env : Env) (name : String) :
    managerCalls (BuildExchange env name).2 =
      (match (BuildExchange env name).1.GetPortfolio with
       | Except.ok portfolio =>
         [(env.NewPortfolioStateFromPositions portfolio.Positions, false)]
       | Except.error _ => []) := by
  rw [BuildExchange_snd]
  cases (BuildExchange env name).1.GetPortfolio <;> rfl

/-! ## Claims on the factory -/

/-- C15, on the code: for every name other than "Binance" and "Liqui", `BuildExchange(name)`
reports no failure; the `default` case of its switch binds nothing, it goes on to load the
settings and fetch the portfolio on that exchange, and it returns an Exchange named `name`
whose four bound operations are all unset, after printing the failed portfolio fetch and
without a call of the portfolio manager. -/
theorem unknown_venue_gets_unbound_exchange (env : Env) (name : String)
    (h1 : name ≠ "Binance") (h2 : name ≠ "Liqui") :
    ∃ e out, callBuildExchange env name = Except.ok (e, out) ∧ e.Name = name ∧
      NoOperationBound e ∧
      out = [Effect.printBuilding name
               (env.GetStringMapString (String.intercalate "." ["exchanges", name])),
             Effect.printPortfolioError "not configured"] ∧
      managerCalls out = [] := by
  have hfst := BuildExchange_fst env name
  simp only [if_neg h1, if_neg h2] at hfst
  have hnone : (BuildExchange env name).1.FuncGetPortfolio = none := by rw [hfst]; rfl
  have hget : (BuildExchange env name).1.GetPortfolio = Except.error "not configured" := by
    unfold Exchange.GetPortfolio; rw [hnone]
  have hout := BuildExchange_snd env name
  rw [hget] at hout
  refine ⟨(BuildExchange env name).1, (BuildExchange env name).2, rfl, ?_, ?_, hout, ?_⟩
  · rw [hfst]; rfl
  · rw [hfst]; exact ⟨rfl, rfl, rfl, rfl⟩
  · rw [hout]; rfl

/-- Witness of C15: the venue name "Kraken" in the example environment. -/
theorem unknown_venue_gets_unbound_exchange_witness :
    "Kraken" ≠ "Binance" ∧ "Kraken" ≠ "Liqui" ∧
    ∃ e out, callBuildExchange exampleEnv "Kraken" = Except.ok (e, out) ∧ e.Name = "Kraken" ∧
      NoOperationBound e ∧
      out = [Effect.printBuilding "Kraken"
               (exampleEnv.GetStringMapString (String.intercalate "." ["exchanges", "Kraken"])),
             Effect.printPortfolioError "not configured"] ∧
      managerCalls out = [] :=
  ⟨by decide, by decide,
    unknown_venue_gets_unbound_exchange exampleEnv "Kraken" (by decide) (by decide)⟩

/-- C16: for every recognized name, `BuildExchange` returns the populated Exchange, named
`name`, bound to the provider of that name and with APIKey and APISecret equal to the
`api_key` and `api_secret` of the configuration, whether the portfolio fetch on it
succeeds or fails; and `UpdateWithNewState` is called, once, with the state built from the
fetched positions and incremental = false, if and only if the fetch succeeded. -/
theorem portfolio_fetch_failure_is_not_fatal (env : Env) (name : String)
    (hname : name = "Binance" ∨ name = "Liqui") :
    ∃ e out, callBuildExchange env name = Except.ok (e, out) ∧ e.Name = name ∧
      e.ExchangeSettings.APIKey
        = env.GetStringMapString (String.intercalate "." ["exchanges", name]) "api_key" ∧
      e.ExchangeSettings.APISecret
        = env.GetStringMapString (String.intercalate "." ["exchanges", name]) "api_secret" ∧
      e.FuncGetPortfolio
        = some (if name = "Binance" then env.Binance else env.Liqui).GetPortfolio ∧
      (∀ portfolio, e.GetPortfolio = Except.ok portfolio →
        managerCalls out = [(env.NewPortfolioStateFromPositions portfolio.Positions, false)]) ∧
      (∀ err, e.GetPortfolio = Except.error err → managerCalls out = []) ∧
      (managerCalls out ≠ [] ↔ ∃ portfolio, e.GetPortfolio = Except.ok portfolio) := by
  have hcalls := managerCalls_BuildExchange env name
  have hfst := BuildExchange_fst env name
  refine ⟨(BuildExchange env name).1, (BuildExchange env name).2, rfl, ?_, ?_, ?_, ?_, ?_, ?_, ?_⟩
  · rw [hfst]
    rcases hname with h | h <;> subst h <;>
      simp [(LoadSettings_funcs _).2.2.2.2, (injectStandardizedMethods_funcs _ _).2.2.2.2,
        Exchange.LoadPairsEnabled]
  · rw [hfst]
  · rw [hfst]
  · rw [hfst]
    rcases hname with h | h <;> subst h <;>
      simp [(LoadSettings_funcs _).2.2.1, (injectStandardizedMethods_funcs _ _).2.2.1]
  · intro portfolio hp
    rw [hcalls, hp]
  · intro err he
    rw [hcalls, he]
  · rw [hcalls]
    cases hg : (BuildExchange env name).1.GetPortfolio with
    | ok portfolio => simp
    | error err => simp

/-- Witness of C16: the venue "Binance" in the example environment, whose portfolio fetch
succeeds, and the venue "Liqui", whose portfolio fetch fails. -/
theorem portfolio_fetch_failure_is_not_fatal_witness :
    ("Binance" = "Binance" ∨ "Binance" = "Liqui") ∧
    (∃ e out, callBuildExchange exampleEnv "Binance" = Except.ok (e, out) ∧
      e.Name = "Binance" ∧
      e.ExchangeSettings.APIKey
        = exampleEnv.GetStringMapString (String.intercalate "." ["exchanges", "Binance"])
            "api_key" ∧
      e.ExchangeSettings.APISecret
        = exampleEnv.GetStringMapString (String.intercalate "." ["exchanges", "Binance"])
            "api_secret" ∧
      e.FuncGetPortfolio
        = some (if "Binance" = "Binance" then exampleEnv.Binance
                else exampleEnv.Liqui).GetPortfolio ∧
      (∀ portfolio, e.GetPortfolio = Except.ok portfolio →
        managerCalls out
          = [(exampleEnv.NewPortfolioStateFromPositions portfolio.Positions, false)]) ∧
      (∀ err, e.GetPortfolio = Except.error err → managerCalls out = []) ∧
      (managerCalls out ≠ [] ↔ ∃ portfolio, e.GetPortfolio = Except.ok portfolio)) ∧
    managerCalls (BuildExchange exampleEnv "Binance").2 = [(2, false)] ∧
    managerCalls (BuildExchange exampleEnv "Liqui").2 = [] ∧
    (BuildExchange exampleEnv "Liqui").1.ExchangeSettings.APIKey = "key" :=
  ⟨Or.inl rfl, portfolio_fetch_failure_is_not_fatal exampleEnv "Binance" (Or.inl rfl),
    by decide, by decide, by decide⟩

end exchanges
